import Mathlib

/-!
# Journey animation engine of `dist/script.js`

A shallow embedding of the journey animation code of `dist/script.js`
(arc construction, the path registry, the per-frame travel/pause state
machine, the particle trail and the timeline controls) together with
theorems about it.

Conventions of the embedding.

* JavaScript numbers are modelled with exact arithmetic: the journey state
  uses `ℚ` (all its values are decimal literals and their sums), the
  geometry is generic over a field `K` with the functions of the `Math`
  object it uses passed as a record.
* The script's global variables form the record `State`; every function of
  the script that mutates them becomes a function `State → State`.
* `Math.random() < 0.5` is modelled by a Boolean argument of the tick.
* Effects that only concern rendering (vehicle position and orientation,
  particle positions, DOM texts, the camera) are not part of `State`.
-/

namespace Journey

/-! ## Geometry -/

/-- Three-component vector (`THREE.Vector3`). -/
structure Vector3 (K : Type) where
  x : K
  y : K
  z : K
deriving DecidableEq, Repr

/-- Functions and constants of the JavaScript `Math` object used by the
geometry code. -/
structure JSMath (K : Type) where
  PI : K
  sin : K → K
  cos : K → K
  sqrt : K → K

namespace Vector3

variable {K : Type} [Field K]

/-- `new THREE.Vector3().addVectors(a, b)`. -/
def addVectors (a b : Vector3 K) : Vector3 K :=
  ⟨a.x + b.x, a.y + b.y, a.z + b.z⟩

/-- `v.multiplyScalar(s)`. -/
def multiplyScalar (v : Vector3 K) (s : K) : Vector3 K :=
  ⟨v.x * s, v.y * s, v.z * s⟩

/-- `v.length()`. -/
def length (M : JSMath K) (v : Vector3 K) : K :=
  M.sqrt (v.x * v.x + v.y * v.y + v.z * v.z)

/-- `a.distanceTo(b)`. -/
def distanceTo (M : JSMath K) (a b : Vector3 K) : K :=
  let dx := a.x - b.x
  let dy := a.y - b.y
  let dz := a.z - b.z
  M.sqrt (dx * dx + dy * dy + dz * dz)

/-- `v.divideScalar(s)`: the zero vector when `s` is zero. -/
def divideScalar (v : Vector3 K) (s : K) : Vector3 K :=
  ⟨v.x / s, v.y / s, v.z / s⟩

/-- `v.normalize()`, that is `v.divideScalar(v.length())`. -/
def normalize (M : JSMath K) (v : Vector3 K) : Vector3 K :=
  v.divideScalar (v.length M)

end Vector3

/-- Quadratic Bezier curve with its three control points
(`THREE.QuadraticBezierCurve3`). -/
structure QuadraticBezierCurve3 (K : Type) where
  v0 : Vector3 K
  v1 : Vector3 K
  v2 : Vector3 K
deriving DecidableEq, Repr

/-- Quadratic Bezier interpolation of one coordinate. -/
def b2 {K : Type} [Field K] (t p0 p1 p2 : K) : K :=
  (1 - t) * (1 - t) * p0 + 2 * (1 - t) * t * p1 + t * t * p2

/-- `curve.getPoint(t)`. -/
def QuadraticBezierCurve3.getPoint {K : Type} [Field K]
    (c : QuadraticBezierCurve3 K) (t : K) : Vector3 K :=
  ⟨b2 t c.v0.x c.v1.x c.v2.x, b2 t c.v0.y c.v1.y c.v2.y, b2 t c.v0.z c.v1.z c.v2.z⟩

/-- `markerProto.latLongToVector3(latitude, longitude, radius, height)`. -/
def latLongToVector3 {K : Type} [Field K] (M : JSMath K)
    (latitude longitude radius height : K) : Vector3 K :=
  let phi := latitude * M.PI / 180
  let theta := (longitude - 180) * M.PI / 180
  let x := -(radius + height) * M.cos phi * M.cos theta
  let y := (radius + height) * M.sin phi
  let z := (radius + height) * M.cos phi * M.sin theta
  ⟨x, y, z⟩

/-- `createArcCurve(startLat, startLng, endLat, endLng, radius)`. -/
def createArcCurve {K : Type} [Field K] (M : JSMath K)
    (startLat startLng endLat endLng radius : K) : QuadraticBezierCurve3 K :=
  let start := latLongToVector3 M startLat startLng radius 0
  let «end» := latLongToVector3 M endLat endLng radius 0
  let midPoint := (Vector3.addVectors start «end»).multiplyScalar 0.5
  let distance := start.distanceTo M «end»
  let heightFactor := distance * 0.3
  let midPoint := (midPoint.normalize M).multiplyScalar (radius + heightFactor)
  ⟨start, midPoint, «end»⟩

/-! ## Itinerary and path registry -/

/-- One entry of `travelJourney`; of its fields the city name and the
coordinates are kept. -/
structure Location where
  city : String
  lat : ℚ
  lng : ℚ
deriving DecidableEq, Repr

/-- One entry of `travelPaths` (the rendered `line` object is left out). -/
structure Leg (K : Type) where
  curve : QuadraticBezierCurve3 K
  start : Location
  «end» : Location

/-- `createPathLine(startLocation, endLocation)`: pushes the new leg onto
`travelPaths`. Reading `.lat` of an undefined argument throws. -/
def createPathLine {K : Type} [Field K] (M : JSMath K)
    (startLocation endLocation : Option Location) (travelPaths : List (Leg K)) :
    Except String (List (Leg K)) :=
  match startLocation, endLocation with
  | some s, some e =>
    let curve := createArcCurve M (s.lat : K) (s.lng : K) (e.lat : K) (e.lng : K) 0.5
    .ok (travelPaths ++ [{ curve := curve, start := s, «end» := e }])
  | _, _ => .error "TypeError: cannot read property lat of undefined"

/-- Loop of `travelJourney.forEach((location, index) => ...)` over the
indices `index, index + 1, ...` of the entries `rest`: a leg from
`travelJourney[index - 1]` to `location` is built when `index > 0`. -/
def initLoop {K : Type} [Field K] (M : JSMath K) (travelJourney : List Location) :
    List Location → Nat → List (Leg K) → Except String (List (Leg K))
  | [], _, travelPaths => .ok travelPaths
  | location :: rest, index, travelPaths =>
    if index > 0 then
      match createPathLine M travelJourney[index - 1]? (some location) travelPaths with
      | .ok travelPaths' => initLoop M travelJourney rest (index + 1) travelPaths'
      | .error e => .error e
    else
      initLoop M travelJourney rest (index + 1) travelPaths

/-- Initialisation of `travelPaths` from `travelJourney`. -/
def initTravelPaths {K : Type} [Field K] (M : JSMath K) (travelJourney : List Location) :
    Except String (List (Leg K)) :=
  initLoop M travelJourney travelJourney 0 []

/-- The built-in itinerary `travelJourney` (city and coordinates). -/
def travelJourney : List Location :=
  [ ⟨"Seoul, South Korea", 37.5665, 126.9780⟩,
    ⟨"Tokyo, Japan", 35.6762, 139.6503⟩,
    ⟨"Bangkok, Thailand", 13.7563, 100.5018⟩,
    ⟨"Dubai, UAE", 25.2048, 55.2708⟩,
    ⟨"Paris, France", 48.8566, 2.3522⟩,
    ⟨"Rome, Italy", 41.9028, 12.4964⟩,
    ⟨"Barcelona, Spain", 41.3851, 2.1734⟩,
    ⟨"London, UK", 51.5074, -0.1278⟩,
    ⟨"New York, USA", 40.7128, -74.0060⟩,
    ⟨"San Francisco, USA", 37.7749, -122.4194⟩,
    ⟨"Los Angeles, USA", 34.0522, -118.2437⟩,
    ⟨"Sydney, Australia", -33.8688, 151.2093⟩ ]

/-! ## Journey state -/

/-- Mesh of a trail particle: its identity in the scene, the opacity of its
material and its (uniform) scale. -/
structure Mesh where
  id : Nat
  opacity : ℚ
  scale : ℚ
deriving DecidableEq, Repr

/-- One entry of `planeTrail`. -/
structure Particle where
  mesh : Mesh
  life : ℚ
deriving DecidableEq, Repr

/-- The global variables of the journey animation. `sceneParticles` lists
the identities of the particle meshes currently added to `scene`,
`meshCount` counts the particle meshes created so far (it names the next
one), `infoPanelVisible` is `infoPanel.style.display` being `block`,
`infoPanelContent` the location last rendered into the panel and `infoLog`
every location rendered into it, oldest first. -/
structure State where
  currentPathIndex : Nat
  animationProgress : ℚ
  isAnimating : Bool
  isPaused : Bool
  pauseTimer : Nat
  animationSpeed : ℚ
  planeVisible : Bool
  planeTrail : List Particle
  sceneParticles : List Nat
  meshCount : Nat
  infoPanelVisible : Bool
  infoPanelContent : Option Location
  infoLog : List Location
deriving DecidableEq, Repr

/-- `maxTrailLength`. -/
def maxTrailLength : Nat := 20

/-- `pauseDuration`, in milliseconds. -/
def pauseDuration : Nat := 5000

/-- Values of the globals once the script has been loaded. -/
def init : State :=
  { currentPathIndex := 0
    animationProgress := 0
    isAnimating := false
    isPaused := false
    pauseTimer := 0
    animationSpeed := 0.002
    planeVisible := false
    planeTrail := []
    sceneParticles := []
    meshCount := 0
    infoPanelVisible := false
    infoPanelContent := none
    infoLog := [] }

/-! ## Trail -/

/-- `createTrailParticle(position)`. -/
def createTrailParticle (s : State) : State :=
  let particle : Mesh := { id := s.meshCount, opacity := 0.9, scale := 1 }
  let scene := s.sceneParticles ++ [particle.id]
  let planeTrail := s.planeTrail ++ [{ mesh := particle, life := 1.0 }]
  if planeTrail.length > maxTrailLength then
    match planeTrail with
    | old :: planeTrail' =>
      { s with meshCount := s.meshCount + 1
               planeTrail := planeTrail'
               sceneParticles := scene.filter (fun m => m != old.mesh.id) }
    | [] => { s with meshCount := s.meshCount + 1, planeTrail := [], sceneParticles := scene }
  else
    { s with meshCount := s.meshCount + 1, planeTrail := planeTrail, sceneParticles := scene }

/-- The iterations `index, index + 1, ..., index + n - 1` of the
`planeTrail.forEach` of `updateTrail`, on the trail and scene as they are
when iteration `index` starts. An index past the end of the (shrunken)
array is skipped; a `splice` moves the later particles one index down. -/
def updateTrailLoop : Nat → Nat → List Particle × List Nat → List Particle × List Nat
  | 0, _, ts => ts
  | n + 1, index, (planeTrail, scene) =>
    match planeTrail[index]? with
    | none => updateTrailLoop n (index + 1) (planeTrail, scene)
    | some particle =>
      let life := particle.life - 0.05
      let particle' : Particle :=
        { mesh := { particle.mesh with opacity := life * 0.8, scale := particle.mesh.scale * 0.95 }
          life := life }
      let planeTrail' := planeTrail.set index particle'
      if life ≤ 0 then
        updateTrailLoop n (index + 1)
          (planeTrail'.eraseIdx index, scene.filter (fun m => m != particle'.mesh.id))
      else
        updateTrailLoop n (index + 1) (planeTrail', scene)

/-- `updateTrail()`. -/
def updateTrail (s : State) : State :=
  let r := updateTrailLoop s.planeTrail.length 0 (s.planeTrail, s.sceneParticles)
  { s with planeTrail := r.1, sceneParticles := r.2 }

/-! ## State machine -/

/-- `showLocationInfo(location)`: nothing happens for an undefined
location; otherwise the location is rendered into the info panel, which
is shown (the camera fly-to it starts is not part of `State`). -/
def showLocationInfo (location : Option Location) (s : State) : State :=
  match location with
  | none => s
  | some l =>
    { s with infoPanelContent := some l
             infoLog := s.infoLog ++ [l]
             infoPanelVisible := true }

/-- The statements of `animateTravelPath` after the pause handling, from
`let path = travelPaths[currentPathIndex]` on: advance the progress, then
either arrive (show the destination, pause, hide the vehicle) or show the
vehicle and, when `spawn` holds, emit a trail particle. The call of
`updateJourneyStats` writes DOM texts only and has no effect on `State`. -/
def travelStep (travelJourney : List Location) (spawn : Bool) (s : State) : State :=
  let s := { s with animationProgress := s.animationProgress + s.animationSpeed }
  if s.animationProgress ≥ 1 then
    -- Reached destination - show info and pause
    let location := travelJourney[s.currentPathIndex + 1]?
    let s := showLocationInfo location s
    { s with isPaused := true, planeVisible := false }
  else
    let s := { s with planeVisible := true }
    if spawn then createTrailParticle s else s

/-- `animateTravelPath()`; `spawn` is the outcome of `Math.random() < 0.5`
(it is only consulted on the path that reaches that test). -/
def animateTravelPath {K : Type} (travelJourney : List Location) (travelPaths : List (Leg K))
    (spawn : Bool) (s : State) : State :=
  if !s.isAnimating || s.currentPathIndex ≥ travelPaths.length then
    { s with planeVisible := false }
  else if s.isPaused then
    -- Handle pause at destination
    let s := { s with pauseTimer := s.pauseTimer + 16 }
    if s.pauseTimer ≥ pauseDuration then
      let s := { s with isPaused := false
                        pauseTimer := 0
                        animationProgress := 0
                        currentPathIndex := s.currentPathIndex + 1 }
      if s.currentPathIndex ≥ travelPaths.length then
        { s with isAnimating := false, planeVisible := false }
      else
        travelStep travelJourney spawn s
    else
      s
  else
    travelStep travelJourney spawn s

/-- Click handler of `play-btn`. -/
def playClick {K : Type} (travelPaths : List (Leg K)) (s : State) : State :=
  let s := { s with isAnimating := !s.isAnimating }
  if s.isAnimating && s.currentPathIndex ≥ travelPaths.length then
    { s with currentPathIndex := 0, animationProgress := 0 }
  else
    s

/-- Click handler of `reset-btn`. -/
def resetClick (s : State) : State :=
  { s with currentPathIndex := 0
           animationProgress := 0
           isAnimating := false
           isPaused := false
           pauseTimer := 0
           planeVisible := false
           infoPanelVisible := false
           sceneParticles :=
             s.planeTrail.foldl (fun scene p => scene.filter (fun m => m != p.mesh.id))
               s.sceneParticles
           planeTrail := [] }

/-- Click handler of `speed-slow`. -/
def speedSlowClick (s : State) : State := { s with animationSpeed := 0.001 }

/-- Click handler of `speed-normal`. -/
def speedNormalClick (s : State) : State := { s with animationSpeed := 0.002 }

/-- Click handler of `speed-fast`. -/
def speedFastClick (s : State) : State := { s with animationSpeed := 0.004 }

/-! ## Runs -/

/-- The operations that change the journey state: a tick of
`animateTravelPath` (with the outcome of its random draw), `updateTrail`,
a direct `createTrailParticle`, and the clicks on the timeline controls. -/
inductive Op where
  | tick (spawn : Bool)
  | updateTrail
  | createTrailParticle
  | play
  | reset
  | speedSlow
  | speedNormal
  | speedFast
deriving DecidableEq, Repr

/-- Effect of one operation. -/
def step {K : Type} (travelJourney : List Location) (travelPaths : List (Leg K)) :
    Op → State → State
  | .tick spawn, s => animateTravelPath travelJourney travelPaths spawn s
  | .updateTrail, s => updateTrail s
  | .createTrailParticle, s => createTrailParticle s
  | .play, s => playClick travelPaths s
  | .reset, s => resetClick s
  | .speedSlow, s => speedSlowClick s
  | .speedNormal, s => speedNormalClick s
  | .speedFast, s => speedFastClick s

/-- Effect of a sequence of operations, first operation first. -/
def run {K : Type} (travelJourney : List Location) (travelPaths : List (Leg K)) :
    List Op → State → State
  | [], s => s
  | op :: ops, s => run travelJourney travelPaths ops (step travelJourney travelPaths op s)

/-- States reached from `init` by a finite sequence of operations. -/
def Reachable {K : Type} (travelJourney : List Location) (travelPaths : List (Leg K))
    (s : State) : Prop :=
  ∃ ops : List Op, run travelJourney travelPaths ops init = s

/-- Ticks of `animateTravelPath` in a row, one per entry of `spawns`. -/
def ticks {K : Type} (travelJourney : List Location) (travelPaths : List (Leg K)) :
    List Bool → State → State
  | [], s => s
  | spawn :: spawns, s =>
    ticks travelJourney travelPaths spawns (animateTravelPath travelJourney travelPaths spawn s)

/-! ## Camera fly-to -/

/-- `v.lerpVectors(v1, v2, alpha)`: `(v2 - v1) * alpha + v1`. -/
def Vector3.lerpVectors {K : Type} [Field K] (v1 v2 : Vector3 K) (alpha : K) : Vector3 K :=
  ⟨(v2.x - v1.x) * alpha + v1.x, (v2.y - v1.y) * alpha + v1.y, (v2.z - v1.z) * alpha + v1.z⟩

/-- The variables one `animateCamera` closure of `showLocationInfo`
captures. -/
structure FlyTo (K : Type) where
  startPos : Vector3 K
  targetPos : Vector3 K
  startTime : K
deriving DecidableEq, Repr

/-- `duration` of the camera transition, in milliseconds. -/
def duration {K : Type} [Field K] : K := 1500

/-- The value of `progress` after the two assignments of `animateCamera`,
for the elapsed time `elapsed`. -/
def easedProgress {K : Type} [LinearOrderedField K] (elapsed : K) : K :=
  let progress := min (elapsed / duration) 1
  progress * (2 - progress)

/-- The camera: its position, the `animateCamera` closures registered with
`requestAnimationFrame` (in registration order) and every position a
fly-to step has written, oldest first. -/
structure Camera (K : Type) where
  position : Vector3 K
  animationFrames : List (FlyTo K)
  positionLog : List (Vector3 K)
deriving DecidableEq, Repr

/-- One call of the closure `animateCamera` when `Date.now()` is `now`
(`camera.lookAt` changes the orientation only). -/
def animateCamera {K : Type} [LinearOrderedField K] (c : FlyTo K) (now : K)
    (camera : Camera K) : Camera K :=
  let elapsed := now - c.startTime
  let progress := easedProgress elapsed
  let position := Vector3.lerpVectors c.startPos c.targetPos progress
  let camera := { camera with position := position
                              positionLog := camera.positionLog ++ [position] }
  if progress < 1 then
    { camera with animationFrames := camera.animationFrames ++ [c] }
  else
    camera

/-- The camera part of `showLocationInfo(location)` for a defined location
with fly-to target `targetPos`: the closure captures the camera position
and `startTime`, the value of `Date.now()`, and is called once at once (its
own `Date.now()` gives `now`). -/
def startFlyTo {K : Type} [LinearOrderedField K] (targetPos : Vector3 K) (startTime now : K)
    (camera : Camera K) : Camera K :=
  animateCamera { startPos := camera.position, targetPos := targetPos, startTime := startTime }
    now camera

/-- One display refresh when `Date.now()` is `now`: the registered closures
are run in registration order; what they register is for the next
refresh. -/
def cameraFrame {K : Type} [LinearOrderedField K] (now : K) (camera : Camera K) : Camera K :=
  camera.animationFrames.foldl (fun camera c => animateCamera c now camera)
    { camera with animationFrames := [] }

/-! ## Render loop -/

/-- The two function values the variable `render` holds: the function of
its declaration (kept in `originalRender`) and the function assigned to it
later, which calls `animateTravelPath()` and `updateTrail()`. -/
inductive RenderFn where
  | original
  | animated
deriving DecidableEq, Repr

/-- The render loop: the value of the variable `render`, the callbacks
registered with `requestAnimationFrame` (in registration order) and the
number of calls of `animateTravelPath` (each followed by `updateTrail`) so
far. -/
structure RenderLoop where
  render : RenderFn
  animationFrames : List RenderFn
  travelTicks : Nat
deriving DecidableEq, Repr

/-- One call of the function value `f`: the animated function runs
`animateTravelPath()` and `updateTrail()`; both end with
`requestAnimationFrame(render)`, which registers the value the variable
`render` has at that moment. -/
def callRender (f : RenderFn) (l : RenderLoop) : RenderLoop :=
  match f with
  | .original => { l with animationFrames := l.animationFrames ++ [l.render] }
  | .animated =>
    { l with travelTicks := l.travelTicks + 1
             animationFrames := l.animationFrames ++ [l.render] }

/-- The render loop once the script has run: `let render = function ...`,
the first `render()`, the assignment `render = function ...` and the second
`render()`. -/
def scriptLoaded : RenderLoop :=
  let l : RenderLoop := { render := .original, animationFrames := [], travelTicks := 0 }
  let l := callRender l.render l
  let l := { l with render := .animated }
  callRender l.render l

/-- One display refresh: the registered callbacks are run in registration
order; what they register is for the next refresh. -/
def displayRefresh (l : RenderLoop) : RenderLoop :=
  l.animationFrames.foldl (fun l f => callRender f l) { l with animationFrames := [] }

/-! ## Chat history -/

/-- One entry of `chatHistory`. -/
structure ChatMessage where
  role : String
  content : String
deriving DecidableEq, Repr

/-- The value of `chatHistory` after the first statements of
`sendMessage(userMessage)`: the push of the user's message and the
trimming step (`slice(-20)` keeps the last 20 entries). -/
def sendMessagePush (chatHistory : List ChatMessage) (userMessage : String) :
    List ChatMessage :=
  let chatHistory := chatHistory ++ [{ role := "user", content := userMessage }]
  if chatHistory.length > 20 then
    chatHistory.drop (chatHistory.length - 20)
  else
    chatHistory

/-! ## Reads of a tick -/

/-- The state in which `animateTravelPath` reaches the statement
`let path = travelPaths[currentPathIndex]` (from there on it is
`travelStep`), or `none` when it returns before. -/
def reachesTravelStep {K : Type} (travelPaths : List (Leg K)) (s : State) : Option State :=
  if !s.isAnimating || s.currentPathIndex ≥ travelPaths.length then
    none
  else if s.isPaused then
    let s := { s with pauseTimer := s.pauseTimer + 16 }
    if s.pauseTimer ≥ pauseDuration then
      let s := { s with isPaused := false
                        pauseTimer := 0
                        animationProgress := 0
                        currentPathIndex := s.currentPathIndex + 1 }
      if s.currentPathIndex ≥ travelPaths.length then none else some s
    else
      none
  else
    some s

/-! ## Invariant -/

/-- Invariant of the journey state for a registry of `n` legs: the progress
is never negative, the speed is one of the three presets, outside the
arrival pause the progress is below 1 and the dwell timer is 0, during the
arrival pause the progress is in `[1, 1.004)`, the leg exists and the dwell
timer is below `pauseDuration`; the leg index is at most `n` and the trail
holds at most `maxTrailLength` particles. -/
structure Inv (n : Nat) (s : State) : Prop where
  progress_nonneg : 0 ≤ s.animationProgress
  speed : s.animationSpeed = 0.001 ∨ s.animationSpeed = 0.002 ∨ s.animationSpeed = 0.004
  running : s.isPaused = false → s.animationProgress < 1 ∧ s.pauseTimer = 0
  dwelling : s.isPaused = true →
    1 ≤ s.animationProgress ∧ s.animationProgress < 1.004 ∧ s.currentPathIndex < n ∧
      s.pauseTimer < pauseDuration
  index_le : s.currentPathIndex ≤ n
  trail : s.planeTrail.length ≤ maxTrailLength

/-- The leg `createPathLine` builds for a pair of locations. -/
def legOf {K : Type} [Field K] (M : JSMath K) (s e : Location) : Leg K :=
  { curve := createArcCurve M (s.lat : K) (s.lng : K) (e.lat : K) (e.lng : K) 0.5
    start := s
    «end» := e }

/-- Specification of the path registry: one leg per consecutive pair of
waypoints, in order. -/
def consecutiveLegs {K : Type} [Field K] (M : JSMath K) (waypoints : List Location) :
    List (Leg K) :=
  (waypoints.zip waypoints.tail).map (fun p => legOf M p.1 p.2)

/-- The global `travelPaths` once the initialisation loop has run (no legs
if it threw). -/
def travelPathsOf {K : Type} [Field K] (M : JSMath K) (travelJourney : List Location) :
    List (Leg K) :=
  match initTravelPaths M travelJourney with
  | .ok travelPaths => travelPaths
  | .error _ => []

/-- The `heightFactor` of `createArcCurve` as a function of the chord
distance: `distance * 0.3`. -/
def heightFactor {K : Type} [Field K] (distance : K) : K := distance * 0.3

/-- The journey part of one call of the (redefined) `render` function:
`animateTravelPath()` followed by `updateTrail()`. -/
def render {K : Type} (travelJourney : List Location) (travelPaths : List (Leg K))
    (spawn : Bool) (s : State) : State :=
  updateTrail (animateTravelPath travelJourney travelPaths spawn s)

/-- Calls of `render` in a row, one per entry of `spawns`. -/
def renders {K : Type} (travelJourney : List Location) (travelPaths : List (Leg K)) :
    List Bool → State → State
  | [], s => s
  | spawn :: spawns, s =>
    renders travelJourney travelPaths spawns (render travelJourney travelPaths spawn s)

/-- A frame in which a particle is spawned: `createTrailParticle` followed by
`updateTrail`. -/
def spawnFrame (s : State) : State := updateTrail (createTrailParticle s)

/-- The particle `createTrailParticle` pushes when `meshCount` is `id`. -/
def newParticle (id : Nat) : Particle :=
  { mesh := { id := id, opacity := 0.9, scale := 1 }, life := 1.0 }

/-- Phases of the journey state machine. -/
inductive Phase where
  | Idle
  | Traveling
  | ArrivedPaused
  | Finished
deriving DecidableEq, Repr

/-- Phase of a state: `Finished` if `currentPathIndex` is at least the number
of legs, else `ArrivedPaused` if `isPaused`, else `Traveling` if
`isAnimating`, else `Idle`. -/
def phase {K : Type} (travelPaths : List (Leg K)) (s : State) : Phase :=
  if s.currentPathIndex ≥ travelPaths.length then .Finished
  else if s.isPaused then .ArrivedPaused
  else if s.isAnimating then .Traveling
  else .Idle

/-- Invariant of the trail: every particle has a life in `(0, 1]`, the
particle meshes in the scene are the meshes of the particles of the trail,
in the same order, these are pairwise different, and all were created
before (their number is below `meshCount`). -/
structure TrailInv (s : State) : Prop where
  life : ∀ p ∈ s.planeTrail, 0 < p.life ∧ p.life ≤ 1
  scene : s.sceneParticles = s.planeTrail.map (fun p => p.mesh.id)
  nodup : (s.planeTrail.map (fun p => p.mesh.id)).Nodup
  fresh : ∀ p ∈ s.planeTrail, p.mesh.id < s.meshCount

/-! ## Theorems: invariant -/

theorem updateTrailLoop_length_le (n : Nat) :
    ∀ (index : Nat) (planeTrail : List Particle) (scene : List Nat),
      (updateTrailLoop n index (planeTrail, scene)).1.length ≤ planeTrail.length := by
  induction n with
  | zero => intro index planeTrail scene; simp [updateTrailLoop]
  | succ n ih =>
    intro index planeTrail scene
    rw [updateTrailLoop]
    split
    · exact ih _ _ _
    · rename_i particle hp
      simp only
      split
      · refine le_trans (ih _ _ _) ?_
        simp [List.length_eraseIdx]
        split <;> omega
      · refine le_trans (ih _ _ _) ?_
        simp

theorem createTrailParticle_length_le (s : State) (h : s.planeTrail.length ≤ maxTrailLength) :
    (createTrailParticle s).planeTrail.length ≤ maxTrailLength := by
  unfold createTrailParticle
  simp only
  split
  · split
    · rename_i old rest heq
      have := congrArg List.length heq
      simp at this
      simp
      omega
    · simp
  · rename_i hgt
    simpa using hgt

theorem createTrailParticle_journey (s : State) :
    (createTrailParticle s).currentPathIndex = s.currentPathIndex ∧
    (createTrailParticle s).animationProgress = s.animationProgress ∧
    (createTrailParticle s).isAnimating = s.isAnimating ∧
    (createTrailParticle s).isPaused = s.isPaused ∧
    (createTrailParticle s).pauseTimer = s.pauseTimer ∧
    (createTrailParticle s).animationSpeed = s.animationSpeed ∧
    (createTrailParticle s).planeVisible = s.planeVisible ∧
    (createTrailParticle s).infoPanelVisible = s.infoPanelVisible ∧
    (createTrailParticle s).infoPanelContent = s.infoPanelContent ∧
    (createTrailParticle s).infoLog = s.infoLog := by
  unfold createTrailParticle
  simp only
  split
  · split <;> simp
  · simp

theorem inv_createTrailParticle {n : Nat} {s : State} (h : Inv n s) :
    Inv n (createTrailParticle s) := by
  obtain ⟨h1, h2, h3, h4, h5, h6, -, -, -, -⟩ := createTrailParticle_journey s
  constructor
  · rw [h2]; exact h.progress_nonneg
  · rw [h6]; exact h.speed
  · rw [h4, h2, h5]; exact h.running
  · rw [h4, h2, h1, h5]; exact h.dwelling
  · rw [h1]; exact h.index_le
  · exact createTrailParticle_length_le s h.trail

theorem inv_updateTrail {n : Nat} {s : State} (h : Inv n s) : Inv n (updateTrail s) := by
  constructor
  · exact h.progress_nonneg
  · exact h.speed
  · exact h.running
  · exact h.dwelling
  · exact h.index_le
  · exact le_trans (updateTrailLoop_length_le _ _ _ _) h.trail

theorem speed_lt_of_inv {n : Nat} {s : State} (h : Inv n s) :
    0 < s.animationSpeed ∧ s.animationSpeed ≤ 0.004 := by
  rcases h.speed with e | e | e <;> rw [e] <;> norm_num

theorem inv_travelStep {n : Nat} {s : State} (travelJourney : List Location) (spawn : Bool)
    (h : Inv n s) (hp : s.isPaused = false) (hi : s.currentPathIndex < n) :
    Inv n (travelStep travelJourney spawn s) := by
  have hs := speed_lt_of_inv h
  have hr := h.running hp
  unfold travelStep
  simp only
  split
  · rename_i hge
    have key : Inv n { s with animationProgress := s.animationProgress + s.animationSpeed,
                              isPaused := true, planeVisible := false } := by
      constructor
      · show 0 ≤ s.animationProgress + s.animationSpeed
        linarith [h.progress_nonneg]
      · exact h.speed
      · intro hc; simp at hc
      · intro _
        refine ⟨hge, ?_, hi, ?_⟩
        · show s.animationProgress + s.animationSpeed < 1.004
          have : (1.004 : ℚ) = 1 + 0.004 := by norm_num
          rw [this]; linarith
        · show s.pauseTimer < pauseDuration
          rw [hr.2]; decide
      · exact h.index_le
      · exact h.trail
    cases hl : travelJourney[s.currentPathIndex + 1]? with
    | none => simpa [showLocationInfo] using key
    | some l =>
      simp only [showLocationInfo]
      exact ⟨key.1, key.2, key.3, key.4, key.5, key.6⟩
  · rename_i hlt
    have key : Inv n { s with animationProgress := s.animationProgress + s.animationSpeed,
                              planeVisible := true } := by
      constructor
      · show 0 ≤ s.animationProgress + s.animationSpeed
        linarith [h.progress_nonneg]
      · exact h.speed
      · intro _
        exact ⟨lt_of_not_ge hlt, hr.2⟩
      · intro hc
        have : s.isPaused = true := hc
        rw [hp] at this; cases this
      · exact h.index_le
      · exact h.trail
    cases spawn with
    | false => simpa using key
    | true => simpa using inv_createTrailParticle key

theorem inv_animateTravelPath {K : Type} {s : State} (travelJourney : List Location)
    (travelPaths : List (Leg K)) (spawn : Bool) (h : Inv travelPaths.length s) :
    Inv travelPaths.length (animateTravelPath travelJourney travelPaths spawn s) := by
  unfold animateTravelPath
  split
  · exact ⟨h.1, h.2, h.3, h.4, h.5, h.6⟩
  · rename_i hc
    simp only [Bool.or_eq_true, Bool.not_eq_true', decide_eq_true_eq, not_or, not_le,
      Bool.not_eq_false, ge_iff_le] at hc
    split
    · rename_i hpz
      have hd := h.dwelling hpz
      simp only
      split
      · have hbase : Inv travelPaths.length
            { s with pauseTimer := 0, isPaused := false, animationProgress := 0,
                     currentPathIndex := s.currentPathIndex + 1 } := by
          constructor
          · exact le_refl (0 : ℚ)
          · exact h.speed
          · intro _; exact ⟨zero_lt_one, rfl⟩
          · intro hc'; cases hc'
          · exact hd.2.2.1
          · exact h.trail
        split
        · exact ⟨hbase.1, hbase.2, hbase.3, hbase.4, hbase.5, hbase.6⟩
        · rename_i hlt
          exact inv_travelStep travelJourney spawn hbase rfl (lt_of_not_ge hlt)
      · rename_i hlt
        refine ⟨h.1, h.2, ?_, ?_, h.5, h.6⟩
        · intro hc'
          have : s.isPaused = false := hc'
          rw [hpz] at this; cases this
        · intro _
          exact ⟨hd.1, hd.2.1, hd.2.2.1, lt_of_not_ge hlt⟩
    · rename_i hpz
      exact inv_travelStep travelJourney spawn h (by simpa using hpz) hc.2

theorem inv_playClick {K : Type} {s : State} (travelPaths : List (Leg K))
    (h : Inv travelPaths.length s) : Inv travelPaths.length (playClick travelPaths s) := by
  unfold playClick
  simp only
  split
  · rename_i hc
    simp only [Bool.and_eq_true, decide_eq_true_eq] at hc
    have hnp : s.isPaused = false := by
      cases hpz : s.isPaused with
      | false => rfl
      | true => exact absurd (h.dwelling hpz).2.2.1 (not_lt.mpr hc.2)
    constructor
    · exact le_refl (0 : ℚ)
    · exact h.speed
    · intro _; exact ⟨zero_lt_one, (h.running hnp).2⟩
    · intro hc'
      have : s.isPaused = true := hc'
      rw [hnp] at this; cases this
    · exact Nat.zero_le _
    · exact h.trail
  · exact ⟨h.1, h.2, h.3, h.4, h.5, h.6⟩

theorem inv_resetClick {n : Nat} {s : State} (h : Inv n s) : Inv n (resetClick s) := by
  constructor
  · exact le_refl (0 : ℚ)
  · exact h.speed
  · intro _; exact ⟨zero_lt_one, rfl⟩
  · intro hc; cases hc
  · exact Nat.zero_le _
  · exact Nat.zero_le _

theorem inv_init (n : Nat) : Inv n init := by
  constructor
  · exact le_refl (0 : ℚ)
  · right; left; rfl
  · intro _; exact ⟨zero_lt_one, rfl⟩
  · intro hc; cases hc
  · exact Nat.zero_le _
  · exact Nat.zero_le _

theorem inv_step {K : Type} {s : State} (travelJourney : List Location)
    (travelPaths : List (Leg K)) (op : Op) (h : Inv travelPaths.length s) :
    Inv travelPaths.length (step travelJourney travelPaths op s) := by
  cases op with
  | tick spawn => exact inv_animateTravelPath travelJourney travelPaths spawn h
  | updateTrail => exact inv_updateTrail h
  | createTrailParticle => exact inv_createTrailParticle h
  | play => exact inv_playClick travelPaths h
  | reset => exact inv_resetClick h
  | speedSlow => exact ⟨h.1, Or.inl rfl, h.3, h.4, h.5, h.6⟩
  | speedNormal => exact ⟨h.1, Or.inr (Or.inl rfl), h.3, h.4, h.5, h.6⟩
  | speedFast => exact ⟨h.1, Or.inr (Or.inr rfl), h.3, h.4, h.5, h.6⟩

theorem inv_run {K : Type} (travelJourney : List Location) (travelPaths : List (Leg K))
    (ops : List Op) :
    ∀ s : State, Inv travelPaths.length s →
      Inv travelPaths.length (run travelJourney travelPaths ops s) := by
  induction ops with
  | nil => intro s h; exact h
  | cons op ops ih => intro s h; exact ih _ (inv_step travelJourney travelPaths op h)

theorem inv_of_reachable {K : Type} {travelJourney : List Location} {travelPaths : List (Leg K)}
    {s : State} (h : Reachable travelJourney travelPaths s) : Inv travelPaths.length s := by
  obtain ⟨ops, rfl⟩ := h
  exact inv_run travelJourney travelPaths ops _ (inv_init _)

/-! ## Theorems: path registry -/

theorem initLoop_eq {K : Type} [Field K] (M : JSMath K) (travelJourney : List Location) :
    ∀ (rest : List Location) (prev : Location) (pre : List Location) (acc : List (Leg K)),
      travelJourney = pre ++ prev :: rest →
      initLoop M travelJourney rest (pre.length + 1) acc =
        .ok (acc ++ consecutiveLegs M (prev :: rest)) := by
  intro rest
  induction rest with
  | nil => intro prev pre acc _; simp [initLoop, consecutiveLegs]
  | cons location rest ih =>
    intro prev pre acc hj
    have hprev : travelJourney[pre.length + 1 - 1]? = some prev := by
      rw [hj, Nat.add_sub_cancel, List.getElem?_append_right (le_refl _)]
      simp
    rw [initLoop, if_pos (Nat.succ_pos _), hprev]
    simp only [createPathLine]
    have := ih location (pre ++ [prev]) (acc ++ [legOf M prev location]) (by simp [hj])
    simp only [List.length_append, List.length_singleton] at this
    change initLoop M travelJourney rest (pre.length + 1 + 1) (acc ++ [legOf M prev location]) = _
    rw [this]
    simp [consecutiveLegs]

theorem initTravelPaths_eq {K : Type} [Field K] (M : JSMath K) (travelJourney : List Location) :
    initTravelPaths M travelJourney = .ok (consecutiveLegs M travelJourney) := by
  unfold initTravelPaths
  cases travelJourney with
  | nil => simp [initLoop, consecutiveLegs]
  | cons a rest =>
    rw [initLoop, if_neg (by decide)]
    have := initLoop_eq M (a :: rest) rest a [] [] rfl
    simpa using this

theorem travelPathsOf_eq {K : Type} [Field K] (M : JSMath K) (travelJourney : List Location) :
    travelPathsOf M travelJourney = consecutiveLegs M travelJourney := by
  simp [travelPathsOf, initTravelPaths_eq]

theorem consecutiveLegs_length {K : Type} [Field K] (M : JSMath K) (waypoints : List Location) :
    (consecutiveLegs M waypoints).length = waypoints.length - 1 := by
  simp [consecutiveLegs]

theorem travelPathsOf_length {K : Type} [Field K] (M : JSMath K) (travelJourney : List Location) :
    (travelPathsOf M travelJourney).length = travelJourney.length - 1 := by
  rw [travelPathsOf_eq, consecutiveLegs_length]

theorem consecutiveLegs_getElem? {K : Type} [Field K] (M : JSMath K) (waypoints : List Location)
    (i : Nat) (h : i < waypoints.length - 1) :
    ∃ a b, waypoints[i]? = some a ∧ waypoints[i + 1]? = some b ∧
      (consecutiveLegs M waypoints)[i]? = some (legOf M a b) := by
  have h1 : i < waypoints.length := by omega
  have h2 : i + 1 < waypoints.length := by omega
  refine ⟨waypoints[i], waypoints[i + 1], List.getElem?_eq_getElem h1,
    List.getElem?_eq_getElem h2, ?_⟩
  have hz : (waypoints.zip waypoints.tail)[i]? = some (waypoints[i], waypoints[i + 1]) := by
    rw [List.getElem?_zip_eq_some]
    refine ⟨List.getElem?_eq_getElem h1, ?_⟩
    rw [List.getElem?_tail, List.getElem?_eq_getElem h2]
  simp [consecutiveLegs, List.getElem?_map, hz]
/-! ## Theorems: single ticks -/

theorem tick_idle {K : Type} (travelJourney : List Location) (travelPaths : List (Leg K))
    (spawn : Bool) (s : State) (h : s.isAnimating = false) :
    animateTravelPath travelJourney travelPaths spawn s = { s with planeVisible := false } := by
  simp [animateTravelPath, h]

theorem tick_travel {K : Type} (travelJourney : List Location) (travelPaths : List (Leg K))
    (spawn : Bool) (s : State) (ha : s.isAnimating = true) (hp : s.isPaused = false)
    (hi : s.currentPathIndex < travelPaths.length) :
    animateTravelPath travelJourney travelPaths spawn s = travelStep travelJourney spawn s := by
  simp [animateTravelPath, ha, hp, hi]

theorem travelStep_advance (travelJourney : List Location) (s : State)
    (hlt : s.animationProgress + s.animationSpeed < 1) :
    travelStep travelJourney false s =
        { s with animationProgress := s.animationProgress + s.animationSpeed
                 planeVisible := true } ∧
      travelStep travelJourney true s =
        createTrailParticle { s with animationProgress := s.animationProgress + s.animationSpeed
                                     planeVisible := true } := by
  simp [travelStep, not_le.mpr hlt]

theorem travelStep_arrive (travelJourney : List Location) (spawn : Bool) (s : State)
    (hge : s.animationProgress + s.animationSpeed ≥ 1) :
    travelStep travelJourney spawn s =
      { showLocationInfo travelJourney[s.currentPathIndex + 1]?
          { s with animationProgress := s.animationProgress + s.animationSpeed } with
        isPaused := true, planeVisible := false } := by
  simp [travelStep, hge]

theorem tick_dwell {K : Type} (travelJourney : List Location) (travelPaths : List (Leg K))
    (spawn : Bool) (s : State) (ha : s.isAnimating = true) (hp : s.isPaused = true)
    (hi : s.currentPathIndex < travelPaths.length) (ht : s.pauseTimer + 16 < pauseDuration) :
    animateTravelPath travelJourney travelPaths spawn s =
      { s with pauseTimer := s.pauseTimer + 16 } := by
  simp [animateTravelPath, ha, hp, hi, not_le.mpr ht]

theorem tick_dwell_end {K : Type} (travelJourney : List Location) (travelPaths : List (Leg K))
    (spawn : Bool) (s : State) (ha : s.isAnimating = true) (hp : s.isPaused = true)
    (hi : s.currentPathIndex < travelPaths.length) (ht : s.pauseTimer + 16 ≥ pauseDuration) :
    animateTravelPath travelJourney travelPaths spawn s =
      if s.currentPathIndex + 1 ≥ travelPaths.length then
        { s with isPaused := false, pauseTimer := 0, animationProgress := 0
                 currentPathIndex := s.currentPathIndex + 1
                 isAnimating := false, planeVisible := false }
      else
        travelStep travelJourney spawn
          { s with isPaused := false, pauseTimer := 0, animationProgress := 0
                   currentPathIndex := s.currentPathIndex + 1 } := by
  simp [animateTravelPath, ha, hp, hi, ht]

theorem ticks_append {K : Type} (travelJourney : List Location) (travelPaths : List (Leg K))
    (xs ys : List Bool) :
    ∀ s : State, ticks travelJourney travelPaths (xs ++ ys) s =
      ticks travelJourney travelPaths ys (ticks travelJourney travelPaths xs s) := by
  induction xs with
  | nil => intro s; rfl
  | cons x xs ih => intro s; exact ih _

theorem ticks_idle {K : Type} (travelJourney : List Location) (travelPaths : List (Leg K))
    (spawns : List Bool) :
    ∀ s : State, s.isAnimating = false →
      ticks travelJourney travelPaths spawns s = s ∨
      ticks travelJourney travelPaths spawns s = { s with planeVisible := false } := by
  induction spawns with
  | nil => intro s _; exact Or.inl rfl
  | cons x xs ih =>
    intro s h
    right
    rw [ticks, tick_idle _ _ _ _ h]
    rcases ih { s with planeVisible := false } h with e | e <;> rw [e]

theorem ticks_dwell {K : Type} (travelJourney : List Location) (travelPaths : List (Leg K))
    (spawns : List Bool) :
    ∀ s : State, s.isAnimating = true → s.isPaused = true →
      s.currentPathIndex < travelPaths.length →
      s.pauseTimer + 16 * spawns.length < pauseDuration →
      ticks travelJourney travelPaths spawns s =
        { s with pauseTimer := s.pauseTimer + 16 * spawns.length } := by
  induction spawns with
  | nil => intro s _ _ _ _; rfl
  | cons x xs ih =>
    intro s ha hp hi ht
    simp only [List.length_cons] at ht
    have ht1 : s.pauseTimer + 16 < pauseDuration := by omega
    have ht2 : s.pauseTimer + 16 + 16 * xs.length < pauseDuration := by omega
    rw [ticks, tick_dwell _ _ _ _ ha hp hi ht1,
      ih { s with pauseTimer := s.pauseTimer + 16 } ha hp hi ht2]
    simp only [List.length_cons]
    congr 1
    omega

theorem ticks_travel {K : Type} (travelJourney : List Location) (travelPaths : List (Leg K))
    (spawns : List Bool) :
    ∀ s : State, s.isAnimating = true → s.isPaused = false →
      s.currentPathIndex < travelPaths.length → 0 ≤ s.animationSpeed →
      s.animationProgress + spawns.length * s.animationSpeed < 1 →
      (ticks travelJourney travelPaths spawns s).isAnimating = true ∧
      (ticks travelJourney travelPaths spawns s).isPaused = false ∧
      (ticks travelJourney travelPaths spawns s).currentPathIndex = s.currentPathIndex ∧
      (ticks travelJourney travelPaths spawns s).animationProgress =
        s.animationProgress + spawns.length * s.animationSpeed ∧
      (ticks travelJourney travelPaths spawns s).animationSpeed = s.animationSpeed ∧
      (ticks travelJourney travelPaths spawns s).pauseTimer = s.pauseTimer ∧
      (ticks travelJourney travelPaths spawns s).infoLog = s.infoLog ∧
      (ticks travelJourney travelPaths spawns s).infoPanelContent = s.infoPanelContent ∧
      (ticks travelJourney travelPaths spawns s).infoPanelVisible = s.infoPanelVisible := by
  induction spawns with
  | nil => intro s ha hp _ _ _; simp [ticks, ha, hp]
  | cons x xs ih =>
    intro s ha hp hi hs hlt
    simp only [List.length_cons, Nat.cast_add, Nat.cast_one] at hlt
    have hxs : (0 : ℚ) ≤ (xs.length : ℚ) * s.animationSpeed :=
      mul_nonneg (Nat.cast_nonneg _) hs
    have h1 : s.animationProgress + s.animationSpeed < 1 := by linarith
    obtain ⟨c1, c2, c3, c4, c5, c6, -, c8, c9, c10⟩ := createTrailParticle_journey
      { s with animationProgress := s.animationProgress + s.animationSpeed, planeVisible := true }
    rw [ticks, tick_travel _ _ _ _ ha hp hi]
    cases x with
    | false =>
      rw [(travelStep_advance travelJourney s h1).1]
      have := ih { s with animationProgress := s.animationProgress + s.animationSpeed,
                          planeVisible := true } ha hp hi hs (by simp only; linarith)
      simp only [List.length_cons, Nat.cast_add, Nat.cast_one]
      refine ⟨this.1, this.2.1, this.2.2.1, ?_, this.2.2.2.2.1, this.2.2.2.2.2.1,
        this.2.2.2.2.2.2.1, this.2.2.2.2.2.2.2.1, this.2.2.2.2.2.2.2.2⟩
      rw [this.2.2.2.1]; ring
    | true =>
      rw [(travelStep_advance travelJourney s h1).2]
      have := ih (createTrailParticle
        { s with animationProgress := s.animationProgress + s.animationSpeed,
                 planeVisible := true }) (by rw [c3]; exact ha) (by rw [c4]; exact hp)
        (by rw [c1]; exact hi) (by rw [c6]; exact hs) (by rw [c2, c6]; simp only; linarith)
      simp only [List.length_cons, Nat.cast_add, Nat.cast_one]
      rw [c1, c2, c5, c6, c8, c9, c10] at this
      refine ⟨this.1, this.2.1, this.2.2.1, ?_, this.2.2.2.2.1, this.2.2.2.2.2.1,
        this.2.2.2.2.2.2.1, this.2.2.2.2.2.2.2.1, this.2.2.2.2.2.2.2.2⟩
      rw [this.2.2.2.1]; simp only; ring

/-! ## Theorems: concrete runs -/

theorem builtin_run_499 :
    run travelJourney
      (travelPathsOf (JSMath.mk Real.pi Real.sin Real.cos Real.sqrt) travelJourney)
      (Op.play :: List.replicate 499 (Op.tick false)) init =
    { init with isAnimating := true, animationProgress := 0.998, planeVisible := true } := by
  decide!

theorem builtin_run_812 :
    run travelJourney
      (travelPathsOf (JSMath.mk Real.pi Real.sin Real.cos Real.sqrt) travelJourney)
      (Op.play :: List.replicate 812 (Op.tick false)) init =
    { init with isAnimating := true, animationProgress := 1, isPaused := true
                pauseTimer := 4992, infoPanelVisible := true
                infoPanelContent := some ⟨"Tokyo, Japan", 35.6762, 139.6503⟩
                infoLog := [⟨"Tokyo, Japan", 35.6762, 139.6503⟩] } := by
  decide!

theorem pair_run_813 :
    run (travelJourney.take 2)
      (travelPathsOf (JSMath.mk Real.pi Real.sin Real.cos Real.sqrt) (travelJourney.take 2))
      (Op.play :: List.replicate 813 (Op.tick false)) init =
    { init with currentPathIndex := 1, infoPanelVisible := true
                infoPanelContent := some ⟨"Tokyo, Japan", 35.6762, 139.6503⟩
                infoLog := [⟨"Tokyo, Japan", 35.6762, 139.6503⟩] } := by
  decide!

theorem spawnFrame_forty_ids :
    (spawnFrame^[40] init).planeTrail.map (fun p => p.mesh.id) = List.range' 21 19 := by
  decide!

/-! ## Theorems: claims -/

/-- C1 (as amended). In every state reached from the initial state by ticks,
trail updates, play/pause toggles, resets and speed presets, the progress
satisfies `0 ≤ animationProgress < 1.004`, and `animationProgress < 1`
whenever the machine is not in its arrival pause. -/
theorem C1_progress_bounds {K : Type} (travelJourney : List Location)
    (travelPaths : List (Leg K)) (ops : List Op) :
    0 ≤ (run travelJourney travelPaths ops init).animationProgress ∧
    (run travelJourney travelPaths ops init).animationProgress < 1.004 ∧
    ((run travelJourney travelPaths ops init).isPaused = false →
      (run travelJourney travelPaths ops init).animationProgress < 1) := by
  have h := inv_run travelJourney travelPaths ops init (inv_init _)
  refine ⟨h.progress_nonneg, ?_, fun hp => (h.running hp).1⟩
  cases hp : (run travelJourney travelPaths ops init).isPaused with
  | false => exact lt_trans (h.running hp).1 (by norm_num)
  | true => exact (h.dwelling hp).2.1

/-- C1 (counterexample). On the built-in itinerary, after play, the 0.5x
preset, one tick, the 2x preset and 250 more ticks the progress is 1.001,
which is above 1. -/
theorem C1_progress_exceeds_one :
    (run travelJourney
        (travelPathsOf (JSMath.mk Real.pi Real.sin Real.cos Real.sqrt) travelJourney)
        ([Op.play, Op.speedSlow, Op.tick false, Op.speedFast] ++
          List.replicate 250 (Op.tick false)) init).animationProgress = 1.001 ∧
    ¬ (run travelJourney
        (travelPathsOf (JSMath.mk Real.pi Real.sin Real.cos Real.sqrt) travelJourney)
        ([Op.play, Op.speedSlow, Op.tick false, Op.speedFast] ++
          List.replicate 250 (Op.tick false)) init).animationProgress ≤ 1 := by
  have h : (run travelJourney
      (travelPathsOf (JSMath.mk Real.pi Real.sin Real.cos Real.sqrt) travelJourney)
      ([Op.play, Op.speedSlow, Op.tick false, Op.speedFast] ++
        List.replicate 250 (Op.tick false)) init).animationProgress = 1.001 := by decide!
  refine ⟨h, ?_⟩
  rw [h]
  norm_num

/-- C2. After every finite sequence of operations from the initial state
(among them `createTrailParticle`, `updateTrail` and reset) the trail holds
at most `maxTrailLength` = 20 particles. -/
theorem C2_trail_length_le {K : Type} (travelJourney : List Location)
    (travelPaths : List (Leg K)) (ops : List Op) :
    (run travelJourney travelPaths ops init).planeTrail.length ≤ maxTrailLength ∧
    maxTrailLength = 20 :=
  ⟨(inv_run travelJourney travelPaths ops init (inv_init _)).trail, rfl⟩

/-- C3. In a reachable state that is animating, not paused, on leg `i` of the
registry built from the itinerary, with `animationProgress + animationSpeed
≥ 1`, `travelJourney[i + 1]` is defined and is the end of leg `i`; one tick
of `animateTravelPath` calls `showLocationInfo` with it (it becomes the
panel content and the last entry of the log), sets `isPaused`, leaves
`pauseTimer` at 0 and `currentPathIndex` at `i`, and hides the vehicle. -/
theorem C3_arrival {K : Type} [Field K] (M : JSMath K) (travelJourney : List Location)
    (s : State) (spawn : Bool) (i : Nat)
    (hr : Reachable travelJourney (travelPathsOf M travelJourney) s)
    (ha : s.isAnimating = true) (hp : s.isPaused = false) (hi : s.currentPathIndex = i)
    (hlt : i < (travelPathsOf M travelJourney).length)
    (hge : s.animationProgress + s.animationSpeed ≥ 1) :
    ∃ destination : Location,
      travelJourney[i + 1]? = some destination ∧
      (travelPathsOf M travelJourney)[i]?.map (fun leg => leg.«end») = some destination ∧
      animateTravelPath travelJourney (travelPathsOf M travelJourney) spawn s =
        { showLocationInfo (some destination)
            { s with animationProgress := s.animationProgress + s.animationSpeed } with
          isPaused := true, planeVisible := false } ∧
      (animateTravelPath travelJourney (travelPathsOf M travelJourney) spawn s).infoLog =
        s.infoLog ++ [destination] ∧
      (animateTravelPath travelJourney (travelPathsOf M travelJourney) spawn s).infoPanelContent =
        some destination ∧
      (animateTravelPath travelJourney (travelPathsOf M travelJourney) spawn s).isPaused = true ∧
      (animateTravelPath travelJourney (travelPathsOf M travelJourney) spawn s).pauseTimer = 0 ∧
      (animateTravelPath travelJourney (travelPathsOf M travelJourney) spawn s).currentPathIndex = i ∧
      (animateTravelPath travelJourney (travelPathsOf M travelJourney) spawn s).planeVisible =
        false := by
  subst hi
  have hinv := inv_of_reachable hr
  have hlen := travelPathsOf_length M travelJourney
  obtain ⟨a, b, _, hb, hleg⟩ :=
    consecutiveLegs_getElem? M travelJourney s.currentPathIndex (by rw [← hlen]; exact hlt)
  have htick := tick_travel travelJourney (travelPathsOf M travelJourney) spawn s ha hp hlt
  rw [travelStep_arrive travelJourney spawn s hge, hb] at htick
  refine ⟨b, hb, ?_, htick, ?_, ?_, ?_, ?_, ?_, ?_⟩
  · rw [travelPathsOf_eq, hleg]; rfl
  · rw [htick]; rfl
  · rw [htick]; rfl
  · rw [htick]
  · rw [htick]; exact (hinv.running hp).2
  · rw [htick]; rfl
  · rw [htick]

/-- C3 (witness). On the built-in itinerary, the state after play and 499
ticks is animating on leg 0 with progress 0.998; the next tick arrives at
Tokyo. -/
theorem C3_arrival_witness :
    ∃ destination : Location,
      travelJourney[0 + 1]? = some destination ∧
      (animateTravelPath travelJourney
        (travelPathsOf (JSMath.mk Real.pi Real.sin Real.cos Real.sqrt) travelJourney) false
        (run travelJourney
          (travelPathsOf (JSMath.mk Real.pi Real.sin Real.cos Real.sqrt) travelJourney)
          (Op.play :: List.replicate 499 (Op.tick false)) init)).infoLog = [destination] := by
  obtain ⟨d, h1, -, -, h2, -⟩ := C3_arrival (JSMath.mk Real.pi Real.sin Real.cos Real.sqrt)
    travelJourney
    (run travelJourney
      (travelPathsOf (JSMath.mk Real.pi Real.sin Real.cos Real.sqrt) travelJourney)
      (Op.play :: List.replicate 499 (Op.tick false)) init) false 0 ⟨_, rfl⟩
    (by rw [builtin_run_499]) (by rw [builtin_run_499]; rfl)
    (by rw [builtin_run_499]; rfl) (by decide!) (by rw [builtin_run_499]; decide!)
  refine ⟨d, h1, ?_⟩
  rw [h2]
  have : (run travelJourney
      (travelPathsOf (JSMath.mk Real.pi Real.sin Real.cos Real.sqrt) travelJourney)
      (Op.play :: List.replicate 499 (Op.tick false)) init).infoLog = [] := by
    rw [builtin_run_499]; rfl
  rw [this]; rfl

/-- C4 (as amended). In a reachable animating state that is paused on leg `i`
with `pauseTimer + 16 ≥ 5000`, leg `i` exists and one tick of
`animateTravelPath` ends the pause, sets `currentPathIndex` to `i + 1` and
leaves `pauseTimer` at 0. If `i + 1` is the number of legs the machine is
finished (`isAnimating` false, vehicle hidden) with `animationProgress` 0;
otherwise the same tick already travels on leg `i + 1`: the vehicle is
shown and `animationProgress` equals `animationSpeed`, below 1. -/
theorem C4_dwell_completion {K : Type} (travelJourney : List Location)
    (travelPaths : List (Leg K)) (s : State) (spawn : Bool) (i : Nat)
    (hr : Reachable travelJourney travelPaths s)
    (ha : s.isAnimating = true) (hp : s.isPaused = true) (hi : s.currentPathIndex = i)
    (ht : s.pauseTimer + 16 ≥ pauseDuration) :
    pauseDuration = 5000 ∧ i < travelPaths.length ∧
    (animateTravelPath travelJourney travelPaths spawn s).isPaused = false ∧
    (animateTravelPath travelJourney travelPaths spawn s).currentPathIndex = i + 1 ∧
    (animateTravelPath travelJourney travelPaths spawn s).pauseTimer = 0 ∧
    (i + 1 = travelPaths.length →
      (animateTravelPath travelJourney travelPaths spawn s).isAnimating = false ∧
      (animateTravelPath travelJourney travelPaths spawn s).planeVisible = false ∧
      (animateTravelPath travelJourney travelPaths spawn s).animationProgress = 0) ∧
    (i + 1 ≠ travelPaths.length →
      i + 1 < travelPaths.length ∧
      (animateTravelPath travelJourney travelPaths spawn s).isAnimating = true ∧
      (animateTravelPath travelJourney travelPaths spawn s).planeVisible = true ∧
      (animateTravelPath travelJourney travelPaths spawn s).animationProgress =
        s.animationSpeed ∧
      (animateTravelPath travelJourney travelPaths spawn s).animationProgress < 1) := by
  subst hi
  have hinv := inv_of_reachable hr
  have hlt : s.currentPathIndex < travelPaths.length := (hinv.dwelling hp).2.2.1
  have hsp := speed_lt_of_inv hinv
  have hs1 : (0 : ℚ) + s.animationSpeed < 1 := by
    have : (0.004 : ℚ) < 1 := by norm_num
    linarith [hsp.2]
  have htick := tick_dwell_end travelJourney travelPaths spawn s ha hp hlt ht
  refine ⟨rfl, hlt, ?_⟩
  by_cases hfin : s.currentPathIndex + 1 ≥ travelPaths.length
  · rw [if_pos hfin] at htick
    rw [htick]
    refine ⟨rfl, rfl, rfl, fun _ => ⟨rfl, rfl, rfl⟩, fun hne => ?_⟩
    exact absurd (le_antisymm (Nat.succ_le_of_lt hlt) hfin) hne
  · rw [if_neg hfin] at htick
    have hadv := travelStep_advance travelJourney
      { s with isPaused := false, pauseTimer := 0, animationProgress := 0
               currentPathIndex := s.currentPathIndex + 1 } hs1
    obtain ⟨c1, c2, c3, c4, c5, -, c7, -, -, -⟩ := createTrailParticle_journey
      { s with isPaused := false, pauseTimer := 0
               animationProgress := 0 + s.animationSpeed
               currentPathIndex := s.currentPathIndex + 1, planeVisible := true }
    have hfields :
        (animateTravelPath travelJourney travelPaths spawn s).isPaused = false ∧
        (animateTravelPath travelJourney travelPaths spawn s).currentPathIndex =
          s.currentPathIndex + 1 ∧
        (animateTravelPath travelJourney travelPaths spawn s).pauseTimer = 0 ∧
        (animateTravelPath travelJourney travelPaths spawn s).isAnimating = true ∧
        (animateTravelPath travelJourney travelPaths spawn s).planeVisible = true ∧
        (animateTravelPath travelJourney travelPaths spawn s).animationProgress =
          s.animationSpeed := by
      rw [htick]
      cases spawn with
      | false =>
        rw [hadv.1]
        exact ⟨rfl, rfl, rfl, ha, rfl, zero_add _⟩
      | true =>
        rw [hadv.2]
        exact ⟨c4, c1, c5, c3.trans ha, c7, c2.trans (zero_add _)⟩
    obtain ⟨f1, f2, f3, f4, f5, f6⟩ := hfields
    refine ⟨f1, f2, f3, fun he => absurd (le_of_eq he.symm) hfin, fun _ => ?_⟩
    refine ⟨lt_of_not_ge hfin, f4, f5, f6, ?_⟩
    rw [f6]; linarith

/-- C4 (witness). On the built-in itinerary, after play and 812 ticks the
machine is paused on leg 0 with the dwell timer at 4992; the next tick
moves to leg 1. -/
theorem C4_dwell_completion_witness :
    (animateTravelPath travelJourney
      (travelPathsOf (JSMath.mk Real.pi Real.sin Real.cos Real.sqrt) travelJourney) false
      (run travelJourney
        (travelPathsOf (JSMath.mk Real.pi Real.sin Real.cos Real.sqrt) travelJourney)
        (Op.play :: List.replicate 812 (Op.tick false)) init)).currentPathIndex = 0 + 1 :=
  (C4_dwell_completion travelJourney
    (travelPathsOf (JSMath.mk Real.pi Real.sin Real.cos Real.sqrt) travelJourney)
    (run travelJourney
      (travelPathsOf (JSMath.mk Real.pi Real.sin Real.cos Real.sqrt) travelJourney)
      (Op.play :: List.replicate 812 (Op.tick false)) init) false 0 ⟨_, rfl⟩
    (by rw [builtin_run_812]) (by rw [builtin_run_812])
    (by rw [builtin_run_812]; rfl) (by rw [builtin_run_812]; decide)).2.2.2.1

/-- C4 (counterexample). On the built-in itinerary, the state after play and
812 ticks is animating and paused on leg 0 with `pauseTimer + 16 ≥ 5000`;
the tick that ends the pause leaves `animationProgress` at 0.002, not 0. -/
theorem C4_progress_not_zero_after_dwell :
    (run travelJourney
      (travelPathsOf (JSMath.mk Real.pi Real.sin Real.cos Real.sqrt) travelJourney)
      (Op.play :: List.replicate 812 (Op.tick false)) init).isAnimating = true ∧
    (run travelJourney
      (travelPathsOf (JSMath.mk Real.pi Real.sin Real.cos Real.sqrt) travelJourney)
      (Op.play :: List.replicate 812 (Op.tick false)) init).isPaused = true ∧
    (run travelJourney
      (travelPathsOf (JSMath.mk Real.pi Real.sin Real.cos Real.sqrt) travelJourney)
      (Op.play :: List.replicate 812 (Op.tick false)) init).currentPathIndex = 0 ∧
    (run travelJourney
      (travelPathsOf (JSMath.mk Real.pi Real.sin Real.cos Real.sqrt) travelJourney)
      (Op.play :: List.replicate 812 (Op.tick false)) init).pauseTimer + 16 ≥ 5000 ∧
    (animateTravelPath travelJourney
      (travelPathsOf (JSMath.mk Real.pi Real.sin Real.cos Real.sqrt) travelJourney) false
      (run travelJourney
        (travelPathsOf (JSMath.mk Real.pi Real.sin Real.cos Real.sqrt) travelJourney)
        (Op.play :: List.replicate 812 (Op.tick false)) init)).animationProgress = 0.002 ∧
    (animateTravelPath travelJourney
      (travelPathsOf (JSMath.mk Real.pi Real.sin Real.cos Real.sqrt) travelJourney) false
      (run travelJourney
        (travelPathsOf (JSMath.mk Real.pi Real.sin Real.cos Real.sqrt) travelJourney)
        (Op.play :: List.replicate 812 (Op.tick false)) init)).animationProgress ≠ 0 := by
  rw [builtin_run_812]
  decide!

theorem twoWaypoint_length {K : Type} [Field K] (M : JSMath K) (A B : Location) :
    (travelPathsOf M [A, B]).length = 1 := by
  rw [travelPathsOf_length]; rfl

theorem twoWaypoint_traveling {K : Type} [Field K] (M : JSMath K) (A B : Location)
    (spawns : List Bool) (hn : spawns.length ≤ 499) :
    (ticks [A, B] (travelPathsOf M [A, B]) spawns
      (playClick (travelPathsOf M [A, B]) init)).isAnimating = true ∧
    (ticks [A, B] (travelPathsOf M [A, B]) spawns
      (playClick (travelPathsOf M [A, B]) init)).isPaused = false ∧
    (ticks [A, B] (travelPathsOf M [A, B]) spawns
      (playClick (travelPathsOf M [A, B]) init)).currentPathIndex = 0 ∧
    (ticks [A, B] (travelPathsOf M [A, B]) spawns
      (playClick (travelPathsOf M [A, B]) init)).animationProgress = 0.002 * spawns.length ∧
    (ticks [A, B] (travelPathsOf M [A, B]) spawns
      (playClick (travelPathsOf M [A, B]) init)).animationSpeed = 0.002 ∧
    (ticks [A, B] (travelPathsOf M [A, B]) spawns
      (playClick (travelPathsOf M [A, B]) init)).pauseTimer = 0 ∧
    (ticks [A, B] (travelPathsOf M [A, B]) spawns
      (playClick (travelPathsOf M [A, B]) init)).infoLog = [] := by
  have hlen := twoWaypoint_length M A B
  have hplay : playClick (travelPathsOf M [A, B]) init = { init with isAnimating := true } := by
    simp [playClick, init, hlen]
  have hq : (spawns.length : ℚ) ≤ 499 := by exact_mod_cast hn
  rw [hplay]
  obtain ⟨h1, h2, h3, h4, h5, h6, h7, -, -⟩ :=
    ticks_travel [A, B] (travelPathsOf M [A, B]) spawns { init with isAnimating := true }
      rfl rfl (by rw [hlen]; exact Nat.zero_lt_one) (by norm_num [init])
      (by
        show (0 : ℚ) + (spawns.length : ℚ) * 0.002 < 1
        have : (spawns.length : ℚ) * 0.002 ≤ 499 * 0.002 :=
          mul_le_mul_of_nonneg_right hq (by norm_num)
        have h499 : (499 : ℚ) * 0.002 < 1 := by norm_num
        linarith)
  refine ⟨h1, h2, h3, ?_, h5, h6, h7⟩
  rw [h4]
  show (0 : ℚ) + (spawns.length : ℚ) * 0.002 = 0.002 * (spawns.length : ℚ)
  ring

theorem twoWaypoint_arrived {K : Type} [Field K] (M : JSMath K) (A B : Location)
    (spawns : List Bool) (hn : spawns.length = 500) :
    (ticks [A, B] (travelPathsOf M [A, B]) spawns
      (playClick (travelPathsOf M [A, B]) init)).isAnimating = true ∧
    (ticks [A, B] (travelPathsOf M [A, B]) spawns
      (playClick (travelPathsOf M [A, B]) init)).isPaused = true ∧
    (ticks [A, B] (travelPathsOf M [A, B]) spawns
      (playClick (travelPathsOf M [A, B]) init)).currentPathIndex = 0 ∧
    (ticks [A, B] (travelPathsOf M [A, B]) spawns
      (playClick (travelPathsOf M [A, B]) init)).animationProgress = 1 ∧
    (ticks [A, B] (travelPathsOf M [A, B]) spawns
      (playClick (travelPathsOf M [A, B]) init)).pauseTimer = 0 ∧
    (ticks [A, B] (travelPathsOf M [A, B]) spawns
      (playClick (travelPathsOf M [A, B]) init)).infoLog = [B] ∧
    (ticks [A, B] (travelPathsOf M [A, B]) spawns
      (playClick (travelPathsOf M [A, B]) init)).infoPanelContent = some B ∧
    (ticks [A, B] (travelPathsOf M [A, B]) spawns
      (playClick (travelPathsOf M [A, B]) init)).planeVisible = false := by
  have hlen := twoWaypoint_length M A B
  have hsplit := List.take_append_drop 499 spawns
  have htake : (spawns.take 499).length = 499 := by rw [List.length_take, hn]; rfl
  have hdrop : (spawns.drop 499).length = 1 := by rw [List.length_drop, hn]
  obtain ⟨x, hx⟩ := List.length_eq_one.mp hdrop
  obtain ⟨h1, h2, h3, h4, h5, h6, h7⟩ :=
    twoWaypoint_traveling M A B (spawns.take 499) (le_of_eq htake)
  rw [← hsplit, ticks_append, hx]
  generalize ticks [A, B] (travelPathsOf M [A, B]) (spawns.take 499)
    (playClick (travelPathsOf M [A, B]) init) = t at h1 h2 h3 h4 h5 h6 h7
  have hge : t.animationProgress + t.animationSpeed ≥ 1 := by
    rw [h4, h5, htake]; norm_num
  have htick : ticks [A, B] (travelPathsOf M [A, B]) [x] t =
      animateTravelPath [A, B] (travelPathsOf M [A, B]) x t := rfl
  rw [htick, tick_travel [A, B] _ x t h1 h2 (by rw [h3, hlen]; exact Nat.zero_lt_one),
    travelStep_arrive [A, B] x t hge, h3]
  refine ⟨h1, rfl, rfl, ?_, h6, ?_, rfl, rfl⟩
  · show t.animationProgress + t.animationSpeed = 1
    rw [h4, h5, htake]; norm_num
  · show t.infoLog ++ [B] = [B]
    rw [h7]; rfl

theorem twoWaypoint_dwelling {K : Type} [Field K] (M : JSMath K) (A B : Location)
    (spawns : List Bool) (h500 : 500 ≤ spawns.length) (h812 : spawns.length ≤ 812) :
    (ticks [A, B] (travelPathsOf M [A, B]) spawns
      (playClick (travelPathsOf M [A, B]) init)).isAnimating = true ∧
    (ticks [A, B] (travelPathsOf M [A, B]) spawns
      (playClick (travelPathsOf M [A, B]) init)).isPaused = true ∧
    (ticks [A, B] (travelPathsOf M [A, B]) spawns
      (playClick (travelPathsOf M [A, B]) init)).currentPathIndex = 0 ∧
    (ticks [A, B] (travelPathsOf M [A, B]) spawns
      (playClick (travelPathsOf M [A, B]) init)).animationProgress = 1 ∧
    (ticks [A, B] (travelPathsOf M [A, B]) spawns
      (playClick (travelPathsOf M [A, B]) init)).pauseTimer = 16 * (spawns.length - 500) ∧
    (ticks [A, B] (travelPathsOf M [A, B]) spawns
      (playClick (travelPathsOf M [A, B]) init)).infoLog = [B] ∧
    (ticks [A, B] (travelPathsOf M [A, B]) spawns
      (playClick (travelPathsOf M [A, B]) init)).planeVisible = false := by
  have hlen := twoWaypoint_length M A B
  have hsplit := List.take_append_drop 500 spawns
  have htake : (spawns.take 500).length = 500 := by
    rw [List.length_take]; exact Nat.min_eq_left h500
  have hdrop : (spawns.drop 500).length = spawns.length - 500 := List.length_drop _ _
  obtain ⟨h1, h2, h3, h4, h5, h6, -, h8⟩ := twoWaypoint_arrived M A B (spawns.take 500) htake
  rw [← hsplit, ticks_append]
  generalize ticks [A, B] (travelPathsOf M [A, B]) (spawns.take 500)
    (playClick (travelPathsOf M [A, B]) init) = t at h1 h2 h3 h4 h5 h6 h8
  rw [ticks_dwell [A, B] (travelPathsOf M [A, B]) (spawns.drop 500) t h1 h2
    (by rw [h3, hlen]; exact Nat.zero_lt_one)
    (by rw [h5, hdrop]; simp only [pauseDuration]; omega)]
  refine ⟨h1, h2, h3, h4, ?_, h6, h8⟩
  show t.pauseTimer + 16 * (spawns.drop 500).length = _
  rw [h5, hdrop, List.length_append, htake, hdrop]
  omega

theorem twoWaypoint_finished {K : Type} [Field K] (M : JSMath K) (A B : Location)
    (spawns : List Bool) (hn : spawns.length = 813) :
    (ticks [A, B] (travelPathsOf M [A, B]) spawns
      (playClick (travelPathsOf M [A, B]) init)).isAnimating = false ∧
    (ticks [A, B] (travelPathsOf M [A, B]) spawns
      (playClick (travelPathsOf M [A, B]) init)).isPaused = false ∧
    (ticks [A, B] (travelPathsOf M [A, B]) spawns
      (playClick (travelPathsOf M [A, B]) init)).currentPathIndex = 1 ∧
    (ticks [A, B] (travelPathsOf M [A, B]) spawns
      (playClick (travelPathsOf M [A, B]) init)).animationProgress = 0 ∧
    (ticks [A, B] (travelPathsOf M [A, B]) spawns
      (playClick (travelPathsOf M [A, B]) init)).infoLog = [B] ∧
    (ticks [A, B] (travelPathsOf M [A, B]) spawns
      (playClick (travelPathsOf M [A, B]) init)).planeVisible = false := by
  have hlen := twoWaypoint_length M A B
  have hsplit := List.take_append_drop 812 spawns
  have htake : (spawns.take 812).length = 812 := by rw [List.length_take, hn]; rfl
  have hdrop : (spawns.drop 812).length = 1 := by rw [List.length_drop, hn]
  obtain ⟨x, hx⟩ := List.length_eq_one.mp hdrop
  obtain ⟨h1, h2, h3, -, h5, h6, -⟩ :=
    twoWaypoint_dwelling M A B (spawns.take 812) (by rw [htake]; decide) (le_of_eq htake)
  rw [htake] at h5
  rw [← hsplit, ticks_append, hx]
  generalize ticks [A, B] (travelPathsOf M [A, B]) (spawns.take 812)
    (playClick (travelPathsOf M [A, B]) init) = t at h1 h2 h3 h5 h6
  have htick : ticks [A, B] (travelPathsOf M [A, B]) [x] t =
      animateTravelPath [A, B] (travelPathsOf M [A, B]) x t := rfl
  rw [htick, tick_dwell_end [A, B] _ x t h1 h2 (by rw [h3, hlen]; exact Nat.zero_lt_one)
    (by rw [h5]; decide), if_pos (by rw [h3, hlen])]
  exact ⟨rfl, rfl, by show t.currentPathIndex + 1 = 1; rw [h3], rfl, h6, rfl⟩

/-- C5. Scenario 1: for an itinerary of two waypoints `A`, `B`, after one play
command from the initial state (speed 0.002) and whatever the random draws
of the ticks: the registry has one leg; after `n ≤ 499` ticks the machine
is still traveling on leg 0 with progress `0.002 * n < 1` and nothing has
been shown; after 500 ticks the progress is 1, the machine is paused and
the only location shown is `B`; it stays paused on leg 0 up to tick 812;
after 813 ticks it is finished: `currentPathIndex` = 1 = number of legs,
`isAnimating` false, vehicle hidden, and `B` is still the only location
shown. -/
theorem C5_two_waypoint_journey {K : Type} [Field K] (M : JSMath K) (A B : Location)
    (spawns : List Bool) :
    (travelPathsOf M [A, B]).length = 1 ∧
    (spawns.length ≤ 499 →
      (ticks [A, B] (travelPathsOf M [A, B]) spawns
        (playClick (travelPathsOf M [A, B]) init)).isAnimating = true ∧
      (ticks [A, B] (travelPathsOf M [A, B]) spawns
        (playClick (travelPathsOf M [A, B]) init)).isPaused = false ∧
      (ticks [A, B] (travelPathsOf M [A, B]) spawns
        (playClick (travelPathsOf M [A, B]) init)).currentPathIndex = 0 ∧
      (ticks [A, B] (travelPathsOf M [A, B]) spawns
        (playClick (travelPathsOf M [A, B]) init)).animationProgress = 0.002 * spawns.length ∧
      (ticks [A, B] (travelPathsOf M [A, B]) spawns
        (playClick (travelPathsOf M [A, B]) init)).animationProgress < 1 ∧
      (ticks [A, B] (travelPathsOf M [A, B]) spawns
        (playClick (travelPathsOf M [A, B]) init)).infoLog = []) ∧
    (spawns.length = 500 →
      (ticks [A, B] (travelPathsOf M [A, B]) spawns
        (playClick (travelPathsOf M [A, B]) init)).animationProgress = 1 ∧
      (ticks [A, B] (travelPathsOf M [A, B]) spawns
        (playClick (travelPathsOf M [A, B]) init)).infoPanelContent = some B) ∧
    (500 ≤ spawns.length → spawns.length ≤ 812 →
      (ticks [A, B] (travelPathsOf M [A, B]) spawns
        (playClick (travelPathsOf M [A, B]) init)).isAnimating = true ∧
      (ticks [A, B] (travelPathsOf M [A, B]) spawns
        (playClick (travelPathsOf M [A, B]) init)).isPaused = true ∧
      (ticks [A, B] (travelPathsOf M [A, B]) spawns
        (playClick (travelPathsOf M [A, B]) init)).currentPathIndex = 0 ∧
      (ticks [A, B] (travelPathsOf M [A, B]) spawns
        (playClick (travelPathsOf M [A, B]) init)).pauseTimer = 16 * (spawns.length - 500) ∧
      (ticks [A, B] (travelPathsOf M [A, B]) spawns
        (playClick (travelPathsOf M [A, B]) init)).infoLog = [B] ∧
      (ticks [A, B] (travelPathsOf M [A, B]) spawns
        (playClick (travelPathsOf M [A, B]) init)).planeVisible = false) ∧
    (spawns.length = 813 →
      (ticks [A, B] (travelPathsOf M [A, B]) spawns
        (playClick (travelPathsOf M [A, B]) init)).currentPathIndex = 1 ∧
      (ticks [A, B] (travelPathsOf M [A, B]) spawns
        (playClick (travelPathsOf M [A, B]) init)).isAnimating = false ∧
      (ticks [A, B] (travelPathsOf M [A, B]) spawns
        (playClick (travelPathsOf M [A, B]) init)).isPaused = false ∧
      (ticks [A, B] (travelPathsOf M [A, B]) spawns
        (playClick (travelPathsOf M [A, B]) init)).planeVisible = false ∧
      (ticks [A, B] (travelPathsOf M [A, B]) spawns
        (playClick (travelPathsOf M [A, B]) init)).infoLog = [B]) := by
  refine ⟨twoWaypoint_length M A B, fun hn => ?_, fun hn => ?_, fun h500 h812 => ?_,
    fun hn => ?_⟩
  · obtain ⟨h1, h2, h3, h4, -, -, h7⟩ := twoWaypoint_traveling M A B spawns hn
    refine ⟨h1, h2, h3, h4, ?_, h7⟩
    rw [h4]
    have hq : (spawns.length : ℚ) ≤ 499 := by exact_mod_cast hn
    have : (0.002 : ℚ) * spawns.length ≤ 0.002 * 499 :=
      mul_le_mul_of_nonneg_left hq (by norm_num)
    have h499 : (0.002 : ℚ) * 499 < 1 := by norm_num
    linarith
  · obtain ⟨-, -, -, h4, -, -, h7, -⟩ := twoWaypoint_arrived M A B spawns hn
    exact ⟨h4, h7⟩
  · obtain ⟨h1, h2, h3, -, h5, h6, h7⟩ := twoWaypoint_dwelling M A B spawns h500 h812
    exact ⟨h1, h2, h3, h5, h6, h7⟩
  · obtain ⟨h1, h2, h3, -, h5, h6⟩ := twoWaypoint_finished M A B spawns hn
    exact ⟨h3, h1, h2, h6, h5⟩

/-- C6. Reset is idempotent: from any state, two resets in a row give the
state one reset gives, and in that state `currentPathIndex` = 0,
`animationProgress` = 0, `isAnimating` and `isPaused` are false,
`pauseTimer` = 0, the vehicle is hidden, the trail is empty and the info
panel is hidden. -/
theorem C6_reset_idempotent (s : State) :
    resetClick (resetClick s) = resetClick s ∧
    (resetClick s).currentPathIndex = 0 ∧
    (resetClick s).animationProgress = 0 ∧
    (resetClick s).isAnimating = false ∧
    (resetClick s).isPaused = false ∧
    (resetClick s).pauseTimer = 0 ∧
    (resetClick s).planeVisible = false ∧
    (resetClick s).planeTrail = [] ∧
    (resetClick s).infoPanelVisible = false :=
  ⟨rfl, rfl, rfl, rfl, rfl, rfl, rfl, rfl, rfl⟩

/-- C7. Pause/resume round trip: from a state with `isAnimating` true and
`currentPathIndex` below the number of legs, toggling play/pause off,
running any number of ticks (with any random draws) and toggling it on
again gives back the same `currentPathIndex`, `animationProgress`,
`isPaused`, `pauseTimer`, `animationSpeed` and trail, with `isAnimating`
true again; and a tick in a state with `isAnimating` false changes nothing
but the vehicle's visibility (no progress, no dwell time, no particle). -/
theorem C7_pause_resume {K : Type} (travelJourney : List Location)
    (travelPaths : List (Leg K)) (s : State) (spawns : List Bool)
    (ha : s.isAnimating = true) (hi : s.currentPathIndex < travelPaths.length) :
    (playClick travelPaths (ticks travelJourney travelPaths spawns
      (playClick travelPaths s))).currentPathIndex = s.currentPathIndex ∧
    (playClick travelPaths (ticks travelJourney travelPaths spawns
      (playClick travelPaths s))).animationProgress = s.animationProgress ∧
    (playClick travelPaths (ticks travelJourney travelPaths spawns
      (playClick travelPaths s))).isPaused = s.isPaused ∧
    (playClick travelPaths (ticks travelJourney travelPaths spawns
      (playClick travelPaths s))).pauseTimer = s.pauseTimer ∧
    (playClick travelPaths (ticks travelJourney travelPaths spawns
      (playClick travelPaths s))).animationSpeed = s.animationSpeed ∧
    (playClick travelPaths (ticks travelJourney travelPaths spawns
      (playClick travelPaths s))).planeTrail = s.planeTrail ∧
    (playClick travelPaths (ticks travelJourney travelPaths spawns
      (playClick travelPaths s))).isAnimating = true ∧
    (∀ (t : State) (spawn : Bool), t.isAnimating = false →
      animateTravelPath travelJourney travelPaths spawn t = { t with planeVisible := false }) := by
  have hoff : playClick travelPaths s = { s with isAnimating := false } := by
    simp [playClick, ha]
  have hon : ∀ v : Bool, playClick travelPaths { s with isAnimating := false, planeVisible := v } =
      { s with isAnimating := true, planeVisible := v } := by
    intro v
    simp [playClick, not_le.mpr hi]
  refine ⟨?_, ?_, ?_, ?_, ?_, ?_, ?_, fun t spawn ht => tick_idle _ _ spawn t ht⟩
  all_goals
    rw [hoff]
    rcases ticks_idle travelJourney travelPaths spawns { s with isAnimating := false } rfl
      with e | e
    · rw [e]
      have := hon s.planeVisible
      simp only at this
      rw [this]
    · rw [e]
      have := hon false
      simp only at this
      rw [this]

/-- C7 (witness). On the built-in itinerary, the state after play and three
ticks is animating on leg 0; pausing, ticking twice and resuming keeps the
progress. -/
theorem C7_pause_resume_witness :
    (playClick (travelPathsOf (JSMath.mk Real.pi Real.sin Real.cos Real.sqrt) travelJourney)
      (ticks travelJourney
        (travelPathsOf (JSMath.mk Real.pi Real.sin Real.cos Real.sqrt) travelJourney)
        [true, false]
        (playClick
          (travelPathsOf (JSMath.mk Real.pi Real.sin Real.cos Real.sqrt) travelJourney)
          (run travelJourney
            (travelPathsOf (JSMath.mk Real.pi Real.sin Real.cos Real.sqrt) travelJourney)
            [Op.play, Op.tick true, Op.tick false, Op.tick true] init)))).animationProgress =
      (run travelJourney
        (travelPathsOf (JSMath.mk Real.pi Real.sin Real.cos Real.sqrt) travelJourney)
        [Op.play, Op.tick true, Op.tick false, Op.tick true] init).animationProgress :=
  (C7_pause_resume travelJourney
    (travelPathsOf (JSMath.mk Real.pi Real.sin Real.cos Real.sqrt) travelJourney)
    (run travelJourney
      (travelPathsOf (JSMath.mk Real.pi Real.sin Real.cos Real.sqrt) travelJourney)
      [Op.play, Op.tick true, Op.tick false, Op.tick true] init)
    [true, false] (by decide!) (by decide!)).2.1

/-- C8. Scenario 2: from a traveling state at the 1x preset (speed 0.002)
with `animationProgress + 0.006 < 1`, one tick, then the 2x preset, then
one more tick: the first tick adds 0.002 to the progress, the second adds
0.004, exactly double; selecting the preset (any of the three) changes
neither `animationProgress` nor `currentPathIndex`; the leg index is the
same before and after the whole sequence. -/
theorem C8_speed_change {K : Type} (travelJourney : List Location)
    (travelPaths : List (Leg K)) (s : State) (spawn₁ spawn₂ : Bool)
    (ha : s.isAnimating = true) (hp : s.isPaused = false)
    (hi : s.currentPathIndex < travelPaths.length) (hs : s.animationSpeed = 0.002)
    (hlt : s.animationProgress + 0.006 < 1) :
    (animateTravelPath travelJourney travelPaths spawn₁ s).animationProgress -
      s.animationProgress = 0.002 ∧
    (animateTravelPath travelJourney travelPaths spawn₂
      (speedFastClick (animateTravelPath travelJourney travelPaths spawn₁ s))).animationProgress -
      (speedFastClick (animateTravelPath travelJourney travelPaths spawn₁ s)).animationProgress =
        0.004 ∧
    (animateTravelPath travelJourney travelPaths spawn₂
      (speedFastClick (animateTravelPath travelJourney travelPaths spawn₁ s))).animationProgress -
      (speedFastClick (animateTravelPath travelJourney travelPaths spawn₁ s)).animationProgress =
        2 * ((animateTravelPath travelJourney travelPaths spawn₁ s).animationProgress -
          s.animationProgress) ∧
    (animateTravelPath travelJourney travelPaths spawn₂
      (speedFastClick (animateTravelPath travelJourney travelPaths spawn₁ s))).currentPathIndex =
        s.currentPathIndex ∧
    (animateTravelPath travelJourney travelPaths spawn₂
      (speedFastClick (animateTravelPath travelJourney travelPaths spawn₁ s))).isPaused = false ∧
    (∀ t : State,
      (speedSlowClick t).animationProgress = t.animationProgress ∧
      (speedSlowClick t).currentPathIndex = t.currentPathIndex ∧
      (speedNormalClick t).animationProgress = t.animationProgress ∧
      (speedNormalClick t).currentPathIndex = t.currentPathIndex ∧
      (speedFastClick t).animationProgress = t.animationProgress ∧
      (speedFastClick t).currentPathIndex = t.currentPathIndex) := by
  have key : ∀ (t : State) (spawn : Bool), t.isAnimating = true → t.isPaused = false →
      t.currentPathIndex < travelPaths.length → t.animationProgress + t.animationSpeed < 1 →
      (animateTravelPath travelJourney travelPaths spawn t).animationProgress =
        t.animationProgress + t.animationSpeed ∧
      (animateTravelPath travelJourney travelPaths spawn t).currentPathIndex =
        t.currentPathIndex ∧
      (animateTravelPath travelJourney travelPaths spawn t).isAnimating = true ∧
      (animateTravelPath travelJourney travelPaths spawn t).isPaused = false ∧
      (animateTravelPath travelJourney travelPaths spawn t).animationSpeed =
        t.animationSpeed := by
    intro t spawn hta htp hti htlt
    obtain ⟨c1, c2, c3, c4, -, c6, -, -, -, -⟩ := createTrailParticle_journey
      { t with animationProgress := t.animationProgress + t.animationSpeed, planeVisible := true }
    rw [tick_travel travelJourney travelPaths spawn t hta htp hti]
    cases spawn with
    | false =>
      rw [(travelStep_advance travelJourney t htlt).1]
      exact ⟨rfl, rfl, hta, htp, rfl⟩
    | true =>
      rw [(travelStep_advance travelJourney t htlt).2]
      exact ⟨c2, c1, c3.trans hta, c4.trans htp, c6⟩
  have h1lt : s.animationProgress + s.animationSpeed < 1 := by
    rw [hs]
    have : (0.002 : ℚ) < 0.006 := by norm_num
    linarith
  obtain ⟨a1, a2, a3, a4, a5⟩ := key s spawn₁ ha hp hi h1lt
  have h2lt : (speedFastClick (animateTravelPath travelJourney travelPaths spawn₁ s)).animationProgress +
      (speedFastClick (animateTravelPath travelJourney travelPaths spawn₁ s)).animationSpeed < 1 := by
    show (animateTravelPath travelJourney travelPaths spawn₁ s).animationProgress + 0.004 < 1
    rw [a1, hs]
    have : (0.002 : ℚ) + 0.004 = 0.006 := by norm_num
    linarith
  obtain ⟨b1, b2, -, b4, -⟩ :=
    key (speedFastClick (animateTravelPath travelJourney travelPaths spawn₁ s)) spawn₂
      a3 a4 (by show (animateTravelPath travelJourney travelPaths spawn₁ s).currentPathIndex < _
                rw [a2]; exact hi) h2lt
  have d1 : (animateTravelPath travelJourney travelPaths spawn₁ s).animationProgress -
      s.animationProgress = 0.002 := by rw [a1, hs]; ring
  have d2 : (animateTravelPath travelJourney travelPaths spawn₂
      (speedFastClick (animateTravelPath travelJourney travelPaths spawn₁ s))).animationProgress -
      (speedFastClick (animateTravelPath travelJourney travelPaths spawn₁ s)).animationProgress =
        0.004 := by
    rw [b1]
    show _ + (0.004 : ℚ) - _ = 0.004
    ring
  refine ⟨d1, d2, ?_, ?_, b4, fun t => ⟨rfl, rfl, rfl, rfl, rfl, rfl⟩⟩
  · rw [d1, d2]; norm_num
  · rw [b2]; exact a2

/-- C8 (witness). On the built-in itinerary, freshly after play (progress 0,
speed 0.002) the second of the two ticks around the 2x preset adds 0.004. -/
theorem C8_speed_change_witness :
    (animateTravelPath travelJourney
      (travelPathsOf (JSMath.mk Real.pi Real.sin Real.cos Real.sqrt) travelJourney) false
      (speedFastClick (animateTravelPath travelJourney
        (travelPathsOf (JSMath.mk Real.pi Real.sin Real.cos Real.sqrt) travelJourney) true
        (playClick
          (travelPathsOf (JSMath.mk Real.pi Real.sin Real.cos Real.sqrt) travelJourney)
          init)))).animationProgress -
      (speedFastClick (animateTravelPath travelJourney
        (travelPathsOf (JSMath.mk Real.pi Real.sin Real.cos Real.sqrt) travelJourney) true
        (playClick
          (travelPathsOf (JSMath.mk Real.pi Real.sin Real.cos Real.sqrt) travelJourney)
          init))).animationProgress = 0.004 :=
  (C8_speed_change travelJourney
    (travelPathsOf (JSMath.mk Real.pi Real.sin Real.cos Real.sqrt) travelJourney)
    (playClick (travelPathsOf (JSMath.mk Real.pi Real.sin Real.cos Real.sqrt) travelJourney)
      init) true false (by decide!) (by decide!) (by decide!) (by decide!) (by decide!)).2.1

/-- C9. Path registry: for every itinerary the initialisation loop ends
without throwing and builds `travelJourney.length - 1` legs (for `n ≥ 1`
waypoints, `n - 1`); for every `i < travelJourney.length - 1`, leg `i` has
start = waypoint `i`, end = waypoint `i + 1` and curve = `createArcCurve`
of the pair at radius 0.5 (the registry is the list of legs of the
consecutive pairs); the built-in itinerary has 12 waypoints and 11 legs. -/
theorem C9_path_registry {K : Type} [Field K] (M : JSMath K) (waypoints : List Location) :
    (∃ travelPaths : List (Leg K),
      initTravelPaths M waypoints = .ok travelPaths ∧
      travelPaths = consecutiveLegs M waypoints ∧
      travelPaths.length = waypoints.length - 1 ∧
      ∀ i, i < waypoints.length - 1 →
        ∃ a b, waypoints[i]? = some a ∧ waypoints[i + 1]? = some b ∧
          travelPaths[i]? = some
            { curve := createArcCurve M (a.lat : K) (a.lng : K) (b.lat : K) (b.lng : K) 0.5
              start := a
              «end» := b }) ∧
    travelJourney.length = 12 ∧
    ∃ travelPaths : List (Leg K),
      initTravelPaths M travelJourney = .ok travelPaths ∧ travelPaths.length = 11 := by
  refine ⟨⟨consecutiveLegs M waypoints, initTravelPaths_eq M waypoints, rfl,
    consecutiveLegs_length M waypoints, fun i hi => ?_⟩, rfl,
    ⟨consecutiveLegs M travelJourney, initTravelPaths_eq M travelJourney, ?_⟩⟩
  · exact consecutiveLegs_getElem? M waypoints i hi
  · rw [consecutiveLegs_length]; rfl

/-- C10 (as amended). Building the path registry never reports an error: for
every itinerary the initialisation loop ends normally; the registry it
builds is empty exactly when the itinerary has fewer than 2 waypoints, and
has `n - 1 ≥ 1` legs for `n ≥ 2` waypoints. -/
theorem C10_registry_never_fails {K : Type} [Field K] (M : JSMath K)
    (waypoints : List Location) :
    ∃ travelPaths : List (Leg K),
      initTravelPaths M waypoints = .ok travelPaths ∧
      (waypoints.length < 2 ↔ travelPaths = []) ∧
      (2 ≤ waypoints.length → 1 ≤ travelPaths.length ∧
        travelPaths.length + 1 = waypoints.length) := by
  refine ⟨consecutiveLegs M waypoints, initTravelPaths_eq M waypoints, ?_, fun h => ?_⟩
  · rw [← List.length_eq_zero, consecutiveLegs_length]
    omega
  · rw [consecutiveLegs_length]
    omega

/-- C10 (counterexample). For the empty itinerary and for an itinerary of one
waypoint the initialisation loop ends normally, with an empty registry: no
error is reported. -/
theorem C10_no_error_below_two_waypoints :
    initTravelPaths (JSMath.mk Real.pi Real.sin Real.cos Real.sqrt) [] = .ok [] ∧
    initTravelPaths (JSMath.mk Real.pi Real.sin Real.cos Real.sqrt)
      [⟨"Seoul, South Korea", 37.5665, 126.9780⟩] = .ok [] :=
  ⟨rfl, rfl⟩

/-! ## Theorems: empty registry, restart, arc -/

theorem tick_empty {K : Type} (travelJourney : List Location) (travelPaths : List (Leg K))
    (spawn : Bool) (s : State) (he : travelPaths.length = 0) :
    animateTravelPath travelJourney travelPaths spawn s = { s with planeVisible := false } := by
  simp [animateTravelPath, he]

theorem run_empty_progress {K : Type} (travelJourney : List Location)
    (travelPaths : List (Leg K)) (he : travelPaths.length = 0) (ops : List Op) :
    ∀ s : State, s.animationProgress = 0 →
      (run travelJourney travelPaths ops s).animationProgress = 0 := by
  induction ops with
  | nil => intro s h; exact h
  | cons op ops ih =>
    intro s h
    apply ih
    cases op with
    | tick spawn =>
      show (animateTravelPath travelJourney travelPaths spawn s).animationProgress = 0
      rw [tick_empty travelJourney travelPaths spawn s he]; exact h
    | updateTrail => exact h
    | createTrailParticle => exact (createTrailParticle_journey s).2.1.trans h
    | play =>
      show (playClick travelPaths s).animationProgress = 0
      unfold playClick
      simp only
      split
      · rfl
      · exact h
    | reset => rfl
    | speedSlow => exact h
    | speedNormal => exact h
    | speedFast => exact h

/-- C11 (as amended). With an empty registry, in every reachable state the
journey fields are `currentPathIndex` = 0, `animationProgress` = 0,
`isPaused` = false, `pauseTimer` = 0; the play command toggles
`isAnimating` and leaves those four fields as they are; and every tick
(also after play) changes nothing but hides the vehicle. -/
theorem C11_play_on_empty_registry {K : Type} (travelJourney : List Location)
    (travelPaths : List (Leg K)) (s : State)
    (hr : Reachable travelJourney travelPaths s) (he : travelPaths.length = 0) :
    (playClick travelPaths s).isAnimating = !s.isAnimating ∧
    (playClick travelPaths s).currentPathIndex = s.currentPathIndex ∧
    (playClick travelPaths s).animationProgress = s.animationProgress ∧
    (playClick travelPaths s).isPaused = s.isPaused ∧
    (playClick travelPaths s).pauseTimer = s.pauseTimer ∧
    s.currentPathIndex = 0 ∧ s.animationProgress = 0 ∧ s.isPaused = false ∧ s.pauseTimer = 0 ∧
    ∀ (t : State) (spawn : Bool),
      animateTravelPath travelJourney travelPaths spawn t = { t with planeVisible := false } := by
  have hinv := inv_of_reachable hr
  have hidx : s.currentPathIndex = 0 := by
    have := hinv.index_le
    omega
  have hnp : s.isPaused = false := by
    cases hpz : s.isPaused with
    | false => rfl
    | true =>
      have := (hinv.dwelling hpz).2.2.1
      omega
  have hprog : s.animationProgress = 0 := by
    obtain ⟨ops, rfl⟩ := hr
    exact run_empty_progress travelJourney travelPaths he ops init rfl
  refine ⟨?_, ?_, ?_, ?_, ?_, hidx, hprog, hnp, (hinv.running hnp).2,
    fun t spawn => tick_empty travelJourney travelPaths spawn t he⟩
  all_goals
    unfold playClick
    simp only
    split
  · rfl
  · rfl
  · exact hidx.symm
  · rfl
  · exact hprog.symm
  · rfl
  · rfl
  · rfl
  · rfl
  · rfl

/-- C11 (witness). The registry of the empty itinerary has no legs, and the
initial state is reachable. -/
theorem C11_play_on_empty_registry_witness :
    (playClick (travelPathsOf (JSMath.mk Real.pi Real.sin Real.cos Real.sqrt) []) init).isAnimating =
      !init.isAnimating :=
  (C11_play_on_empty_registry []
    (travelPathsOf (JSMath.mk Real.pi Real.sin Real.cos Real.sqrt) []) init ⟨[], rfl⟩ rfl).1

/-- C11 (counterexample). With the empty itinerary the registry has no legs,
and the play command from the initial state (`isAnimating` false) sets
`isAnimating` to true: the state after the command differs from the state
before it. -/
theorem C11_play_sets_isAnimating :
    (travelPathsOf (JSMath.mk Real.pi Real.sin Real.cos Real.sqrt) []).length = 0 ∧
    init.isAnimating = false ∧
    (playClick (travelPathsOf (JSMath.mk Real.pi Real.sin Real.cos Real.sqrt) [])
      init).isAnimating = true :=
  ⟨rfl, rfl, rfl⟩
theorem tick_advance_fields {K : Type} (travelJourney : List Location)
    (travelPaths : List (Leg K)) (spawn : Bool) (t : State)
    (hta : t.isAnimating = true) (htp : t.isPaused = false)
    (hti : t.currentPathIndex < travelPaths.length)
    (htlt : t.animationProgress + t.animationSpeed < 1) :
    (animateTravelPath travelJourney travelPaths spawn t).animationProgress =
      t.animationProgress + t.animationSpeed ∧
    (animateTravelPath travelJourney travelPaths spawn t).currentPathIndex =
      t.currentPathIndex ∧
    (animateTravelPath travelJourney travelPaths spawn t).isAnimating = true ∧
    (animateTravelPath travelJourney travelPaths spawn t).isPaused = false ∧
    (animateTravelPath travelJourney travelPaths spawn t).animationSpeed = t.animationSpeed ∧
    (animateTravelPath travelJourney travelPaths spawn t).pauseTimer = t.pauseTimer ∧
    (animateTravelPath travelJourney travelPaths spawn t).planeVisible = true := by
  obtain ⟨c1, c2, c3, c4, c5, c6, c7, -, -, -⟩ := createTrailParticle_journey
    { t with animationProgress := t.animationProgress + t.animationSpeed, planeVisible := true }
  rw [tick_travel travelJourney travelPaths spawn t hta htp hti]
  cases spawn with
  | false =>
    rw [(travelStep_advance travelJourney t htlt).1]
    exact ⟨rfl, rfl, hta, htp, rfl, rfl, rfl⟩
  | true =>
    rw [(travelStep_advance travelJourney t htlt).2]
    exact ⟨c2, c1, c3.trans hta, c4.trans htp, c6, c5, c7⟩

/-- C12. Restart after finish: in a reachable finished state of an itinerary
with at least one leg (`currentPathIndex` = number of legs, `isAnimating`
false, not paused), the play command sets `isAnimating` true,
`currentPathIndex` 0 and `animationProgress` 0, and the tick after it is
traveling on leg 0 (animating, not paused, vehicle shown) with
`animationProgress` = `animationSpeed`, below 1. -/
theorem C12_restart_after_finish {K : Type} (travelJourney : List Location)
    (travelPaths : List (Leg K)) (s : State) (spawn : Bool)
    (hr : Reachable travelJourney travelPaths s) (hlegs : 1 ≤ travelPaths.length)
    (hfin : s.currentPathIndex = travelPaths.length) (ha : s.isAnimating = false)
    (hp : s.isPaused = false) :
    (playClick travelPaths s).isAnimating = true ∧
    (playClick travelPaths s).currentPathIndex = 0 ∧
    (playClick travelPaths s).animationProgress = 0 ∧
    (animateTravelPath travelJourney travelPaths spawn
      (playClick travelPaths s)).isAnimating = true ∧
    (animateTravelPath travelJourney travelPaths spawn
      (playClick travelPaths s)).isPaused = false ∧
    (animateTravelPath travelJourney travelPaths spawn
      (playClick travelPaths s)).currentPathIndex = 0 ∧
    (animateTravelPath travelJourney travelPaths spawn
      (playClick travelPaths s)).planeVisible = true ∧
    (animateTravelPath travelJourney travelPaths spawn
      (playClick travelPaths s)).animationProgress = s.animationSpeed ∧
    (animateTravelPath travelJourney travelPaths spawn
      (playClick travelPaths s)).animationProgress < 1 := by
  have hinv := inv_of_reachable hr
  have hsp := speed_lt_of_inv hinv
  have hplay : playClick travelPaths s =
      { s with isAnimating := true, currentPathIndex := 0, animationProgress := 0 } := by
    simp [playClick, ha, hfin]
  have hs1 : (0 : ℚ) + s.animationSpeed < 1 := by
    have : (0.004 : ℚ) < 1 := by norm_num
    linarith [hsp.2]
  obtain ⟨f1, f2, f3, f4, -, -, f7⟩ := tick_advance_fields travelJourney travelPaths spawn
    { s with isAnimating := true, currentPathIndex := 0, animationProgress := 0 }
    rfl hp (Nat.lt_of_lt_of_le Nat.zero_lt_one hlegs) hs1
  rw [hplay]
  refine ⟨rfl, rfl, rfl, f3, f4, f2, f7, ?_, ?_⟩
  · rw [f1]; exact zero_add _
  · rw [f1]; exact hs1

/-- C12 (witness). For the itinerary of the first two built-in waypoints, the
state after play and 813 ticks is finished (leg index 1 of 1 leg, not
animating, not paused); play restarts at leg 0. -/
theorem C12_restart_after_finish_witness :
    (playClick (travelPathsOf (JSMath.mk Real.pi Real.sin Real.cos Real.sqrt)
        (travelJourney.take 2))
      (run (travelJourney.take 2)
        (travelPathsOf (JSMath.mk Real.pi Real.sin Real.cos Real.sqrt) (travelJourney.take 2))
        (Op.play :: List.replicate 813 (Op.tick false)) init)).currentPathIndex = 0 :=
  (C12_restart_after_finish (travelJourney.take 2)
    (travelPathsOf (JSMath.mk Real.pi Real.sin Real.cos Real.sqrt) (travelJourney.take 2))
    (run (travelJourney.take 2)
      (travelPathsOf (JSMath.mk Real.pi Real.sin Real.cos Real.sqrt) (travelJourney.take 2))
      (Op.play :: List.replicate 813 (Op.tick false)) init) false ⟨_, rfl⟩
    (by decide!) (by rw [pair_run_813]; decide!) (by rw [pair_run_813]; rfl)
    (by rw [pair_run_813]; rfl)).2.1

/-- C13. Arc endpoints: for all coordinates and every radius, the curve of
`createArcCurve`, evaluated with the quadratic Bezier formula
`(1-t)^2*P0 + 2(1-t)t*P1 + t^2*P2`, is at the projection of the start
waypoint (height 0) for `t = 0` and at the projection of the end waypoint
for `t = 1`. -/
theorem C13_arc_endpoints {K : Type} [Field K] (M : JSMath K)
    (startLat startLng endLat endLng radius : K) :
    (createArcCurve M startLat startLng endLat endLng radius).getPoint 0 =
      latLongToVector3 M startLat startLng radius 0 ∧
    (createArcCurve M startLat startLng endLat endLng radius).getPoint 1 =
      latLongToVector3 M endLat endLng radius 0 ∧
    ∀ (t p0 p1 p2 : K), b2 t p0 p1 p2 = (1 - t) ^ 2 * p0 + 2 * (1 - t) * t * p1 + t ^ 2 * p2 := by
  refine ⟨?_, ?_, fun t p0 p1 p2 => ?_⟩
  · simp [createArcCurve, QuadraticBezierCurve3.getPoint, b2]
  · simp [createArcCurve, QuadraticBezierCurve3.getPoint, b2]
  · unfold b2; ring

theorem length_multiplyScalar_real (M : JSMath ℝ) (hsqrt : M.sqrt = Real.sqrt)
    (v : Vector3 ℝ) (c : ℝ) (hc : 0 ≤ c) :
    (v.multiplyScalar c).length M = v.length M * c := by
  simp only [Vector3.length, Vector3.multiplyScalar, hsqrt]
  have : v.x * c * (v.x * c) + v.y * c * (v.y * c) + v.z * c * (v.z * c) =
      (v.x * v.x + v.y * v.y + v.z * v.z) * (c * c) := by ring
  rw [this, Real.sqrt_mul' _ (mul_self_nonneg c), Real.sqrt_mul_self hc]

theorem length_pos_real (M : JSMath ℝ) (hsqrt : M.sqrt = Real.sqrt)
    (v : Vector3 ℝ) (hv : v ≠ ⟨0, 0, 0⟩) : 0 < v.length M := by
  simp only [Vector3.length, hsqrt]
  apply Real.sqrt_pos.mpr
  by_contra hneg
  have hsum : v.x * v.x + v.y * v.y + v.z * v.z = 0 :=
    le_antisymm (not_lt.mp hneg)
      (by nlinarith [mul_self_nonneg v.x, mul_self_nonneg v.y, mul_self_nonneg v.z])
  have hx : v.x = 0 := by nlinarith [mul_self_nonneg v.x, mul_self_nonneg v.y, mul_self_nonneg v.z]
  have hy : v.y = 0 := by nlinarith [mul_self_nonneg v.x, mul_self_nonneg v.y, mul_self_nonneg v.z]
  have hz : v.z = 0 := by nlinarith [mul_self_nonneg v.x, mul_self_nonneg v.y, mul_self_nonneg v.z]
  apply hv
  cases v
  simp only at hx hy hz
  rw [hx, hy, hz]

theorem length_normalize_real (M : JSMath ℝ) (hsqrt : M.sqrt = Real.sqrt)
    (v : Vector3 ℝ) (hv : v ≠ ⟨0, 0, 0⟩) : (v.normalize M).length M = 1 := by
  have hpos := length_pos_real M hsqrt v hv
  have hsq : v.length M * v.length M = v.x * v.x + v.y * v.y + v.z * v.z := by
    simp only [Vector3.length, hsqrt]
    exact Real.mul_self_sqrt
      (by nlinarith [mul_self_nonneg v.x, mul_self_nonneg v.y, mul_self_nonneg v.z])
  have hne : v.length M ≠ 0 := ne_of_gt hpos
  have hone : v.x / v.length M * (v.x / v.length M) + v.y / v.length M * (v.y / v.length M) +
      v.z / v.length M * (v.z / v.length M) = 1 := by
    field_simp
    linarith [hsq]
  show M.sqrt (v.x / v.length M * (v.x / v.length M) + v.y / v.length M * (v.y / v.length M) +
      v.z / v.length M * (v.z / v.length M)) = 1
  rw [hone, hsqrt, Real.sqrt_one]

theorem distanceTo_nonneg_real (M : JSMath ℝ) (hsqrt : M.sqrt = Real.sqrt)
    (a b : Vector3 ℝ) : 0 ≤ a.distanceTo M b := by
  simp only [Vector3.distanceTo, hsqrt]
  exact Real.sqrt_nonneg _

/-- C14. Arc control point, over the reals with `Math.sqrt` the real square
root: for `radius > 0` and two waypoints whose chord midpoint is not the
zero vector, the control point of `createArcCurve` is the normalised chord
midpoint (a unit vector) scaled by `radius + heightFactor`, where
`heightFactor` = 0.3 * chord distance; its distance from the centre is
`radius + heightFactor`; and `heightFactor` is monotonically non-decreasing
in the chord distance. -/
theorem C14_arc_control_point (M : JSMath ℝ) (hsqrt : M.sqrt = Real.sqrt)
    (startLat startLng endLat endLng radius : ℝ) (hr : 0 < radius)
    (hmid : ((latLongToVector3 M startLat startLng radius 0).addVectors
      (latLongToVector3 M endLat endLng radius 0)).multiplyScalar 0.5 ≠ ⟨0, 0, 0⟩) :
    (createArcCurve M startLat startLng endLat endLng radius).v1 =
      ((((latLongToVector3 M startLat startLng radius 0).addVectors
        (latLongToVector3 M endLat endLng radius 0)).multiplyScalar 0.5).normalize M).multiplyScalar
        (radius + heightFactor ((latLongToVector3 M startLat startLng radius 0).distanceTo M
          (latLongToVector3 M endLat endLng radius 0))) ∧
    ((((latLongToVector3 M startLat startLng radius 0).addVectors
      (latLongToVector3 M endLat endLng radius 0)).multiplyScalar 0.5).normalize M).length M = 1 ∧
    (createArcCurve M startLat startLng endLat endLng radius).v1.length M =
      radius + heightFactor ((latLongToVector3 M startLat startLng radius 0).distanceTo M
        (latLongToVector3 M endLat endLng radius 0)) ∧
    heightFactor ((latLongToVector3 M startLat startLng radius 0).distanceTo M
        (latLongToVector3 M endLat endLng radius 0)) =
      0.3 * (latLongToVector3 M startLat startLng radius 0).distanceTo M
        (latLongToVector3 M endLat endLng radius 0) ∧
    ∀ d₁ d₂ : ℝ, d₁ ≤ d₂ → heightFactor d₁ ≤ heightFactor d₂ := by
  have hd := distanceTo_nonneg_real M hsqrt (latLongToVector3 M startLat startLng radius 0)
    (latLongToVector3 M endLat endLng radius 0)
  have hunit := length_normalize_real M hsqrt _ hmid
  have hc : 0 ≤ radius + heightFactor ((latLongToVector3 M startLat startLng radius 0).distanceTo M
      (latLongToVector3 M endLat endLng radius 0)) := by
    unfold heightFactor
    have : (0 : ℝ) ≤ 0.3 := by norm_num
    nlinarith
  refine ⟨rfl, hunit, ?_, ?_, fun d₁ d₂ h => ?_⟩
  · show (((((latLongToVector3 M startLat startLng radius 0).addVectors
        (latLongToVector3 M endLat endLng radius 0)).multiplyScalar 0.5).normalize M).multiplyScalar
        (radius + heightFactor ((latLongToVector3 M startLat startLng radius 0).distanceTo M
          (latLongToVector3 M endLat endLng radius 0)))).length M = _
    rw [length_multiplyScalar_real M hsqrt _ _ hc, hunit, one_mul]
  · unfold heightFactor; ring
  · unfold heightFactor
    exact mul_le_mul_of_nonneg_right h (by norm_num)
/-- C14 (witness). For the waypoints (0°, 180°) and (90°, 180°) at radius 0.5
the chord midpoint is not the zero vector (its `y` is 0.25). -/
theorem C14_arc_control_point_witness :
    (createArcCurve (JSMath.mk Real.pi Real.sin Real.cos Real.sqrt) 0 180 90 180 0.5).v1.length
        (JSMath.mk Real.pi Real.sin Real.cos Real.sqrt) =
      0.5 + heightFactor
        ((latLongToVector3 (JSMath.mk Real.pi Real.sin Real.cos Real.sqrt) 0 180 0.5 0).distanceTo
          (JSMath.mk Real.pi Real.sin Real.cos Real.sqrt)
          (latLongToVector3 (JSMath.mk Real.pi Real.sin Real.cos Real.sqrt) 90 180 0.5 0)) :=
  (C14_arc_control_point (JSMath.mk Real.pi Real.sin Real.cos Real.sqrt) rfl 0 180 90 180 0.5
    (by norm_num)
    (by
      intro h
      have hy := congrArg Vector3.y h
      have h90 : (90 : ℝ) * Real.pi / 180 = Real.pi / 2 := by ring
      simp only [latLongToVector3, Vector3.addVectors, Vector3.multiplyScalar, h90,
        Real.sin_pi_div_two, zero_mul, zero_div, Real.sin_zero, mul_zero, add_zero, zero_add,
        mul_one] at hy
      norm_num at hy)).2.2.1

/-! ## Theorems: phases, leg index, visibility -/

theorem tick_outcome {K : Type} (travelJourney : List Location) (travelPaths : List (Leg K))
    (spawn : Bool) (s : State) (hinv : Inv travelPaths.length s) :
    ((s.isAnimating = false ∨ travelPaths.length ≤ s.currentPathIndex) ∧
      animateTravelPath travelJourney travelPaths spawn s = { s with planeVisible := false }) ∨
    (s.isAnimating = true ∧ s.currentPathIndex < travelPaths.length ∧ s.isPaused = true ∧
      s.pauseTimer + 16 < pauseDuration ∧
      animateTravelPath travelJourney travelPaths spawn s =
        { s with pauseTimer := s.pauseTimer + 16 }) ∨
    (s.isAnimating = true ∧ s.currentPathIndex < travelPaths.length ∧ s.isPaused = true ∧
      pauseDuration ≤ s.pauseTimer + 16 ∧ travelPaths.length ≤ s.currentPathIndex + 1 ∧
      (animateTravelPath travelJourney travelPaths spawn s).isAnimating = false ∧
      (animateTravelPath travelJourney travelPaths spawn s).isPaused = false ∧
      (animateTravelPath travelJourney travelPaths spawn s).currentPathIndex =
        s.currentPathIndex + 1 ∧
      (animateTravelPath travelJourney travelPaths spawn s).planeVisible = false) ∨
    (s.isAnimating = true ∧ s.currentPathIndex < travelPaths.length ∧ s.isPaused = true ∧
      pauseDuration ≤ s.pauseTimer + 16 ∧ s.currentPathIndex + 1 < travelPaths.length ∧
      (animateTravelPath travelJourney travelPaths spawn s).isAnimating = true ∧
      (animateTravelPath travelJourney travelPaths spawn s).isPaused = false ∧
      (animateTravelPath travelJourney travelPaths spawn s).currentPathIndex =
        s.currentPathIndex + 1 ∧
      (animateTravelPath travelJourney travelPaths spawn s).planeVisible = true ∧
      (animateTravelPath travelJourney travelPaths spawn s).animationProgress < 1) ∨
    (s.isAnimating = true ∧ s.currentPathIndex < travelPaths.length ∧ s.isPaused = false ∧
      (animateTravelPath travelJourney travelPaths spawn s).isAnimating = true ∧
      (animateTravelPath travelJourney travelPaths spawn s).isPaused = false ∧
      (animateTravelPath travelJourney travelPaths spawn s).currentPathIndex =
        s.currentPathIndex ∧
      (animateTravelPath travelJourney travelPaths spawn s).planeVisible = true ∧
      (animateTravelPath travelJourney travelPaths spawn s).animationProgress < 1) ∨
    (s.isAnimating = true ∧ s.currentPathIndex < travelPaths.length ∧ s.isPaused = false ∧
      (animateTravelPath travelJourney travelPaths spawn s).isAnimating = true ∧
      (animateTravelPath travelJourney travelPaths spawn s).isPaused = true ∧
      (animateTravelPath travelJourney travelPaths spawn s).currentPathIndex =
        s.currentPathIndex ∧
      (animateTravelPath travelJourney travelPaths spawn s).planeVisible = false) := by
  have hsp := speed_lt_of_inv hinv
  by_cases ha : s.isAnimating = true
  · by_cases hi : s.currentPathIndex < travelPaths.length
    · by_cases hp : s.isPaused = true
      · by_cases ht : s.pauseTimer + 16 < pauseDuration
        · exact Or.inr (Or.inl ⟨ha, hi, hp, ht,
            tick_dwell travelJourney travelPaths spawn s ha hp hi ht⟩)
        · have ht' : pauseDuration ≤ s.pauseTimer + 16 := not_lt.mp ht
          have htick := tick_dwell_end travelJourney travelPaths spawn s ha hp hi ht'
          by_cases hfin : s.currentPathIndex + 1 ≥ travelPaths.length
          · rw [if_pos hfin] at htick
            refine Or.inr (Or.inr (Or.inl ⟨ha, hi, hp, ht', hfin, ?_, ?_, ?_, ?_⟩)) <;>
              rw [htick]
          · rw [if_neg hfin] at htick
            have hs1 : (0 : ℚ) + s.animationSpeed < 1 := by
              have : (0.004 : ℚ) < 1 := by norm_num
              linarith [hsp.2]
            obtain ⟨f1, f2, f3, f4, -, -, f7⟩ :=
              tick_advance_fields travelJourney travelPaths spawn
                { s with isPaused := false, pauseTimer := 0, animationProgress := 0
                         currentPathIndex := s.currentPathIndex + 1 }
                ha rfl (lt_of_not_ge hfin) hs1
            have hsame : animateTravelPath travelJourney travelPaths spawn s =
                animateTravelPath travelJourney travelPaths spawn
                  { s with isPaused := false, pauseTimer := 0, animationProgress := 0
                           currentPathIndex := s.currentPathIndex + 1 } := by
              rw [htick]
              exact (tick_travel travelJourney travelPaths spawn
                { s with isPaused := false, pauseTimer := 0, animationProgress := 0
                         currentPathIndex := s.currentPathIndex + 1 }
                ha rfl (lt_of_not_ge hfin)).symm
            rw [← hsame] at f1 f2 f3 f4 f7
            exact Or.inr (Or.inr (Or.inr (Or.inl ⟨ha, hi, hp, ht', lt_of_not_ge hfin, f3, f4,
              f2, f7, by rw [f1]; exact hs1⟩)))
      · have hp' : s.isPaused = false := Bool.eq_false_iff.mpr hp
        by_cases hlt : s.animationProgress + s.animationSpeed < 1
        · obtain ⟨f1, f2, f3, f4, -, -, f7⟩ :=
            tick_advance_fields travelJourney travelPaths spawn s ha hp' hi hlt
          exact Or.inr (Or.inr (Or.inr (Or.inr (Or.inl ⟨ha, hi, hp', f3, f4, f2, f7,
            by rw [f1]; exact hlt⟩))))
        · have htick := tick_travel travelJourney travelPaths spawn s ha hp' hi
          rw [travelStep_arrive travelJourney spawn s (not_lt.mp hlt)] at htick
          have hshow : ∀ (o : Option Location) (t : State),
              (showLocationInfo o t).isAnimating = t.isAnimating ∧
              (showLocationInfo o t).currentPathIndex = t.currentPathIndex := by
            intro o t; cases o <;> exact ⟨rfl, rfl⟩
          refine Or.inr (Or.inr (Or.inr (Or.inr (Or.inr ⟨ha, hi, hp', ?_, ?_, ?_, ?_⟩)))) <;>
            rw [htick]
          · exact (hshow _ _).1.trans ha
          · exact (hshow _ _).2
    · refine Or.inl ⟨Or.inr (not_lt.mp hi), ?_⟩
      simp [animateTravelPath, not_lt.mp hi]
  · have ha' : s.isAnimating = false := Bool.eq_false_iff.mpr ha
    exact Or.inl ⟨Or.inl ha', tick_idle travelJourney travelPaths spawn s ha'⟩
theorem paused_hidden_step {K : Type} (travelJourney : List Location)
    (travelPaths : List (Leg K)) (op : Op) (s : State)
    (hinv : Inv travelPaths.length s) (h : s.isPaused = true → s.planeVisible = false) :
    (step travelJourney travelPaths op s).isPaused = true →
      (step travelJourney travelPaths op s).planeVisible = false := by
  cases op with
  | tick spawn =>
    show (animateTravelPath travelJourney travelPaths spawn s).isPaused = true →
      (animateTravelPath travelJourney travelPaths spawn s).planeVisible = false
    rcases tick_outcome travelJourney travelPaths spawn s hinv with
      ⟨-, e⟩ | ⟨-, -, hp, -, e⟩ | ⟨-, -, -, -, -, -, -, -, hv⟩ |
      ⟨-, -, -, -, -, -, hnp, -, -, -⟩ | ⟨-, -, -, -, hnp, -, -, -⟩ | ⟨-, -, -, -, -, -, hv⟩
    · rw [e]; intro _; rfl
    · rw [e]; intro _; exact h hp
    · intro _; exact hv
    · intro hc; rw [hnp] at hc; cases hc
    · intro hc; rw [hnp] at hc; cases hc
    · intro _; exact hv
  | updateTrail => exact h
  | createTrailParticle =>
    obtain ⟨-, -, -, c4, -, -, c7, -, -, -⟩ := createTrailParticle_journey s
    show (createTrailParticle s).isPaused = true → (createTrailParticle s).planeVisible = false
    rw [c4, c7]; exact h
  | play =>
    show (playClick travelPaths s).isPaused = true → (playClick travelPaths s).planeVisible = false
    unfold playClick
    simp only
    split <;> exact h
  | reset => intro hc; cases hc
  | speedSlow => exact h
  | speedNormal => exact h
  | speedFast => exact h

theorem paused_hidden_run {K : Type} (travelJourney : List Location)
    (travelPaths : List (Leg K)) (ops : List Op) :
    ∀ s : State, Inv travelPaths.length s → (s.isPaused = true → s.planeVisible = false) →
      (run travelJourney travelPaths ops s).isPaused = true →
      (run travelJourney travelPaths ops s).planeVisible = false := by
  induction ops with
  | nil => intro s _ h; exact h
  | cons op ops ih =>
    intro s hinv h
    exact ih _ (inv_step travelJourney travelPaths op hinv)
      (paused_hidden_step travelJourney travelPaths op s hinv h)

theorem paused_hidden_of_reachable {K : Type} {travelJourney : List Location}
    {travelPaths : List (Leg K)} {s : State} (hr : Reachable travelJourney travelPaths s) :
    s.isPaused = true → s.planeVisible = false := by
  obtain ⟨ops, rfl⟩ := hr
  exact paused_hidden_run travelJourney travelPaths ops init (inv_init _) (fun hc => by cases hc)

/-- C15. Phase order under ticks: in a reachable state with `isAnimating`
true, one tick of `animateTravelPath` takes `Traveling` only to `Traveling`
or `ArrivedPaused` (never to `Finished`) and `ArrivedPaused` only to
`ArrivedPaused`, `Traveling` or `Finished`; and the leg index changes only
on a tick that ends a pause (the state was paused with `pauseTimer + 16 ≥
pauseDuration`; the index then grows by 1). -/
theorem C15_phase_order {K : Type} (travelJourney : List Location)
    (travelPaths : List (Leg K)) (s : State) (spawn : Bool)
    (hr : Reachable travelJourney travelPaths s) (ha : s.isAnimating = true) :
    (phase travelPaths s = Phase.Traveling →
      phase travelPaths (animateTravelPath travelJourney travelPaths spawn s) = Phase.Traveling ∨
      phase travelPaths (animateTravelPath travelJourney travelPaths spawn s) =
        Phase.ArrivedPaused) ∧
    (phase travelPaths s = Phase.Traveling →
      phase travelPaths (animateTravelPath travelJourney travelPaths spawn s) ≠ Phase.Finished) ∧
    (phase travelPaths s = Phase.ArrivedPaused →
      phase travelPaths (animateTravelPath travelJourney travelPaths spawn s) =
        Phase.ArrivedPaused ∨
      phase travelPaths (animateTravelPath travelJourney travelPaths spawn s) = Phase.Traveling ∨
      phase travelPaths (animateTravelPath travelJourney travelPaths spawn s) = Phase.Finished) ∧
    ((animateTravelPath travelJourney travelPaths spawn s).currentPathIndex ≠ s.currentPathIndex →
      s.isPaused = true ∧ s.pauseTimer + 16 ≥ pauseDuration ∧
      (animateTravelPath travelJourney travelPaths spawn s).isPaused = false ∧
      (animateTravelPath travelJourney travelPaths spawn s).pauseTimer = 0 ∧
      (animateTravelPath travelJourney travelPaths spawn s).currentPathIndex =
        s.currentPathIndex + 1) := by
  have hinv := inv_of_reachable hr
  have hph : ∀ t : State, phase travelPaths t =
      if t.currentPathIndex ≥ travelPaths.length then Phase.Finished
      else if t.isPaused then Phase.ArrivedPaused
      else if t.isAnimating then Phase.Traveling
      else Phase.Idle := fun _ => rfl
  rcases tick_outcome travelJourney travelPaths spawn s hinv with
    ⟨hc, e⟩ | ⟨-, hi, hp, -, e⟩ | ⟨-, hi, hp, ht, hfin, f1, f2, f3, f4⟩ |
    ⟨-, hi, hp, ht, hnext, f1, f2, f3, f4, f5⟩ | ⟨-, hi, hp, f1, f2, f3, f4, f5⟩ |
    ⟨-, hi, hp, f1, f2, f3, f4⟩
  · have hge : travelPaths.length ≤ s.currentPathIndex := by
      rcases hc with hc | hc
      · rw [ha] at hc; cases hc
      · exact hc
    have hs : phase travelPaths s = Phase.Finished := by rw [hph, if_pos hge]
    rw [e]
    refine ⟨fun h => ?_, fun h => ?_, fun h => ?_, fun h => absurd rfl h⟩
    · rw [hs] at h; cases h
    · rw [hs] at h; cases h
    · rw [hs] at h; cases h
  · have hs : phase travelPaths s = Phase.ArrivedPaused := by
      rw [hph, if_neg (not_le.mpr hi), if_pos hp]
    have hs' : phase travelPaths (animateTravelPath travelJourney travelPaths spawn s) =
        Phase.ArrivedPaused := by
      rw [e, hph]
      show (if s.currentPathIndex ≥ travelPaths.length then Phase.Finished
        else if s.isPaused then Phase.ArrivedPaused
        else if s.isAnimating then Phase.Traveling else Phase.Idle) = _
      rw [if_neg (not_le.mpr hi), if_pos hp]
    refine ⟨fun h => ?_, fun h => ?_, fun _ => Or.inl hs', fun h => ?_⟩
    · rw [hs] at h; cases h
    · rw [hs] at h; cases h
    · rw [e] at h; exact absurd rfl h
  · have hs : phase travelPaths s = Phase.ArrivedPaused := by
      rw [hph, if_neg (not_le.mpr hi), if_pos hp]
    have hs' : phase travelPaths (animateTravelPath travelJourney travelPaths spawn s) =
        Phase.Finished := by
      rw [hph, if_pos (by rw [f3]; exact hfin)]
    have hpt : (animateTravelPath travelJourney travelPaths spawn s).pauseTimer = 0 := by
      rw [tick_dwell_end travelJourney travelPaths spawn s ha hp hi ht, if_pos hfin]
    refine ⟨fun h => ?_, fun h => ?_, fun _ => Or.inr (Or.inr hs'),
      fun _ => ⟨hp, ht, f2, hpt, f3⟩⟩
    · rw [hs] at h; cases h
    · rw [hs] at h; cases h
  · have hs : phase travelPaths s = Phase.ArrivedPaused := by
      rw [hph, if_neg (not_le.mpr hi), if_pos hp]
    have hs' : phase travelPaths (animateTravelPath travelJourney travelPaths spawn s) =
        Phase.Traveling := by
      rw [hph, if_neg (by rw [f3]; exact not_le.mpr hnext), f2, f1]
      rfl
    have hpt : (animateTravelPath travelJourney travelPaths spawn s).pauseTimer = 0 := by
      have hs1 : (0 : ℚ) + s.animationSpeed < 1 := by
        have : (0.004 : ℚ) < 1 := by norm_num
        linarith [(speed_lt_of_inv hinv).2]
      rw [tick_dwell_end travelJourney travelPaths spawn s ha hp hi ht,
        if_neg (not_le.mpr hnext),
        ← tick_travel travelJourney travelPaths spawn
          { s with isPaused := false, pauseTimer := 0, animationProgress := 0
                   currentPathIndex := s.currentPathIndex + 1 } ha rfl hnext]
      exact (tick_advance_fields travelJourney travelPaths spawn
        { s with isPaused := false, pauseTimer := 0, animationProgress := 0
                 currentPathIndex := s.currentPathIndex + 1 } ha rfl hnext hs1).2.2.2.2.2.1
    refine ⟨fun h => ?_, fun h => ?_, fun _ => Or.inr (Or.inl hs'),
      fun _ => ⟨hp, ht, f2, hpt, f3⟩⟩
    · rw [hs] at h; cases h
    · rw [hs] at h; cases h
  · have hs' : phase travelPaths (animateTravelPath travelJourney travelPaths spawn s) =
        Phase.Traveling := by
      rw [hph, if_neg (by rw [f3]; exact not_le.mpr hi), f2, f1]
      rfl
    refine ⟨fun _ => Or.inl hs', fun _ => ?_, fun _ => Or.inr (Or.inl hs'),
      fun h => absurd f3 h⟩
    rw [hs']; intro hc; cases hc
  · have hs' : phase travelPaths (animateTravelPath travelJourney travelPaths spawn s) =
        Phase.ArrivedPaused := by
      rw [hph, if_neg (by rw [f3]; exact not_le.mpr hi), f2]
      rfl
    refine ⟨fun _ => Or.inr hs', fun _ => ?_, fun _ => Or.inl hs', fun h => absurd f3 h⟩
    rw [hs']; intro hc; cases hc

/-- C15 (witness). On the built-in itinerary the state after play is
reachable and animating. -/
theorem C15_phase_order_witness :
    phase (travelPathsOf (JSMath.mk Real.pi Real.sin Real.cos Real.sqrt) travelJourney)
      (playClick (travelPathsOf (JSMath.mk Real.pi Real.sin Real.cos Real.sqrt) travelJourney)
        init) = Phase.Traveling ∧
    phase (travelPathsOf (JSMath.mk Real.pi Real.sin Real.cos Real.sqrt) travelJourney)
      (animateTravelPath travelJourney
        (travelPathsOf (JSMath.mk Real.pi Real.sin Real.cos Real.sqrt) travelJourney) true
        (playClick (travelPathsOf (JSMath.mk Real.pi Real.sin Real.cos Real.sqrt) travelJourney)
          init)) ≠ Phase.Finished :=
  ⟨by decide!,
    (C15_phase_order travelJourney
      (travelPathsOf (JSMath.mk Real.pi Real.sin Real.cos Real.sqrt) travelJourney)
      (playClick (travelPathsOf (JSMath.mk Real.pi Real.sin Real.cos Real.sqrt) travelJourney)
        init) true ⟨[Op.play], rfl⟩ (by decide!)).2.1 (by decide!)⟩

/-- C16 (as amended). Leg index: in every reachable state, a tick of
`animateTravelPath` never decreases `currentPathIndex` and increases it by
at most 1; a speed preset, `updateTrail` and `createTrailParticle` leave it
unchanged; the play/pause toggle leaves it unchanged while a leg is active
or when it pauses, and decreases it only when it starts play in the
finished state (`currentPathIndex` = number of legs ≥ 1, `isAnimating`
false), where it restarts at leg 0. -/
theorem C16_leg_index_monotone {K : Type} (travelJourney : List Location)
    (travelPaths : List (Leg K)) (s : State)
    (hr : Reachable travelJourney travelPaths s) :
    (∀ spawn : Bool,
      s.currentPathIndex ≤
        (animateTravelPath travelJourney travelPaths spawn s).currentPathIndex ∧
      (animateTravelPath travelJourney travelPaths spawn s).currentPathIndex ≤
        s.currentPathIndex + 1) ∧
    (speedSlowClick s).currentPathIndex = s.currentPathIndex ∧
    (speedNormalClick s).currentPathIndex = s.currentPathIndex ∧
    (speedFastClick s).currentPathIndex = s.currentPathIndex ∧
    (updateTrail s).currentPathIndex = s.currentPathIndex ∧
    (createTrailParticle s).currentPathIndex = s.currentPathIndex ∧
    (s.currentPathIndex < travelPaths.length →
      (playClick travelPaths s).currentPathIndex = s.currentPathIndex) ∧
    (s.isAnimating = true →
      (playClick travelPaths s).currentPathIndex = s.currentPathIndex) ∧
    ((playClick travelPaths s).currentPathIndex ≠ s.currentPathIndex →
      s.isAnimating = false ∧ s.currentPathIndex = travelPaths.length ∧
      1 ≤ travelPaths.length ∧ (playClick travelPaths s).currentPathIndex = 0) := by
  have hinv := inv_of_reachable hr
  refine ⟨fun spawn => ?_, rfl, rfl, rfl, rfl, (createTrailParticle_journey s).1,
    fun hlt => ?_, fun ha => ?_, fun hne => ?_⟩
  · rcases tick_outcome travelJourney travelPaths spawn s hinv with
      ⟨-, e⟩ | ⟨-, -, -, -, e⟩ | ⟨-, -, -, -, -, -, -, f3, -⟩ |
      ⟨-, -, -, -, -, -, -, f3, -, -⟩ | ⟨-, -, -, -, -, f3, -, -⟩ | ⟨-, -, -, -, -, f3, -⟩
    · rw [e]; exact ⟨le_refl _, Nat.le_succ _⟩
    · rw [e]; exact ⟨le_refl _, Nat.le_succ _⟩
    · rw [f3]; exact ⟨Nat.le_succ _, le_refl _⟩
    · rw [f3]; exact ⟨Nat.le_succ _, le_refl _⟩
    · rw [f3]; exact ⟨le_refl _, Nat.le_succ _⟩
    · rw [f3]; exact ⟨le_refl _, Nat.le_succ _⟩
  · simp [playClick, not_le.mpr hlt]
  · simp [playClick, ha]
  · by_cases hc : ((!s.isAnimating) && decide (s.currentPathIndex ≥ travelPaths.length)) = true
    · have hplay : playClick travelPaths s =
          { s with isAnimating := !s.isAnimating, currentPathIndex := 0,
                   animationProgress := 0 } := by
        unfold playClick
        simp only
        rw [if_pos hc]
      simp only [Bool.and_eq_true, Bool.not_eq_true', decide_eq_true_eq] at hc
      have hidx : s.currentPathIndex = travelPaths.length := le_antisymm hinv.index_le hc.2
      refine ⟨hc.1, hidx, ?_, by rw [hplay]⟩
      rw [hplay] at hne
      have h0 : s.currentPathIndex ≠ 0 := fun h => hne h.symm
      omega
    · have hplay : playClick travelPaths s = { s with isAnimating := !s.isAnimating } := by
        unfold playClick
        simp only
        rw [if_neg hc]
      rw [hplay] at hne
      exact absurd rfl hne

/-- C16 (witness). On the built-in itinerary, the state after play and 812
ticks is reachable and paused on leg 0; the tick that ends the pause moves
the leg index from 0 to 1, within the bounds of the theorem. For the
itinerary of the first two built-in waypoints, the state after play and 813
ticks is reachable and finished; the play/pause toggle changes the leg
index there, and the theorem gives that the machine was not animating, the
index was the number of legs (1) and the toggle sets it to 0. -/
theorem C16_leg_index_monotone_witness :
    ((run travelJourney
        (travelPathsOf (JSMath.mk Real.pi Real.sin Real.cos Real.sqrt) travelJourney)
        (Op.play :: List.replicate 812 (Op.tick false)) init).currentPathIndex = 0 ∧
      (animateTravelPath travelJourney
        (travelPathsOf (JSMath.mk Real.pi Real.sin Real.cos Real.sqrt) travelJourney) false
        (run travelJourney
          (travelPathsOf (JSMath.mk Real.pi Real.sin Real.cos Real.sqrt) travelJourney)
          (Op.play :: List.replicate 812 (Op.tick false)) init)).currentPathIndex = 1 ∧
      (run travelJourney
        (travelPathsOf (JSMath.mk Real.pi Real.sin Real.cos Real.sqrt) travelJourney)
        (Op.play :: List.replicate 812 (Op.tick false)) init).currentPathIndex ≤
      (animateTravelPath travelJourney
        (travelPathsOf (JSMath.mk Real.pi Real.sin Real.cos Real.sqrt) travelJourney) false
        (run travelJourney
          (travelPathsOf (JSMath.mk Real.pi Real.sin Real.cos Real.sqrt) travelJourney)
          (Op.play :: List.replicate 812 (Op.tick false)) init)).currentPathIndex ∧
      (animateTravelPath travelJourney
        (travelPathsOf (JSMath.mk Real.pi Real.sin Real.cos Real.sqrt) travelJourney) false
        (run travelJourney
          (travelPathsOf (JSMath.mk Real.pi Real.sin Real.cos Real.sqrt) travelJourney)
          (Op.play :: List.replicate 812 (Op.tick false)) init)).currentPathIndex ≤
      (run travelJourney
        (travelPathsOf (JSMath.mk Real.pi Real.sin Real.cos Real.sqrt) travelJourney)
        (Op.play :: List.replicate 812 (Op.tick false)) init).currentPathIndex + 1) ∧
    ((playClick (travelPathsOf (JSMath.mk Real.pi Real.sin Real.cos Real.sqrt)
          (travelJourney.take 2))
        (run (travelJourney.take 2)
          (travelPathsOf (JSMath.mk Real.pi Real.sin Real.cos Real.sqrt) (travelJourney.take 2))
          (Op.play :: List.replicate 813 (Op.tick false)) init)).currentPathIndex ≠
      (run (travelJourney.take 2)
        (travelPathsOf (JSMath.mk Real.pi Real.sin Real.cos Real.sqrt) (travelJourney.take 2))
        (Op.play :: List.replicate 813 (Op.tick false)) init).currentPathIndex ∧
      (run (travelJourney.take 2)
        (travelPathsOf (JSMath.mk Real.pi Real.sin Real.cos Real.sqrt) (travelJourney.take 2))
        (Op.play :: List.replicate 813 (Op.tick false)) init).isAnimating = false ∧
      (run (travelJourney.take 2)
        (travelPathsOf (JSMath.mk Real.pi Real.sin Real.cos Real.sqrt) (travelJourney.take 2))
        (Op.play :: List.replicate 813 (Op.tick false)) init).currentPathIndex =
        (travelPathsOf (JSMath.mk Real.pi Real.sin Real.cos Real.sqrt)
          (travelJourney.take 2)).length ∧
      1 ≤ (travelPathsOf (JSMath.mk Real.pi Real.sin Real.cos Real.sqrt)
          (travelJourney.take 2)).length ∧
      (playClick (travelPathsOf (JSMath.mk Real.pi Real.sin Real.cos Real.sqrt)
          (travelJourney.take 2))
        (run (travelJourney.take 2)
          (travelPathsOf (JSMath.mk Real.pi Real.sin Real.cos Real.sqrt) (travelJourney.take 2))
          (Op.play :: List.replicate 813 (Op.tick false)) init)).currentPathIndex = 0) :=
  ⟨⟨by rw [builtin_run_812]; rfl, by rw [builtin_run_812]; decide!,
      (C16_leg_index_monotone travelJourney
        (travelPathsOf (JSMath.mk Real.pi Real.sin Real.cos Real.sqrt) travelJourney)
        (run travelJourney
          (travelPathsOf (JSMath.mk Real.pi Real.sin Real.cos Real.sqrt) travelJourney)
          (Op.play :: List.replicate 812 (Op.tick false)) init) ⟨_, rfl⟩).1 false⟩,
    ⟨by rw [pair_run_813]; decide!,
      (C16_leg_index_monotone (travelJourney.take 2)
        (travelPathsOf (JSMath.mk Real.pi Real.sin Real.cos Real.sqrt) (travelJourney.take 2))
        (run (travelJourney.take 2)
          (travelPathsOf (JSMath.mk Real.pi Real.sin Real.cos Real.sqrt) (travelJourney.take 2))
          (Op.play :: List.replicate 813 (Op.tick false)) init) ⟨_, rfl⟩).2.2.2.2.2.2.2.2
        (by rw [pair_run_813]; decide!)⟩⟩

/-- C16 (counterexample). For the itinerary of the first two built-in
waypoints, the state after play and 813 ticks is finished with
`currentPathIndex` = 1; the play/pause toggle, which is not a reset, then
sets `currentPathIndex` to 0. -/
theorem C16_play_decreases_leg_index :
    (run (travelJourney.take 2)
      (travelPathsOf (JSMath.mk Real.pi Real.sin Real.cos Real.sqrt) (travelJourney.take 2))
      (Op.play :: List.replicate 813 (Op.tick false)) init).currentPathIndex = 1 ∧
    (playClick (travelPathsOf (JSMath.mk Real.pi Real.sin Real.cos Real.sqrt)
        (travelJourney.take 2))
      (run (travelJourney.take 2)
        (travelPathsOf (JSMath.mk Real.pi Real.sin Real.cos Real.sqrt) (travelJourney.take 2))
        (Op.play :: List.replicate 813 (Op.tick false)) init)).currentPathIndex = 0 ∧
    ¬ ((playClick (travelPathsOf (JSMath.mk Real.pi Real.sin Real.cos Real.sqrt)
        (travelJourney.take 2))
      (run (travelJourney.take 2)
        (travelPathsOf (JSMath.mk Real.pi Real.sin Real.cos Real.sqrt) (travelJourney.take 2))
        (Op.play :: List.replicate 813 (Op.tick false)) init)).currentPathIndex ≥
      (run (travelJourney.take 2)
        (travelPathsOf (JSMath.mk Real.pi Real.sin Real.cos Real.sqrt) (travelJourney.take 2))
        (Op.play :: List.replicate 813 (Op.tick false)) init).currentPathIndex) := by
  rw [pair_run_813]
  decide!

/-- C17. Vehicle visibility: immediately after every tick of
`animateTravelPath` from a reachable state, the vehicle is visible if and
only if the machine is traveling after that tick (`isAnimating` true,
`isPaused` false, `currentPathIndex` below the number of legs,
`animationProgress` below 1), that is, if and only if its phase is
`Traveling`; so it is hidden after every tick that leaves the machine
`ArrivedPaused`, `Idle` or `Finished`. -/
theorem C17_vehicle_visibility {K : Type} (travelJourney : List Location)
    (travelPaths : List (Leg K)) (s : State) (spawn : Bool)
    (hr : Reachable travelJourney travelPaths s) :
    ((animateTravelPath travelJourney travelPaths spawn s).planeVisible = true ↔
      (animateTravelPath travelJourney travelPaths spawn s).isAnimating = true ∧
      (animateTravelPath travelJourney travelPaths spawn s).isPaused = false ∧
      (animateTravelPath travelJourney travelPaths spawn s).currentPathIndex <
        travelPaths.length ∧
      (animateTravelPath travelJourney travelPaths spawn s).animationProgress < 1) ∧
    ((animateTravelPath travelJourney travelPaths spawn s).planeVisible = true ↔
      phase travelPaths (animateTravelPath travelJourney travelPaths spawn s) =
        Phase.Traveling) ∧
    (phase travelPaths (animateTravelPath travelJourney travelPaths spawn s) ≠ Phase.Traveling →
      (animateTravelPath travelJourney travelPaths spawn s).planeVisible = false) := by
  have hinv := inv_of_reachable hr
  have hinv' := inv_animateTravelPath travelJourney travelPaths spawn hinv
  have hhid := paused_hidden_of_reachable hr
  -- the phase is `Traveling` exactly when the three flags say so
  have hph : ∀ t : State, phase travelPaths t = Phase.Traveling ↔
      t.isAnimating = true ∧ t.isPaused = false ∧ t.currentPathIndex < travelPaths.length := by
    intro t
    unfold phase
    by_cases h1 : t.currentPathIndex ≥ travelPaths.length
    · rw [if_pos h1]
      exact ⟨fun h => (by cases h), fun h => absurd h.2.2 (not_lt.mpr h1)⟩
    · rw [if_neg h1]
      cases hp : t.isPaused with
      | true =>
        exact ⟨fun h => (by simp at h), fun h => by cases h.2.1⟩
      | false =>
        cases hb : t.isAnimating with
        | true => exact ⟨fun _ => ⟨rfl, rfl, lt_of_not_ge h1⟩, fun _ => by simp⟩
        | false => exact ⟨fun h => (by simp at h), fun h => by cases h.1⟩
  have key : (animateTravelPath travelJourney travelPaths spawn s).planeVisible = true ↔
      (animateTravelPath travelJourney travelPaths spawn s).isAnimating = true ∧
      (animateTravelPath travelJourney travelPaths spawn s).isPaused = false ∧
      (animateTravelPath travelJourney travelPaths spawn s).currentPathIndex <
        travelPaths.length := by
    rcases tick_outcome travelJourney travelPaths spawn s hinv with
      ⟨hc, e⟩ | ⟨-, -, hp, -, e⟩ | ⟨-, -, -, -, -, f1, -, -, f4⟩ |
      ⟨-, -, -, -, hnext, f1, f2, f3, f4, -⟩ | ⟨-, hi, -, f1, f2, f3, f4, -⟩ |
      ⟨-, -, -, -, f2, -, f4⟩
    · rw [e]
      constructor
      · intro h; cases h
      · intro h
        rcases hc with hc | hc
        · have : s.isAnimating = true := h.1
          rw [hc] at this; cases this
        · exact absurd h.2.2 (not_lt.mpr hc)
    · rw [e]
      constructor
      · intro h
        have : s.planeVisible = true := h
        rw [hhid hp] at this; cases this
      · intro h
        have : s.isPaused = false := h.2.1
        rw [hp] at this; cases this
    · rw [f4, f1]
      exact ⟨fun h => (by cases h), fun h => by cases h.1⟩
    · rw [f4, f1, f2, f3]
      exact ⟨fun _ => ⟨rfl, rfl, hnext⟩, fun _ => rfl⟩
    · rw [f4, f1, f2, f3]
      exact ⟨fun _ => ⟨rfl, rfl, hi⟩, fun _ => rfl⟩
    · rw [f4, f2]
      exact ⟨fun h => (by cases h), fun h => by cases h.2.1⟩
  refine ⟨?_, ?_, ?_⟩
  · rw [key]
    exact ⟨fun h => ⟨h.1, h.2.1, h.2.2, (hinv'.running h.2.1).1⟩, fun h => ⟨h.1, h.2.1, h.2.2.1⟩⟩
  · rw [key, hph]
  · intro hne
    cases hv : (animateTravelPath travelJourney travelPaths spawn s).planeVisible with
    | false => rfl
    | true => exact absurd ((hph _).mpr (key.mp hv)) hne

/-- C17 (witness). On the built-in itinerary the state after play is
reachable; after the next tick the vehicle is visible. -/
theorem C17_vehicle_visibility_witness :
    (animateTravelPath travelJourney
      (travelPathsOf (JSMath.mk Real.pi Real.sin Real.cos Real.sqrt) travelJourney) true
      (playClick (travelPathsOf (JSMath.mk Real.pi Real.sin Real.cos Real.sqrt) travelJourney)
        init)).planeVisible = true :=
  (C17_vehicle_visibility travelJourney
    (travelPathsOf (JSMath.mk Real.pi Real.sin Real.cos Real.sqrt) travelJourney)
    (playClick (travelPathsOf (JSMath.mk Real.pi Real.sin Real.cos Real.sqrt) travelJourney)
      init) true ⟨[Op.play], rfl⟩).2.1.mpr (by decide!)

/-! ## Theorems: trail -/

theorem createTrailParticle_meshCount (s : State) :
    (createTrailParticle s).meshCount = s.meshCount + 1 := by
  unfold createTrailParticle
  simp only
  split
  · split <;> rfl
  · rfl

theorem createTrailParticle_append (s : State) (h : s.planeTrail.length < maxTrailLength) :
    (createTrailParticle s).planeTrail = s.planeTrail ++ [newParticle s.meshCount] := by
  unfold createTrailParticle
  simp only
  rw [if_neg (by simp only [List.length_append, List.length_singleton]; omega)]
  rfl

theorem createTrailParticle_evict (s : State) (h : s.planeTrail.length = maxTrailLength) :
    (createTrailParticle s).planeTrail = s.planeTrail.tail ++ [newParticle s.meshCount] := by
  have hne : s.planeTrail ≠ [] := by
    intro hnil
    rw [hnil] at h
    cases h
  unfold createTrailParticle
  simp only
  rw [if_pos (by simp only [List.length_append, List.length_singleton]; omega)]
  split
  · rename_i old rest heq
    have := congrArg List.tail heq
    rw [List.tail_append_of_ne_nil hne] at this
    exact this.symm
  · rename_i heq
    simp at heq

theorem spawns_from_init (n : Nat) :
    (createTrailParticle^[n] init).meshCount = n ∧
    (createTrailParticle^[n] init).planeTrail =
      (List.range' (n - min n 20) (min n 20)).map newParticle := by
  induction n with
  | zero => exact ⟨rfl, rfl⟩
  | succ n ih =>
    obtain ⟨hm, ht⟩ := ih
    rw [Function.iterate_succ_apply']
    refine ⟨by rw [createTrailParticle_meshCount, hm], ?_⟩
    by_cases hn : n < 20
    · have hmin : min n 20 = n := Nat.min_eq_left (Nat.le_of_lt hn)
      have hmin' : min (n + 1) 20 = n + 1 := Nat.min_eq_left hn
      rw [hmin, Nat.sub_self] at ht
      rw [createTrailParticle_append _ (by rw [ht]; simpa [maxTrailLength] using hn), ht, hm,
        hmin', Nat.sub_self, List.range'_1_concat, List.map_append]
      simp
    · have hge : 20 ≤ n := not_lt.mp hn
      have hmin : min n 20 = 20 := Nat.min_eq_right hge
      have hmin' : min (n + 1) 20 = 20 := Nat.min_eq_right (Nat.le_succ_of_le hge)
      rw [hmin] at ht
      rw [createTrailParticle_evict _ (by rw [ht]; simp [maxTrailLength]), ht, hm, hmin']
      have h1 : List.range' (n - 20) 20 = (n - 20) :: List.range' (n - 20 + 1) 19 :=
        List.range'_succ _ _ _
      have h2 : List.range' (n + 1 - 20) 20 = List.range' (n + 1 - 20) 19 ++ [n + 1 - 20 + 19] :=
        List.range'_1_concat _ _
      have e1 : n - 20 + 1 = n + 1 - 20 := by omega
      have e2 : n + 1 - 20 + 19 = n := by omega
      rw [h1, h2, e1, e2]
      simp

/-- C19. FIFO eviction: for a trail of at most 20 particles,
`createTrailParticle` appends a new particle with life 1.0 at the end; if
the trail already held 20 particles, exactly the oldest one (index 0) is
removed, whatever its life, and all others keep their order and life.
Hence `n` consecutive spawns from the initial (empty) trail leave exactly
the last `min n 20` spawned particles, in spawn order (the `k`-th spawned
particle is `newParticle k`, counting from 0). -/
theorem C19_fifo_eviction (s : State) (h : s.planeTrail.length ≤ maxTrailLength) :
    (newParticle s.meshCount).life = 1 ∧
    (s.planeTrail.length < maxTrailLength →
      (createTrailParticle s).planeTrail = s.planeTrail ++ [newParticle s.meshCount]) ∧
    (s.planeTrail.length = maxTrailLength →
      (createTrailParticle s).planeTrail = s.planeTrail.tail ++ [newParticle s.meshCount]) ∧
    (createTrailParticle s).planeTrail.length = min (s.planeTrail.length + 1) maxTrailLength ∧
    ∀ n : Nat,
      (createTrailParticle^[n] init).planeTrail =
        (List.range' (n - min n 20) (min n 20)).map newParticle := by
  refine ⟨by norm_num [newParticle], createTrailParticle_append s, createTrailParticle_evict s,
    ?_, fun n => (spawns_from_init n).2⟩
  rcases Nat.lt_or_eq_of_le h with hlt | heq
  · rw [createTrailParticle_append s hlt, List.length_append, List.length_singleton]
    exact (Nat.min_eq_left hlt).symm
  · rw [createTrailParticle_evict s heq, List.length_append, List.length_singleton,
      List.length_tail, heq]
    rfl

/-- C19 (witness). After 20 spawns from the initial state the trail holds
20 particles, the meshes 0, ..., 19 in spawn order; the 21st spawn removes
the oldest one (mesh 0) and appends the new particle at the end, leaving
the meshes 1, ..., 20. -/
theorem C19_fifo_eviction_witness :
    (createTrailParticle^[20] init).planeTrail.length = maxTrailLength ∧
    (createTrailParticle^[20] init).planeTrail.map (fun p => p.mesh.id) = List.range' 0 20 ∧
    (createTrailParticle (createTrailParticle^[20] init)).planeTrail =
      (createTrailParticle^[20] init).planeTrail.tail ++
        [newParticle (createTrailParticle^[20] init).meshCount] ∧
    (createTrailParticle (createTrailParticle^[20] init)).planeTrail.map (fun p => p.mesh.id) =
      List.range' 1 20 :=
  ⟨by decide!, by decide!,
    (C19_fifo_eviction (createTrailParticle^[20] init) (by decide!)).2.2.1 (by decide!),
    by decide!⟩

theorem spawnFrame_meshCount (n : Nat) : (spawnFrame^[n] init).meshCount = n := by
  induction n with
  | zero => rfl
  | succ n ih =>
    rw [Function.iterate_succ_apply']
    show (createTrailParticle (spawnFrame^[n] init)).meshCount = n + 1
    rw [createTrailParticle_meshCount, ih]

/-- C18 (as amended). Scenario 4: from the initial (empty) trail, after 40
consecutive frames in each of which a particle is spawned
(`createTrailParticle` followed by `updateTrail`), exactly 19 particles
remain and they are the 19 most recently spawned, in spawn order: the
particle spawned in frame `n + 1` has mesh number `n`, and the trail holds
the meshes 21, ..., 39. The same holds for 40 calls of `render` with a
spawn in each, after play on the built-in itinerary. -/
theorem C18_trail_after_forty_frames :
    (∀ n : Nat, (spawnFrame^[n] init).meshCount = n) ∧
    (spawnFrame^[40] init).planeTrail.length = 19 ∧
    (spawnFrame^[40] init).planeTrail.map (fun p => p.mesh.id) = List.range' 21 19 ∧
    (renders travelJourney
      (travelPathsOf (JSMath.mk Real.pi Real.sin Real.cos Real.sqrt) travelJourney)
      (List.replicate 40 true)
      (playClick (travelPathsOf (JSMath.mk Real.pi Real.sin Real.cos Real.sqrt) travelJourney)
        init)).planeTrail.map (fun p => p.mesh.id) = List.range' 21 19 :=
  ⟨spawnFrame_meshCount,
    by simpa using congrArg List.length spawnFrame_forty_ids,
    spawnFrame_forty_ids, by decide!⟩

/-- C18 (counterexample). After 40 frames with a spawn in each, starting from
the empty trail, the trail holds 19 particles, not 20. -/
theorem C18_nineteen_particles_remain :
    init.planeTrail = [] ∧
    (spawnFrame^[40] init).planeTrail.length = 19 ∧
    (spawnFrame^[40] init).planeTrail.length ≠ 20 := by
  have h : (spawnFrame^[40] init).planeTrail.length = 19 := by
    simpa using congrArg List.length spawnFrame_forty_ids
  refine ⟨rfl, h, ?_⟩
  rw [h]
  decide

/-- C20 (the code at the failing input). On the built-in itinerary, after play,
two frames with a spawn and 17 frames without, the 20th call of
`animateTravelPath` leaves the trail with particle 0 at life 0.05 and
particle 1 at life 0.1. The call of `updateTrail` that follows removes
particle 0 and leaves particle 1 at life 0.1: its life is not reduced by
0.05. -/
theorem C20_decay_skips_after_removal :
    (animateTravelPath travelJourney
      (travelPathsOf (JSMath.mk Real.pi Real.sin Real.cos Real.sqrt) travelJourney) false
      (renders travelJourney
        (travelPathsOf (JSMath.mk Real.pi Real.sin Real.cos Real.sqrt) travelJourney)
        ([true, true] ++ List.replicate 17 false)
        (playClick
          (travelPathsOf (JSMath.mk Real.pi Real.sin Real.cos Real.sqrt) travelJourney)
          init))).planeTrail.map (fun p => (p.mesh.id, p.life)) = [(0, 0.05), (1, 0.1)] ∧
    (updateTrail (animateTravelPath travelJourney
      (travelPathsOf (JSMath.mk Real.pi Real.sin Real.cos Real.sqrt) travelJourney) false
      (renders travelJourney
        (travelPathsOf (JSMath.mk Real.pi Real.sin Real.cos Real.sqrt) travelJourney)
        ([true, true] ++ List.replicate 17 false)
        (playClick
          (travelPathsOf (JSMath.mk Real.pi Real.sin Real.cos Real.sqrt) travelJourney)
          init)))).planeTrail.map (fun p => (p.mesh.id, p.life)) = [(1, 0.1)] := by
  decide!

/-! ## Theorems: trail invariant -/

theorem map_set_same_id (f : Particle → Nat) :
    ∀ (t : List Particle) (i : Nat) (p p' : Particle), t[i]? = some p → f p' = f p →
      (t.set i p').map f = t.map f := by
  intro t
  induction t with
  | nil => intro i p p' h; simp at h
  | cons a t ih =>
    intro i p p' h hf
    cases i with
    | zero =>
      simp only [List.getElem?_cons_zero, Option.some.injEq] at h
      simp [hf, h]
    | succ i =>
      simp only [List.getElem?_cons_succ] at h
      simp [ih i p p' h hf]

theorem map_eraseIdx_comm {α β : Type} (f : α → β) :
    ∀ (t : List α) (i : Nat), (t.eraseIdx i).map f = (t.map f).eraseIdx i := by
  intro t
  induction t with
  | nil => intro i; rfl
  | cons a t ih =>
    intro i
    cases i with
    | zero => rfl
    | succ i => simp [ih i]

theorem eraseIdx_set_same {α : Type} :
    ∀ (t : List α) (i : Nat) (a : α), (t.set i a).eraseIdx i = t.eraseIdx i := by
  intro t
  induction t with
  | nil => intro i a; rfl
  | cons b t ih =>
    intro i a
    cases i with
    | zero => rfl
    | succ i => simp [ih i a]

theorem filter_ne_eq_eraseIdx (l : List Nat) (hl : l.Nodup) (i : Nat) (a : Nat)
    (h : l[i]? = some a) : l.filter (fun m => m != a) = l.eraseIdx i := by
  obtain ⟨hi, ha⟩ := List.getElem?_eq_some.mp h
  rw [← List.Nodup.erase_eq_filter hl a, ← ha]
  exact List.Nodup.erase_getElem hl i hi

theorem updateTrailLoop_inv (mc : Nat) (n : Nat) :
    ∀ (index : Nat) (t : List Particle) (sc : List Nat),
      (∀ p ∈ t, 0 < p.life ∧ p.life ≤ 1) → sc = t.map (fun p => p.mesh.id) →
      (t.map (fun p => p.mesh.id)).Nodup → (∀ p ∈ t, p.mesh.id < mc) →
      (∀ p ∈ (updateTrailLoop n index (t, sc)).1, 0 < p.life ∧ p.life ≤ 1) ∧
      (updateTrailLoop n index (t, sc)).2 =
        (updateTrailLoop n index (t, sc)).1.map (fun p => p.mesh.id) ∧
      ((updateTrailLoop n index (t, sc)).1.map (fun p => p.mesh.id)).Nodup ∧
      (∀ p ∈ (updateTrailLoop n index (t, sc)).1, p.mesh.id < mc) := by
  induction n with
  | zero => intro index t sc h1 h2 h3 h4; exact ⟨h1, h2, h3, h4⟩
  | succ n ih =>
    intro index t sc h1 h2 h3 h4
    rw [updateTrailLoop]
    split
    · exact ih _ _ _ h1 h2 h3 h4
    · rename_i particle hp
      have hmem : particle ∈ t := List.getElem?_mem hp
      have hid : (t.map (fun p => p.mesh.id))[index]? = some particle.mesh.id := by
        rw [List.getElem?_map, hp]; rfl
      simp only
      split
      · -- the particle is removed
        rw [eraseIdx_set_same]
        apply ih
        · intro p hpm; exact h1 p (List.mem_of_mem_eraseIdx hpm)
        · rw [map_eraseIdx_comm, h2]
          exact filter_ne_eq_eraseIdx _ h3 index _ hid
        · rw [map_eraseIdx_comm]; exact List.Nodup.eraseIdx index h3
        · intro p hpm; exact h4 p (List.mem_of_mem_eraseIdx hpm)
      · rename_i hlife
        have hids := map_set_same_id (fun p => p.mesh.id) t index particle
          { mesh := { particle.mesh with opacity := (particle.life - 0.05) * 0.8,
                                         scale := particle.mesh.scale * 0.95 }
            life := particle.life - 0.05 } hp rfl
        apply ih
        · intro p hpm
          rcases List.mem_or_eq_of_mem_set hpm with hin | heq
          · exact h1 p hin
          · rw [heq]
            refine ⟨lt_of_not_ge hlife, ?_⟩
            have := (h1 particle hmem).2
            show particle.life - 0.05 ≤ 1
            have h05 : (0 : ℚ) ≤ 0.05 := by norm_num
            linarith
        · rw [hids]; exact h2
        · rw [hids]; exact h3
        · intro p hpm
          rcases List.mem_or_eq_of_mem_set hpm with hin | heq
          · exact h4 p hin
          · rw [heq]; exact h4 particle hmem

theorem trailInv_updateTrail {s : State} (h : TrailInv s) : TrailInv (updateTrail s) := by
  obtain ⟨h1, h2, h3, h4⟩ := updateTrailLoop_inv s.meshCount s.planeTrail.length 0
    s.planeTrail s.sceneParticles h.life h.scene h.nodup h.fresh
  exact ⟨h1, h2, h3, h4⟩

theorem createTrailParticle_scene (s : State) :
    (s.planeTrail.length < maxTrailLength →
      (createTrailParticle s).sceneParticles = s.sceneParticles ++ [s.meshCount]) ∧
    (s.planeTrail.length = maxTrailLength → ∀ old, s.planeTrail[0]? = some old →
      (createTrailParticle s).sceneParticles =
        (s.sceneParticles ++ [s.meshCount]).filter (fun m => m != old.mesh.id)) := by
  constructor
  · intro h
    unfold createTrailParticle
    simp only
    rw [if_neg (by simp only [List.length_append, List.length_singleton]; omega)]
  · intro h old hold
    unfold createTrailParticle
    simp only
    rw [if_pos (by simp only [List.length_append, List.length_singleton]; omega)]
    split
    · rename_i old' rest heq
      have heq' : s.planeTrail ++ [newParticle s.meshCount] = old' :: rest := heq
      have h0 : (s.planeTrail ++ [newParticle s.meshCount])[0]? = some old := by
        rw [List.getElem?_append_left (by rw [h]; decide)]; exact hold
      rw [heq'] at h0
      simp only [List.getElem?_cons_zero, Option.some.injEq] at h0
      rw [h0]
    · rename_i heq
      simp at heq

theorem trailInv_createTrailParticle {s : State} (h : TrailInv s)
    (hlen : s.planeTrail.length ≤ maxTrailLength) : TrailInv (createTrailParticle s) := by
  have hnew : ∀ i ∈ s.planeTrail.map (fun p => p.mesh.id), i ≠ s.meshCount := by
    intro i hi
    obtain ⟨p, hp, rfl⟩ := List.mem_map.mp hi
    exact Nat.ne_of_lt (h.fresh p hp)
  have hall : ((s.planeTrail ++ [newParticle s.meshCount]).map (fun p => p.mesh.id)).Nodup := by
    rw [List.map_append, List.nodup_append]
    refine ⟨h.nodup, List.nodup_singleton _, ?_⟩
    intro a ha hb
    simp only [List.map_cons, List.map_nil, List.mem_singleton] at hb
    exact hnew a ha hb
  rcases Nat.lt_or_eq_of_le hlen with hlt | heq
  · refine ⟨?_, ?_, ?_, ?_⟩
    · rw [createTrailParticle_append s hlt]
      intro p hp
      rcases List.mem_append.mp hp with hin | hin
      · exact h.life p hin
      · rw [List.mem_singleton.mp hin]
        norm_num [newParticle]
    · rw [(createTrailParticle_scene s).1 hlt, createTrailParticle_append s hlt, h.scene]
      simp [newParticle]
    · rw [createTrailParticle_append s hlt]; exact hall
    · rw [createTrailParticle_append s hlt, createTrailParticle_meshCount]
      intro p hp
      rcases List.mem_append.mp hp with hin | hin
      · exact Nat.lt_succ_of_lt (h.fresh p hin)
      · rw [List.mem_singleton.mp hin]
        exact Nat.lt_succ_self _
  · have hne : s.planeTrail ≠ [] := by
      intro hnil; rw [hnil] at heq; cases heq
    obtain ⟨old, rest, hcons⟩ := List.exists_cons_of_ne_nil hne
    have hold : s.planeTrail[0]? = some old := by rw [hcons]; simp
    have htail : s.planeTrail.tail = rest := by rw [hcons]; rfl
    have hsub : ∀ p ∈ rest ++ [newParticle s.meshCount],
        p ∈ s.planeTrail ++ [newParticle s.meshCount] := by
      intro p hp
      rcases List.mem_append.mp hp with hin | hin
      · exact List.mem_append_left _ (by rw [hcons]; exact List.mem_cons_of_mem _ hin)
      · exact List.mem_append_right _ hin
    have hall' := hall
    rw [hcons] at hall'
    simp only [List.cons_append, List.map_cons, List.nodup_cons] at hall'
    refine ⟨?_, ?_, ?_, ?_⟩
    · rw [createTrailParticle_evict s heq, htail]
      intro p hp
      rcases List.mem_append.mp (hsub p hp) with hin | hin
      · exact h.life p hin
      · rw [List.mem_singleton.mp hin]
        norm_num [newParticle]
    · rw [(createTrailParticle_scene s).2 heq old hold, createTrailParticle_evict s heq, htail,
        h.scene]
      have hfull : s.planeTrail.map (fun p => p.mesh.id) ++ [s.meshCount] =
          (s.planeTrail ++ [newParticle s.meshCount]).map (fun p => p.mesh.id) := by
        simp [newParticle]
      rw [hfull, filter_ne_eq_eraseIdx _ hall 0 old.mesh.id (by rw [hcons]; simp), hcons]
      rfl
    · rw [createTrailParticle_evict s heq, htail]
      exact hall'.2
    · rw [createTrailParticle_evict s heq, htail, createTrailParticle_meshCount]
      intro p hp
      rcases List.mem_append.mp (hsub p hp) with hin | hin
      · exact Nat.lt_succ_of_lt (h.fresh p hin)
      · rw [List.mem_singleton.mp hin]
        exact Nat.lt_succ_self _

theorem trailInv_congr {t : State} (s : State) (h : TrailInv s)
    (h1 : t.planeTrail = s.planeTrail) (h2 : t.sceneParticles = s.sceneParticles)
    (h3 : t.meshCount = s.meshCount) : TrailInv t := by
  refine ⟨?_, ?_, ?_, ?_⟩
  · rw [h1]; exact h.life
  · rw [h1, h2]; exact h.scene
  · rw [h1]; exact h.nodup
  · rw [h1, h3]; exact h.fresh

theorem trailInv_travelStep {s : State} (travelJourney : List Location) (spawn : Bool)
    (h : TrailInv s) (hlen : s.planeTrail.length ≤ maxTrailLength) :
    TrailInv (travelStep travelJourney spawn s) := by
  unfold travelStep
  simp only
  split
  · cases travelJourney[s.currentPathIndex + 1]? with
    | none => exact trailInv_congr s h rfl rfl rfl
    | some l => exact trailInv_congr s h rfl rfl rfl
  · cases spawn with
    | false => exact trailInv_congr s h rfl rfl rfl
    | true =>
      exact trailInv_createTrailParticle
        (trailInv_congr s h rfl rfl rfl) hlen

theorem trailInv_animateTravelPath {K : Type} {s : State} (travelJourney : List Location)
    (travelPaths : List (Leg K)) (spawn : Bool) (h : TrailInv s)
    (hlen : s.planeTrail.length ≤ maxTrailLength) :
    TrailInv (animateTravelPath travelJourney travelPaths spawn s) := by
  unfold animateTravelPath
  split
  · exact trailInv_congr s h rfl rfl rfl
  · split
    · simp only
      split
      · split
        · exact trailInv_congr s h rfl rfl rfl
        · exact trailInv_travelStep travelJourney spawn
            (trailInv_congr s h rfl rfl rfl) hlen
      · exact trailInv_congr s h rfl rfl rfl
    · exact trailInv_travelStep travelJourney spawn h hlen

theorem foldl_filter_mem :
    ∀ (t : List Particle) (sc : List Nat) (m : Nat),
      m ∈ t.foldl (fun scene p => scene.filter (fun m => m != p.mesh.id)) sc →
      m ∈ sc ∧ m ∉ t.map (fun p => p.mesh.id) := by
  intro t
  induction t with
  | nil => intro sc m h; exact ⟨h, by simp⟩
  | cons a t ih =>
    intro sc m h
    obtain ⟨h1, h2⟩ := ih _ m h
    rw [List.mem_filter] at h1
    refine ⟨h1.1, ?_⟩
    simp only [List.map_cons, List.mem_cons, not_or]
    exact ⟨by simpa using h1.2, h2⟩

theorem resetClick_scene {s : State} (h : TrailInv s) : (resetClick s).sceneParticles = [] := by
  apply List.eq_nil_iff_forall_not_mem.mpr
  intro m hm
  obtain ⟨h1, h2⟩ := foldl_filter_mem s.planeTrail s.sceneParticles m hm
  rw [h.scene] at h1
  exact h2 h1

theorem trailInv_resetClick {s : State} (h : TrailInv s) : TrailInv (resetClick s) := by
  refine ⟨?_, ?_, ?_, ?_⟩
  · intro p hp; cases hp
  · rw [resetClick_scene h]; rfl
  · exact List.nodup_nil
  · intro p hp; cases hp

theorem trailInv_init : TrailInv init :=
  ⟨fun p hp => (by cases hp), rfl, List.nodup_nil, fun p hp => (by cases hp)⟩

theorem trailInv_step {K : Type} {s : State} (travelJourney : List Location)
    (travelPaths : List (Leg K)) (op : Op) (h : TrailInv s)
    (hlen : s.planeTrail.length ≤ maxTrailLength) :
    TrailInv (step travelJourney travelPaths op s) := by
  cases op with
  | tick spawn => exact trailInv_animateTravelPath travelJourney travelPaths spawn h hlen
  | updateTrail => exact trailInv_updateTrail h
  | createTrailParticle => exact trailInv_createTrailParticle h hlen
  | play =>
    show TrailInv (playClick travelPaths s)
    unfold playClick
    simp only
    split <;> exact trailInv_congr s h rfl rfl rfl
  | reset => exact trailInv_resetClick h
  | speedSlow => exact trailInv_congr s h rfl rfl rfl
  | speedNormal => exact trailInv_congr s h rfl rfl rfl
  | speedFast => exact trailInv_congr s h rfl rfl rfl

theorem trailInv_run {K : Type} (travelJourney : List Location) (travelPaths : List (Leg K))
    (ops : List Op) :
    ∀ s : State, Inv travelPaths.length s → TrailInv s →
      TrailInv (run travelJourney travelPaths ops s) := by
  induction ops with
  | nil => intro s _ h; exact h
  | cons op ops ih =>
    intro s hinv h
    exact ih _ (inv_step travelJourney travelPaths op hinv)
      (trailInv_step travelJourney travelPaths op h hinv.trail)

/-- C21. Expired particles are removed: in every state reached from the
initial state (empty trail) by any sequence of operations (among them
`createTrailParticle`, `updateTrail` and reset), every particle in the
trail has `0 < life ≤ 1`; in particular, right after `updateTrail` no
particle with `life ≤ 0` remains in the trail. -/
theorem C21_expired_particles_removed {K : Type} (travelJourney : List Location)
    (travelPaths : List (Leg K)) (ops : List Op) :
    (∀ p ∈ (run travelJourney travelPaths ops init).planeTrail, 0 < p.life ∧ p.life ≤ 1) ∧
    (∀ p ∈ (updateTrail (run travelJourney travelPaths ops init)).planeTrail, ¬ p.life ≤ 0) := by
  have h := trailInv_run travelJourney travelPaths ops init (inv_init _) trailInv_init
  refine ⟨h.life, fun p hp => not_le.mpr ((trailInv_updateTrail h).life p hp).1⟩

/-- C22. Particle resources are released on every removal path: after every
sequence of operations from the initial state (among them
`createTrailParticle`, `updateTrail` and reset), the particle meshes in the
scene are exactly the meshes of the particles in the trail (in the same
order, each once): decay removal, FIFO eviction and reset each take the
mesh out of the scene. -/
theorem C22_scene_matches_trail {K : Type} (travelJourney : List Location)
    (travelPaths : List (Leg K)) (ops : List Op) :
    (run travelJourney travelPaths ops init).sceneParticles =
      (run travelJourney travelPaths ops init).planeTrail.map (fun p => p.mesh.id) ∧
    ((run travelJourney travelPaths ops init).planeTrail.map (fun p => p.mesh.id)).Nodup ∧
    (∀ m : Nat, m ∈ (run travelJourney travelPaths ops init).sceneParticles ↔
      ∃ p ∈ (run travelJourney travelPaths ops init).planeTrail, p.mesh.id = m) := by
  have h := trailInv_run travelJourney travelPaths ops init (inv_init _) trailInv_init
  refine ⟨h.scene, h.nodup, fun m => ?_⟩
  rw [h.scene, List.mem_map]

/-! ## Theorems: camera fly-to -/

theorem easedProgress_lt_one_iff {K : Type} [LinearOrderedField K] (elapsed : K) :
    easedProgress elapsed < 1 ↔ elapsed < 1500 := by
  unfold easedProgress duration
  simp only
  have h1500 : (0 : K) < 1500 := by norm_num
  by_cases h : elapsed < 1500
  · have hq : elapsed / 1500 < 1 := (div_lt_one h1500).mpr h
    rw [min_eq_left (le_of_lt hq)]
    refine ⟨fun _ => h, fun _ => ?_⟩
    nlinarith [mul_pos (sub_pos.mpr hq) (sub_pos.mpr hq)]
  · have hq : 1 ≤ elapsed / 1500 := (one_le_div h1500).mpr (not_lt.mp h)
    rw [min_eq_right hq]
    refine ⟨fun hlt => ?_, fun hlt => absurd hlt h⟩
    norm_num at hlt

theorem easedProgress_of_ge {K : Type} [LinearOrderedField K] (elapsed : K)
    (h : 1500 ≤ elapsed) : easedProgress elapsed = 1 := by
  unfold easedProgress duration
  simp only
  have h1500 : (0 : K) < 1500 := by norm_num
  rw [min_eq_right ((one_le_div h1500).mpr h)]
  norm_num

theorem lerpVectors_one {K : Type} [Field K] (v1 v2 : Vector3 K) :
    Vector3.lerpVectors v1 v2 1 = v2 := by
  cases v2
  simp [Vector3.lerpVectors]

/-- C23. Fly-to termination: with `duration` = 1500 ms, raw progress
`min (elapsed / 1500) 1` and eased progress `p * (2 - p)`, a step of
`animateCamera` registers a further step if and only if `elapsed < 1500`
(that is, if and only if the eased progress is below 1); at a step with
`elapsed ≥ 1500` the eased progress is exactly 1, the camera position is
`targetPos` and no further step is registered. -/
theorem C23_fly_to_termination {K : Type} [LinearOrderedField K] (c : FlyTo K) (now : K)
    (camera : Camera K) :
    (duration : K) = 1500 ∧
    easedProgress (now - c.startTime) =
      min ((now - c.startTime) / 1500) 1 * (2 - min ((now - c.startTime) / 1500) 1) ∧
    (easedProgress (now - c.startTime) < 1 ↔ now - c.startTime < 1500) ∧
    (now - c.startTime < 1500 →
      (animateCamera c now camera).animationFrames = camera.animationFrames ++ [c]) ∧
    (1500 ≤ now - c.startTime →
      easedProgress (now - c.startTime) = 1 ∧
      (animateCamera c now camera).position = c.targetPos ∧
      (animateCamera c now camera).animationFrames = camera.animationFrames) ∧
    ((animateCamera c now camera).animationFrames = camera.animationFrames ++ [c] ↔
      now - c.startTime < 1500) := by
  have hiff := easedProgress_lt_one_iff (now - c.startTime)
  have hcont : now - c.startTime < 1500 →
      (animateCamera c now camera).animationFrames = camera.animationFrames ++ [c] := by
    intro h
    unfold animateCamera
    simp only
    rw [if_pos (hiff.mpr h)]
  have hstop : 1500 ≤ now - c.startTime →
      (animateCamera c now camera).animationFrames = camera.animationFrames := by
    intro h
    unfold animateCamera
    simp only
    rw [if_neg (fun hlt => absurd (hiff.mp hlt) (not_lt.mpr h))]
  refine ⟨rfl, rfl, hiff, hcont, fun h => ⟨easedProgress_of_ge _ h, ?_, hstop h⟩,
    ⟨fun heq => ?_, hcont⟩⟩
  · unfold animateCamera
    simp only
    rw [if_neg (fun hlt => absurd (hiff.mp hlt) (not_lt.mpr h)), easedProgress_of_ge _ h,
      lerpVectors_one]
  · by_contra hge
    rw [hstop (not_lt.mp hge)] at heq
    have := congrArg List.length heq
    simp at this
theorem cameraFrame_two {K : Type} [LinearOrderedField K] (c₁ c₂ : FlyTo K) (now : K)
    (camera : Camera K) (h : camera.animationFrames = [c₁, c₂]) :
    cameraFrame now camera =
      animateCamera c₂ now (animateCamera c₁ now { camera with animationFrames := [] }) := by
  unfold cameraFrame
  rw [h]
  rfl

theorem animateCamera_fields {K : Type} [LinearOrderedField K] (c : FlyTo K) (now : K)
    (camera : Camera K) :
    (animateCamera c now camera).position =
      Vector3.lerpVectors c.startPos c.targetPos (easedProgress (now - c.startTime)) ∧
    (animateCamera c now camera).positionLog = camera.positionLog ++
      [Vector3.lerpVectors c.startPos c.targetPos (easedProgress (now - c.startTime))] ∧
    (animateCamera c now camera).animationFrames =
      camera.animationFrames ++ (if now - c.startTime < 1500 then [c] else []) := by
  have hiff := easedProgress_lt_one_iff (now - c.startTime)
  unfold animateCamera
  simp only
  by_cases h : now - c.startTime < 1500
  · rw [if_pos (hiff.mpr h), if_pos h]
    exact ⟨rfl, rfl, rfl⟩
  · rw [if_neg (fun hlt => h (hiff.mp hlt)), if_neg h]
    exact ⟨rfl, rfl, (List.append_nil _).symm⟩

/-- C24 (as amended). Fly-to supersession: a second `showLocationInfo` call
does not abandon a running fly-to. The second closure starts from the
camera position at the time of the call and is registered after the first
(when its first step is before its `duration`); and in a refresh with the
two closures registered, the step of the first runs and writes the camera
position, then the step of the second runs and writes it, so that the
position after the refresh is the second transition's; each closure is
registered again exactly while its own elapsed time is below 1500 ms. -/
theorem C24_fly_to_supersession {K : Type} [LinearOrderedField K] (c₁ c₂ : FlyTo K)
    (camera : Camera K) (targetPos : Vector3 K) (startTime now : K)
    (h : camera.animationFrames = [c₁, c₂]) :
    (startFlyTo targetPos startTime now camera).animationFrames =
      camera.animationFrames ++
        (if now - startTime < 1500 then [⟨camera.position, targetPos, startTime⟩] else []) ∧
    (cameraFrame now camera).positionLog = camera.positionLog ++
      [Vector3.lerpVectors c₁.startPos c₁.targetPos (easedProgress (now - c₁.startTime)),
       Vector3.lerpVectors c₂.startPos c₂.targetPos (easedProgress (now - c₂.startTime))] ∧
    (cameraFrame now camera).position =
      Vector3.lerpVectors c₂.startPos c₂.targetPos (easedProgress (now - c₂.startTime)) ∧
    (cameraFrame now camera).animationFrames =
      (if now - c₁.startTime < 1500 then [c₁] else []) ++
        (if now - c₂.startTime < 1500 then [c₂] else []) := by
  refine ⟨(animateCamera_fields _ now camera).2.2, ?_, ?_, ?_⟩
  · rw [cameraFrame_two c₁ c₂ now camera h, (animateCamera_fields c₂ now _).2.1,
      (animateCamera_fields c₁ now _).2.1]
    simp
  · rw [cameraFrame_two c₁ c₂ now camera h, (animateCamera_fields c₂ now _).1]
  · rw [cameraFrame_two c₁ c₂ now camera h, (animateCamera_fields c₂ now _).2.2,
      (animateCamera_fields c₁ now _).2.2]
    simp

/-- C24 (witness). Two fly-tos started at times 0 and 100 from the camera at
`(0, 0, 2)` leave two closures registered; the theorem applies to the
refresh at time 116. -/
theorem C24_fly_to_supersession_witness :
    (cameraFrame (116 : ℚ)
      (startFlyTo ⟨0, 1, 0⟩ 100 100
        (startFlyTo ⟨1, 0, 0⟩ 0 0 ⟨⟨0, 0, 2⟩, [], []⟩))).animationFrames =
      (if (116 : ℚ) - 0 < 1500 then [⟨⟨0, 0, 2⟩, ⟨1, 0, 0⟩, 0⟩] else []) ++
        (if (116 : ℚ) - 100 < 1500 then [⟨⟨0, 0, 2⟩, ⟨0, 1, 0⟩, 100⟩] else []) :=
  (C24_fly_to_supersession (⟨⟨0, 0, 2⟩, ⟨1, 0, 0⟩, 0⟩ : FlyTo ℚ) ⟨⟨0, 0, 2⟩, ⟨0, 1, 0⟩, 100⟩
    (startFlyTo ⟨0, 1, 0⟩ 100 100 (startFlyTo ⟨1, 0, 0⟩ 0 0 ⟨⟨0, 0, 2⟩, [], []⟩))
    ⟨0, 0, 0⟩ 0 116 (by decide!)).2.2.2

/-- C24 (counterexample). The camera is at `(0, 0, 2)`; a fly-to towards
`(1, 0, 0)` starts at time 0 and a second one towards `(0, 1, 0)` at time
100, before the first has ended. In the refresh at time 116 two positions
are written, the first of them by the first transition (it differs from
the second transition's), and the first closure is registered again. -/
theorem C24_first_transition_still_runs :
    ((cameraFrame (116 : ℚ)
      (startFlyTo ⟨0, 1, 0⟩ 100 100
        (startFlyTo ⟨1, 0, 0⟩ 0 0 ⟨⟨0, 0, 2⟩, [], []⟩))).positionLog.drop 2 =
      [Vector3.lerpVectors ⟨0, 0, 2⟩ ⟨1, 0, 0⟩ (easedProgress (116 - 0)),
       Vector3.lerpVectors ⟨0, 0, 2⟩ ⟨0, 1, 0⟩ (easedProgress (116 - 100))]) ∧
    (Vector3.lerpVectors ⟨0, 0, 2⟩ ⟨1, 0, 0⟩ (easedProgress ((116 : ℚ) - 0)) ≠
      Vector3.lerpVectors ⟨0, 0, 2⟩ ⟨0, 1, 0⟩ (easedProgress (116 - 100))) ∧
    ((⟨⟨0, 0, 2⟩, ⟨1, 0, 0⟩, 0⟩ : FlyTo ℚ) ∈
      (cameraFrame (116 : ℚ)
        (startFlyTo ⟨0, 1, 0⟩ 100 100
          (startFlyTo ⟨1, 0, 0⟩ 0 0 ⟨⟨0, 0, 2⟩, [], []⟩))).animationFrames) := by
  decide!

/-! ## Theorems: render loop, chat history -/

theorem displayRefresh_steady (n : Nat) :
    displayRefresh { render := .animated, animationFrames := [.animated, .animated],
                     travelTicks := n } =
      { render := .animated, animationFrames := [.animated, .animated], travelTicks := n + 2 } :=
  rfl

theorem displayRefresh_iterate (n : Nat) :
    displayRefresh^[n + 1] scriptLoaded =
      { render := .animated, animationFrames := [.animated, .animated],
        travelTicks := 2 * n + 2 } := by
  induction n with
  | zero => rfl
  | succ n ih =>
    rw [Function.iterate_succ_apply', ih, displayRefresh_steady]
    congr 1

/-- C25 (the code at the failing input). Once the script has run, two callbacks
are registered: the original function (registered by the first `render()`)
and the animated one (registered by the second `render()`). The first
display refresh runs `animateTravelPath` once, and both callbacks register
the animated function; so the second and every later display refresh runs
`animateTravelPath` (and `updateTrail`) twice. -/
theorem C25_two_ticks_per_refresh :
    scriptLoaded.animationFrames = [RenderFn.original, RenderFn.animated] ∧
    (displayRefresh scriptLoaded).travelTicks = scriptLoaded.travelTicks + 1 ∧
    (displayRefresh scriptLoaded).animationFrames = [RenderFn.animated, RenderFn.animated] ∧
    (displayRefresh (displayRefresh scriptLoaded)).travelTicks =
      (displayRefresh scriptLoaded).travelTicks + 2 ∧
    ∀ n : Nat, (displayRefresh^[n + 2] scriptLoaded).travelTicks =
      (displayRefresh^[n + 1] scriptLoaded).travelTicks + 2 := by
  refine ⟨rfl, rfl, rfl, rfl, fun n => ?_⟩
  rw [displayRefresh_iterate (n + 1), displayRefresh_iterate n]
  show 2 * (n + 1) + 2 = 2 * n + 2 + 2
  omega

/-- C27 (the code at the failing input). With a history of five exchanges (ten
messages), after `sendMessage` has pushed the user's message and applied
its trimming step the history holds 11 messages, more than 10; in general
it holds `min (n + 1) 20` messages for a history of `n`: the limit is 20. -/
theorem C27_chat_history_limit_is_twenty :
    (sendMessagePush
      [⟨"user", "q1"⟩, ⟨"assistant", "a1"⟩, ⟨"user", "q2"⟩, ⟨"assistant", "a2"⟩,
       ⟨"user", "q3"⟩, ⟨"assistant", "a3"⟩, ⟨"user", "q4"⟩, ⟨"assistant", "a4"⟩,
       ⟨"user", "q5"⟩, ⟨"assistant", "a5"⟩] "q6").length = 11 ∧
    ∀ (chatHistory : List ChatMessage) (userMessage : String),
      (sendMessagePush chatHistory userMessage).length = min (chatHistory.length + 1) 20 := by
  refine ⟨by decide, fun chatHistory userMessage => ?_⟩
  unfold sendMessagePush
  simp only
  split
  · rename_i h
    simp only [List.length_append, List.length_singleton] at h
    simp only [List.length_drop, List.length_append, List.length_singleton]
    omega
  · rename_i h
    simp only [List.length_append, List.length_singleton] at h
    simp only [List.length_append, List.length_singleton]
    omega

/-! ## Theorems: overshoot, reads of a tick -/

/-- C28. Overshoot bound: in every reachable state `0 ≤ animationProgress <
1.004`; `animationProgress ≥ 1` holds only while `isPaused` is true (and
always while it is true); and the value reached on arrival is kept, not
clamped, during the dwell: a tick that stays paused leaves
`animationProgress` as it is. -/
theorem C28_overshoot_bound {K : Type} (travelJourney : List Location)
    (travelPaths : List (Leg K)) (s : State)
    (hr : Reachable travelJourney travelPaths s) :
    0 ≤ s.animationProgress ∧ s.animationProgress < 1.004 ∧
    (s.animationProgress ≥ 1 → s.isPaused = true) ∧
    (s.isPaused = true → s.animationProgress ≥ 1) ∧
    (∀ spawn : Bool, s.isPaused = true →
      (animateTravelPath travelJourney travelPaths spawn s).isPaused = true →
      (animateTravelPath travelJourney travelPaths spawn s).animationProgress =
        s.animationProgress) := by
  have hinv := inv_of_reachable hr
  refine ⟨hinv.progress_nonneg, ?_, fun hge => ?_, fun hp => (hinv.dwelling hp).1,
    fun spawn hp hp' => ?_⟩
  · cases hp : s.isPaused with
    | false => exact lt_trans (hinv.running hp).1 (by norm_num)
    | true => exact (hinv.dwelling hp).2.1
  · cases hp : s.isPaused with
    | false => exact absurd hge (not_le.mpr (hinv.running hp).1)
    | true => rfl
  · rcases tick_outcome travelJourney travelPaths spawn s hinv with
      ⟨-, e⟩ | ⟨-, -, -, -, e⟩ | ⟨-, -, -, -, -, -, hnp, -, -⟩ |
      ⟨-, -, -, -, -, -, hnp, -, -, -⟩ | ⟨-, -, hnp, -, -, -, -, -⟩ | ⟨-, -, hnp, -, -, -, -⟩
    · rw [e]
    · rw [e]
    · rw [hnp] at hp'; cases hp'
    · rw [hnp] at hp'; cases hp'
    · rw [hnp] at hp; cases hp
    · rw [hnp] at hp; cases hp

/-- C28 (witness). On the built-in itinerary the state after play and 812
ticks is reachable (it is in its arrival pause, with progress 1). -/
theorem C28_overshoot_bound_witness :
    (run travelJourney
      (travelPathsOf (JSMath.mk Real.pi Real.sin Real.cos Real.sqrt) travelJourney)
      (Op.play :: List.replicate 812 (Op.tick false)) init).animationProgress < 1.004 :=
  (C28_overshoot_bound travelJourney
    (travelPathsOf (JSMath.mk Real.pi Real.sin Real.cos Real.sqrt) travelJourney)
    (run travelJourney
      (travelPathsOf (JSMath.mk Real.pi Real.sin Real.cos Real.sqrt) travelJourney)
      (Op.play :: List.replicate 812 (Op.tick false)) init) ⟨_, rfl⟩).2.1

theorem reachesTravelStep_some {K : Type} (travelJourney : List Location)
    (travelPaths : List (Leg K)) (spawn : Bool) (s t : State)
    (h : reachesTravelStep travelPaths s = some t) :
    animateTravelPath travelJourney travelPaths spawn s = travelStep travelJourney spawn t ∧
    t.currentPathIndex < travelPaths.length := by
  unfold reachesTravelStep at h
  unfold animateTravelPath
  split at h
  · cases h
  · rename_i hc
    rw [if_neg hc]
    simp only [Bool.or_eq_true, Bool.not_eq_true', decide_eq_true_eq, not_or, not_le,
      Bool.not_eq_false, ge_iff_le] at hc
    split at h
    · rename_i hp
      rw [if_pos hp]
      simp only at h ⊢
      split at h
      · rename_i ht
        rw [if_pos ht]
        split at h
        · cases h
        · rename_i hfin
          rw [if_neg hfin]
          simp only [Option.some.injEq] at h
          rw [← h]
          exact ⟨rfl, lt_of_not_ge hfin⟩
      · cases h
    · rename_i hp
      rw [if_neg hp]
      simp only [Option.some.injEq] at h
      rw [← h]
      exact ⟨rfl, hc.2⟩

theorem reachesTravelStep_none {K : Type} (travelJourney : List Location)
    (travelPaths : List (Leg K)) (spawn : Bool) (s : State)
    (h : reachesTravelStep travelPaths s = none) :
    (animateTravelPath travelJourney travelPaths spawn s).infoLog = s.infoLog ∧
    (animateTravelPath travelJourney travelPaths spawn s).planeTrail = s.planeTrail := by
  unfold reachesTravelStep at h
  unfold animateTravelPath
  split at h
  · rename_i hc
    rw [if_pos hc]
    exact ⟨rfl, rfl⟩
  · rename_i hc
    rw [if_neg hc]
    split at h
    · rename_i hp
      rw [if_pos hp]
      simp only at h ⊢
      split at h
      · rename_i ht
        rw [if_pos ht]
        split at h
        · rename_i hfin
          rw [if_pos hfin]
          exact ⟨rfl, rfl⟩
        · cases h
      · rename_i ht
        rw [if_neg ht]
        exact ⟨rfl, rfl⟩
    · cases h

/-- C29. Arrival lookup is always in range: for every itinerary, with the
registry built from it (`travelPaths.length = travelJourney.length - 1`),
whenever a tick of `animateTravelPath` from any state reaches the read of
`travelPaths[currentPathIndex]` (and with it the call of
`updateJourneyStats` and possibly the arrival branch), in the state `t` it
is in then `currentPathIndex < travelPaths.length`, and
`travelPaths[currentPathIndex]`, `travelJourney[currentPathIndex]` and
`travelJourney[currentPathIndex + 1]` are defined, the latter two being the
start and end of that leg; so on arrival `showLocationInfo` is called
with a defined location. A tick that does not reach the read does not call
`showLocationInfo`. -/
theorem C29_lookup_in_range {K : Type} [Field K] (M : JSMath K)
    (travelJourney : List Location) (s t : State) (spawn : Bool)
    (h : reachesTravelStep (travelPathsOf M travelJourney) s = some t) :
    (travelPathsOf M travelJourney).length = travelJourney.length - 1 ∧
    animateTravelPath travelJourney (travelPathsOf M travelJourney) spawn s =
      travelStep travelJourney spawn t ∧
    t.currentPathIndex < (travelPathsOf M travelJourney).length ∧
    (∃ (leg : Leg K) (a b : Location),
      (travelPathsOf M travelJourney)[t.currentPathIndex]? = some leg ∧
      travelJourney[t.currentPathIndex]? = some a ∧
      travelJourney[t.currentPathIndex + 1]? = some b ∧
      leg.start = a ∧ leg.«end» = b ∧
      (t.animationProgress + t.animationSpeed ≥ 1 →
        travelStep travelJourney spawn t =
          { showLocationInfo (some b)
              { t with animationProgress := t.animationProgress + t.animationSpeed } with
            isPaused := true, planeVisible := false })) ∧
    (∀ u : State, reachesTravelStep (travelPathsOf M travelJourney) u = none →
      (animateTravelPath travelJourney (travelPathsOf M travelJourney) spawn u).infoLog =
        u.infoLog) := by
  obtain ⟨h1, h2⟩ := reachesTravelStep_some travelJourney (travelPathsOf M travelJourney)
    spawn s t h
  have hlen := travelPathsOf_length M travelJourney
  obtain ⟨a, b, ha, hb, hleg⟩ :=
    consecutiveLegs_getElem? M travelJourney t.currentPathIndex (by rw [← hlen]; exact h2)
  refine ⟨hlen, h1, h2, ⟨legOf M a b, a, b, ?_, ha, hb, rfl, rfl, fun hge => ?_⟩,
    fun u hu => (reachesTravelStep_none travelJourney _ spawn u hu).1⟩
  · rw [travelPathsOf_eq]; exact hleg
  · rw [travelStep_arrive travelJourney spawn t hge, hb]

/-- C29 (witness). On the built-in itinerary, the tick after play reaches the
read in the state play leaves. -/
theorem C29_lookup_in_range_witness :
    (playClick (travelPathsOf (JSMath.mk Real.pi Real.sin Real.cos Real.sqrt) travelJourney)
      init).currentPathIndex <
      (travelPathsOf (JSMath.mk Real.pi Real.sin Real.cos Real.sqrt) travelJourney).length :=
  (C29_lookup_in_range (JSMath.mk Real.pi Real.sin Real.cos Real.sqrt) travelJourney
    (playClick (travelPathsOf (JSMath.mk Real.pi Real.sin Real.cos Real.sqrt) travelJourney)
      init)
    (playClick (travelPathsOf (JSMath.mk Real.pi Real.sin Real.cos Real.sqrt) travelJourney)
      init) true (by decide!)).2.2.1

/-! ## Theorems: projection and arc midpoint -/

theorem latLongToVector3_norm_sq (M : JSMath ℝ) (hsin : M.sin = Real.sin)
    (hcos : M.cos = Real.cos) (latitude longitude radius height : ℝ) :
    (latLongToVector3 M latitude longitude radius height).x *
        (latLongToVector3 M latitude longitude radius height).x +
      (latLongToVector3 M latitude longitude radius height).y *
        (latLongToVector3 M latitude longitude radius height).y +
      (latLongToVector3 M latitude longitude radius height).z *
        (latLongToVector3 M latitude longitude radius height).z =
      (radius + height) * (radius + height) := by
  simp only [latLongToVector3, hsin, hcos]
  have h1 := Real.sin_sq_add_cos_sq (latitude * M.PI / 180)
  have h2 := Real.sin_sq_add_cos_sq ((longitude - 180) * M.PI / 180)
  generalize Real.sin (latitude * M.PI / 180) = sp at h1 ⊢
  generalize Real.cos (latitude * M.PI / 180) = cp at h1 ⊢
  generalize Real.sin ((longitude - 180) * M.PI / 180) = st at h2 ⊢
  generalize Real.cos ((longitude - 180) * M.PI / 180) = ct at h2 ⊢
  have e : -(radius + height) * cp * ct * (-(radius + height) * cp * ct) +
      (radius + height) * sp * ((radius + height) * sp) +
      (radius + height) * cp * st * ((radius + height) * cp * st) =
      (radius + height) * (radius + height) * (sp ^ 2 + cp ^ 2 * (st ^ 2 + ct ^ 2)) := by ring
  rw [e, h2, mul_one, h1, mul_one]

/-- C26. Projection lies on the sphere: over the reals (with the real sine,
cosine and square root), for all latitude, longitude, radius and height
the point `latLongToVector3` returns is at distance `|radius + height|`
from the origin; so arc endpoints (radius 0.5, height 0) are at distance
0.5, markers (height 0.01) at 0.51 and the camera fly-to target (height
1.3) at 1.8. -/
theorem C26_projection_on_sphere (latitude longitude radius height : ℝ) :
    (latLongToVector3 (JSMath.mk Real.pi Real.sin Real.cos Real.sqrt)
      latitude longitude radius height).length
        (JSMath.mk Real.pi Real.sin Real.cos Real.sqrt) = |radius + height| ∧
    (latLongToVector3 (JSMath.mk Real.pi Real.sin Real.cos Real.sqrt)
      latitude longitude 0.5 0).length (JSMath.mk Real.pi Real.sin Real.cos Real.sqrt) = 0.5 ∧
    (latLongToVector3 (JSMath.mk Real.pi Real.sin Real.cos Real.sqrt)
      latitude longitude 0.5 0.01).length (JSMath.mk Real.pi Real.sin Real.cos Real.sqrt) =
        0.51 ∧
    (latLongToVector3 (JSMath.mk Real.pi Real.sin Real.cos Real.sqrt)
      latitude longitude 0.5 1.3).length (JSMath.mk Real.pi Real.sin Real.cos Real.sqrt) =
        1.8 := by
  have key : ∀ r h : ℝ,
      (latLongToVector3 (JSMath.mk Real.pi Real.sin Real.cos Real.sqrt)
        latitude longitude r h).length (JSMath.mk Real.pi Real.sin Real.cos Real.sqrt) =
        |r + h| := by
    intro r h
    show Real.sqrt _ = _
    rw [latLongToVector3_norm_sq _ rfl rfl, Real.sqrt_mul_self_eq_abs]
  refine ⟨key _ _, ?_, ?_, ?_⟩
  · rw [key]; norm_num
  · rw [key]; norm_num [abs_of_pos]
  · rw [key]; norm_num [abs_of_pos]
theorem arc_midpoint_length (M : JSMath ℝ) (hsqrt : M.sqrt = Real.sqrt) (a b : Vector3 ℝ)
    (r : ℝ) (hr : 0 < r)
    (ha : a.x * a.x + a.y * a.y + a.z * a.z = r * r)
    (hb : b.x * b.x + b.y * b.y + b.z * b.z = r * r)
    (hd2 : a.distanceTo M b < 2 * r) :
    ((⟨a, (((a.addVectors b).multiplyScalar 0.5).normalize M).multiplyScalar
        (r + a.distanceTo M b * 0.3), b⟩ : QuadraticBezierCurve3 ℝ).getPoint (1 / 2)).length M =
      (Real.sqrt (r ^ 2 - (a.distanceTo M b) ^ 2 / 4) + r + 0.3 * a.distanceTo M b) / 2 := by
  have hd0 : 0 ≤ a.distanceTo M b := distanceTo_nonneg_real M hsqrt a b
  have hdd : a.distanceTo M b * a.distanceTo M b =
      (a.x - b.x) * (a.x - b.x) + (a.y - b.y) * (a.y - b.y) + (a.z - b.z) * (a.z - b.z) := by
    simp only [Vector3.distanceTo, hsqrt]
    exact Real.mul_self_sqrt
      (add_nonneg (add_nonneg (mul_self_nonneg _) (mul_self_nonneg _)) (mul_self_nonneg _))
  generalize a.distanceTo M b = d at hd0 hdd hd2 ⊢
  have hmm : ((a.addVectors b).multiplyScalar 0.5).x * ((a.addVectors b).multiplyScalar 0.5).x +
      ((a.addVectors b).multiplyScalar 0.5).y * ((a.addVectors b).multiplyScalar 0.5).y +
      ((a.addVectors b).multiplyScalar 0.5).z * ((a.addVectors b).multiplyScalar 0.5).z =
      r ^ 2 - d ^ 2 / 4 := by
    simp only [Vector3.addVectors, Vector3.multiplyScalar]
    norm_num
    linear_combination (1 / 2) * ha + (1 / 2) * hb + (1 / 4) * hdd
  have hpos : 0 < r ^ 2 - d ^ 2 / 4 := by nlinarith
  have hL : ((a.addVectors b).multiplyScalar 0.5).length M = Real.sqrt (r ^ 2 - d ^ 2 / 4) := by
    simp only [Vector3.length, hsqrt]
    rw [hmm]
  have hLpos : 0 < Real.sqrt (r ^ 2 - d ^ 2 / 4) := Real.sqrt_pos.mpr hpos
  have hc : 0 ≤ r + d * 0.3 := by
    have : (0 : ℝ) ≤ 0.3 := by norm_num
    nlinarith
  generalize Real.sqrt (r ^ 2 - d ^ 2 / 4) = L at hL hLpos ⊢
  have hne : L ≠ 0 := ne_of_gt hLpos
  have hcomp : ∀ p q : ℝ,
      (1 - 1 / 2) * (1 - 1 / 2) * p + 2 * (1 - 1 / 2) * (1 / 2) * ((p + q) * 0.5 / L * (r + d * 0.3)) +
        1 / 2 * (1 / 2) * q = (p + q) * 0.5 * ((L + (r + d * 0.3)) / (2 * L)) := by
    intro p q
    field_simp
    ring
  have hpoint : (⟨a, (((a.addVectors b).multiplyScalar 0.5).normalize M).multiplyScalar
        (r + d * 0.3), b⟩ : QuadraticBezierCurve3 ℝ).getPoint (1 / 2) =
      ((a.addVectors b).multiplyScalar 0.5).multiplyScalar
        ((L + (r + d * 0.3)) / (2 * L)) := by
    simp only [QuadraticBezierCurve3.getPoint, b2, Vector3.normalize, Vector3.divideScalar, hL]
    simp only [Vector3.multiplyScalar, Vector3.addVectors]
    rw [hcomp a.x b.x, hcomp a.y b.y, hcomp a.z b.z]
  rw [hpoint, length_multiplyScalar_real M hsqrt _ _
    (div_nonneg (by linarith) (by linarith)), hL]
  field_simp
  ring

theorem arc_clearance_iff (r d s : ℝ) (hr : 0 < r) (hd0 : 0 < d) (hd2 : d < 2 * r)
    (hs0 : 0 ≤ s) (hs : s * s = r ^ 2 - d ^ 2 / 4) :
    (r ≤ (s + r + 0.3 * d) / 2 ↔ d ≤ 30 / 17 * r) := by
  constructor
  · intro h
    have h1 : r - 0.3 * d ≤ s := by linarith
    have h2 : 0 < r - 0.3 * d := by
      have : (0.3 : ℝ) * d < 0.3 * (2 * r) := by
        apply mul_lt_mul_of_pos_left hd2; norm_num
      norm_num at this ⊢
      linarith
    have h3 : (r - 0.3 * d) * (r - 0.3 * d) ≤ s * s := by nlinarith
    rw [hs] at h3
    have h4 : d * (0.34 * d) ≤ d * (0.6 * r) := by
      norm_num at h3 ⊢
      nlinarith
    have h5 : 0.34 * d ≤ 0.6 * r := le_of_mul_le_mul_left h4 hd0
    norm_num at h5 ⊢
    linarith
  · intro h
    by_contra hlt
    have h1 : s < r - 0.3 * d := by linarith [not_le.mp hlt]
    have h3 : s * s < (r - 0.3 * d) * (r - 0.3 * d) := by nlinarith
    rw [hs] at h3
    have h4 : d * (0.6 * r) < d * (0.34 * d) := by
      norm_num at h3 ⊢
      nlinarith
    have h5 : 0.6 * r < 0.34 * d := lt_of_mul_lt_mul_left h4 (le_of_lt hd0)
    norm_num at h5 h
    linarith

/-- C30. Arc midpoint clearance, over the reals with the real sine, cosine
and square root: for `r > 0` and two projected waypoints at chord distance
`d` with `0 < d < 2 r`, the point of the curve of `createArcCurve` at
`t = 1/2` is at distance `(sqrt (r^2 - d^2/4) + r + 0.3 d) / 2` from the
centre; this is at least `r` if and only if `d ≤ (30/17) r`, and for longer
chords the midpoint of the arc lies strictly inside the sphere. -/
theorem C30_arc_midpoint_clearance (M : JSMath ℝ) (hsin : M.sin = Real.sin)
    (hcos : M.cos = Real.cos) (hsqrt : M.sqrt = Real.sqrt)
    (startLat startLng endLat endLng r : ℝ) (hr : 0 < r)
    (hd0 : 0 < (latLongToVector3 M startLat startLng r 0).distanceTo M
      (latLongToVector3 M endLat endLng r 0))
    (hd2 : (latLongToVector3 M startLat startLng r 0).distanceTo M
      (latLongToVector3 M endLat endLng r 0) < 2 * r) :
    ((createArcCurve M startLat startLng endLat endLng r).getPoint (1 / 2)).length M =
      (Real.sqrt (r ^ 2 - ((latLongToVector3 M startLat startLng r 0).distanceTo M
          (latLongToVector3 M endLat endLng r 0)) ^ 2 / 4) + r +
        0.3 * (latLongToVector3 M startLat startLng r 0).distanceTo M
          (latLongToVector3 M endLat endLng r 0)) / 2 ∧
    (r ≤ ((createArcCurve M startLat startLng endLat endLng r).getPoint (1 / 2)).length M ↔
      (latLongToVector3 M startLat startLng r 0).distanceTo M
        (latLongToVector3 M endLat endLng r 0) ≤ 30 / 17 * r) ∧
    (30 / 17 * r < (latLongToVector3 M startLat startLng r 0).distanceTo M
        (latLongToVector3 M endLat endLng r 0) →
      ((createArcCurve M startLat startLng endLat endLng r).getPoint (1 / 2)).length M < r) := by
  have ha := latLongToVector3_norm_sq M hsin hcos startLat startLng r 0
  have hb := latLongToVector3_norm_sq M hsin hcos endLat endLng r 0
  rw [add_zero] at ha hb
  have hlen := arc_midpoint_length M hsqrt (latLongToVector3 M startLat startLng r 0)
    (latLongToVector3 M endLat endLng r 0) r hr ha hb hd2
  have hcurve : createArcCurve M startLat startLng endLat endLng r =
      ⟨latLongToVector3 M startLat startLng r 0,
        ((((latLongToVector3 M startLat startLng r 0).addVectors
          (latLongToVector3 M endLat endLng r 0)).multiplyScalar 0.5).normalize M).multiplyScalar
          (r + (latLongToVector3 M startLat startLng r 0).distanceTo M
            (latLongToVector3 M endLat endLng r 0) * 0.3),
        latLongToVector3 M endLat endLng r 0⟩ := rfl
  rw [hcurve, hlen]
  generalize (latLongToVector3 M startLat startLng r 0).distanceTo M
    (latLongToVector3 M endLat endLng r 0) = d at hd0 hd2 ⊢
  have hpos : 0 ≤ r ^ 2 - d ^ 2 / 4 := by nlinarith
  have hiff := arc_clearance_iff r d (Real.sqrt (r ^ 2 - d ^ 2 / 4)) hr hd0 hd2
    (Real.sqrt_nonneg _) (Real.mul_self_sqrt hpos)
  refine ⟨rfl, hiff, fun h => ?_⟩
  exact lt_of_not_ge (fun hge => absurd (hiff.mp hge) (not_le.mpr h))

/-- C30 (witness). For the waypoints (0°, 180°) and (90°, 180°) at radius 0.5
the chord distance is `sqrt 0.5`, between 0 and 1. -/
theorem C30_arc_midpoint_clearance_witness :
    ((createArcCurve (JSMath.mk Real.pi Real.sin Real.cos Real.sqrt) 0 180 90 180 0.5).getPoint
        (1 / 2)).length (JSMath.mk Real.pi Real.sin Real.cos Real.sqrt) =
      (Real.sqrt ((0.5 : ℝ) ^ 2 -
          ((latLongToVector3 (JSMath.mk Real.pi Real.sin Real.cos Real.sqrt) 0 180 0.5 0).distanceTo
            (JSMath.mk Real.pi Real.sin Real.cos Real.sqrt)
            (latLongToVector3 (JSMath.mk Real.pi Real.sin Real.cos Real.sqrt) 90 180 0.5 0)) ^ 2 /
            4) + 0.5 +
        0.3 * (latLongToVector3 (JSMath.mk Real.pi Real.sin Real.cos Real.sqrt) 0 180 0.5
          0).distanceTo (JSMath.mk Real.pi Real.sin Real.cos Real.sqrt)
          (latLongToVector3 (JSMath.mk Real.pi Real.sin Real.cos Real.sqrt) 90 180 0.5 0)) / 2 := by
  have h90 : (90 : ℝ) * Real.pi / 180 = Real.pi / 2 := by ring
  have hd : (latLongToVector3 (JSMath.mk Real.pi Real.sin Real.cos Real.sqrt) 0 180 0.5
      0).distanceTo (JSMath.mk Real.pi Real.sin Real.cos Real.sqrt)
      (latLongToVector3 (JSMath.mk Real.pi Real.sin Real.cos Real.sqrt) 90 180 0.5 0) =
      Real.sqrt 0.5 := by
    simp only [latLongToVector3, Vector3.distanceTo, h90, Real.sin_pi_div_two,
      Real.cos_pi_div_two, sub_self, zero_mul, zero_div, Real.sin_zero, Real.cos_zero,
      mul_zero, mul_one, add_zero, sub_zero, zero_sub]
    congr 1
    norm_num
  exact (C30_arc_midpoint_clearance (JSMath.mk Real.pi Real.sin Real.cos Real.sqrt) rfl rfl rfl
    0 180 90 180 0.5 (by norm_num)
    (by rw [hd]; exact Real.sqrt_pos.mpr (by norm_num))
    (by rw [hd, Real.sqrt_lt' (by norm_num)]; norm_num)).1

end Journey
